import Mathlib

/-!
Iron control core: `Core/Src/iron.c`

A shallow embedding of the soldering-iron control module.  The global `Iron`, the global
`systemSettings`, the function-local statics of `handleIron` and `setSetTemperature`, the two
callback lists and the hardware registers the module writes are the fields of one state record
`Sys`; every C function is a Lean function on `Sys`.

Conventions of the embedding

* `uint32_t` arithmetic is written on `Nat` with an explicit `% 4294967296`, `uint16_t` with an
  explicit `% 65536`; comparisons the C code performs after integer promotion are made in `Int`.
* Values read from collaborators that are not part of `iron.c` (tick counter, ADC filter,
  sensors, PID block, checksums) are the fields of `Inputs`, one record per call of `handleIron`.
  `HAL_GetTick` is sampled once per call of a public function.
* `float` is not modelled: the result of `calculatePID` is an abstract record `PidFloat` giving
  the outcome of each of the four operations iron.c performs on it.
* Calls that leave the module (buzzer, callbacks, `saveSettings`, HAL) are appended to
  `Sys.events`.  `Error_Handler` and `FatalError` do not return: a function that reaches one of
  them ends with `Outcome.halt`, carrying the state at that point.
-/

namespace IronCtl

/-! ## Constants and enumerations declared in headers -/

/-- Build-time values that iron.c takes from headers outside `Core/Src/iron.c`.  They are kept as
parameters; `run_ne_sleep` records that two `case` labels of one `switch` are distinct. -/
structure Board where
  mode_run : Nat
  mode_sleep : Nat
  ADC_MEASURE_TIME : Nat
  TempConversion : Nat → Bool → Nat
  run_ne_sleep : mode_run ≠ mode_sleep

/-- Values of `Iron.presence`. -/
inductive Presence where
  | isPresent
  | notPresent
  deriving DecidableEq, Repr

/-- Values of `Iron.updateMode` and `Iron.updatePwm`. -/
inductive UpdateFlag where
  | no_update
  | needs_update
  deriving DecidableEq, Repr

/-- Values of `Iron.DebugMode`. -/
inductive DebugMode where
  | debug_Off
  | debug_On
  deriving DecidableEq, Repr

/-- Values of `Iron.calibrating`. -/
inductive Calibration where
  | calibration_Off
  | calibration_On
  deriving DecidableEq, Repr

/-- Values of `systemSettings.setupMode`. -/
inductive SetupMode where
  | setup_Off
  | setup_On
  deriving DecidableEq, Repr

/-- Values of `systemSettings.settings.currentProfile`. -/
inductive ProfileId where
  | profile_None
  | profile_T12
  | profile_C245
  | profile_C210
  deriving DecidableEq, Repr

/-- Values of the two `tempUnit` fields. -/
inductive TempUnit where
  | mode_Celsius
  | mode_Farenheit
  deriving DecidableEq, Repr

/-- Values of `Iron.RunawayStatus`. -/
inductive RunawayStatus where
  | runaway_ok
  | runaway_triggered
  deriving DecidableEq, Repr

/-- Argument of `IronWake`: 0 = handle button, 1 = encoder. -/
inductive WakeSource where
  | source_wakeButton
  | source_encoder
  deriving DecidableEq, Repr

/-- Modelled from the spec: the runaway tiers of iron.h, numbered in the order ok, 25, 50, 75,
100, 500 so that `TempStep * level` is the margin of the tier (the loop at line 212 runs from
`runaway_100` down to `runaway_ok`). -/
def runaway_ok : Nat := 0

/-- Modelled from the spec: tier one step over the setpoint. -/
def runaway_25 : Nat := 1

/-- Modelled from the spec: tier two steps over the setpoint. -/
def runaway_50 : Nat := 2

/-- Modelled from the spec: tier three steps over the setpoint. -/
def runaway_75 : Nat := 3

/-- Modelled from the spec: tier four steps over the setpoint. -/
def runaway_100 : Nat := 4

/-- Modelled from the spec: tier of the absolute temperature limit. -/
def runaway_500 : Nat := 5

/-- Codes passed to `FatalError`. -/
inductive ErrorCode where
  | error_RUNAWAY25
  | error_RUNAWAY50
  | error_RUNAWAY75
  | error_RUNAWAY100
  | error_RUNAWAY500
  | error_RUNAWAY_UNKNOWN
  deriving DecidableEq, Repr

/-- Ways in which a function of the module stops without returning.  `division_by_zero` is not
a call: it marks the undefined integer division by `Profile.impedance = 0` at line 173. -/
inductive Halt where
  | Error_Handler
  | FatalError (code : ErrorCode)
  | division_by_zero
  deriving DecidableEq, Repr

/-- Calls that leave the module, in the order they are made. -/
inductive Event where
  | buzzer_short_beep
  | buzzer_long_beep
  | buzzer_alarm_start
  | buzzer_alarm_stop
  | currentModeChanged (callback : Option Nat) (newMode : Nat)
  | setTemperatureReached (callback : Nat) (temp : Nat)
  | saveSettings
  | HAL_TIM_Base_Init_Delay
  | HAL_TIM_Base_Init_Pwm
  | HAL_TIM_PWM_Start
  deriving DecidableEq, Repr

/-! ## State -/

/-- Fields of `systemSettings.Profile` read or written by iron.c. -/
structure profile_t where
  UserSetTemperature : Nat
  pwmPeriod : Nat
  pwmDelay : Nat
  PIDTime : Nat
  sleepTimeout : Nat
  noIronValue : Nat
  impedance : Nat
  power : Nat
  tempUnit : TempUnit
  deriving DecidableEq, Repr

/-- Fields of `systemSettings.settings` read or written by iron.c. -/
structure settings_t where
  currentProfile : ProfileId
  saveSettingsDelay : Nat
  tempUnit : TempUnit
  noIronDelay : Nat
  wakeOnButton : Bool
  initMode : Nat
  deriving DecidableEq, Repr

/-- The global `systemSettings`. -/
structure systemSettings_t where
  settings : settings_t
  Profile : profile_t
  setupMode : SetupMode
  settingsChecksum : Nat
  ProfileChecksum : Nat
  deriving DecidableEq, Repr

/-- The global `Iron`.  `FailState` is the C `bool`, `true` being `failureState_On`. -/
structure iron_t where
  Pwm_Channel : Nat
  presence : Presence
  CurrentMode : Nat
  CurrentModeTimer : Nat
  CurrentSetTemperature : Nat
  Cal_TemperatureReachedFlag : Nat
  calibrating : Calibration
  FailState : Bool
  LastSysChangeTime : Nat
  CurrentIronPower : Int
  prevRunawayLevel : Nat
  RunawayLevel : Nat
  RunawayTimer : Nat
  RunawayStatus : RunawayStatus
  updateMode : UpdateFlag
  changeMode : Nat
  LastModeChangeTime : Nat
  updatePwm : UpdateFlag
  Pwm_Limit : Nat
  Pwm_Max : Nat
  Pwm_Out : Nat
  DebugMode : DebugMode
  Debug_SetTemperature : Nat
  LastNoPresentTime : Nat
  newActivity : Nat
  lastActivityTime : Nat
  deriving DecidableEq, Repr

/-- Registers of one hardware timer that iron.c writes. -/
structure TIM where
  Init_Prescaler : Nat
  Init_Period : Nat
  Autoreload : Nat
  Compare : Nat
  deriving DecidableEq, Repr

/-- Whole state of the module. -/
structure Sys where
  Iron : iron_t
  systemSettings : systemSettings_t
  /-- List `currentModeChangedCallbacks`, head first; `none` is a NULL function pointer. -/
  currentModeChangedCallbacks : List (Option Nat)
  /-- List `temperatureReachedCallbacks`, head first. -/
  temperatureReachedCallbacks : List (Option Nat)
  /-- Statics of `handleIron`. -/
  prevSysChecksum : Nat
  newSysChecksum : Nat
  prevTipChecksum : Nat
  newTipChecksum : Nat
  checksumtime : Nat
  PID_time : Nat
  /-- Static of `setSetTemperature`. -/
  prevProfile : ProfileId
  Pwm_Timer : TIM
  Delay_Timer : TIM
  events : List Event
  deriving DecidableEq, Repr

/-- Abstract `float` returned by `calculatePID`: the outcome of the comparisons and conversions
iron.c applies to it. -/
structure PidFloat where
  /-- Outcome of `set < 0`. -/
  lt_zero : Bool
  /-- Outcome of `if(set)`. -/
  ne_zero : Bool
  /-- Value stored by `Iron.CurrentIronPower = set*100`. -/
  mul100 : Int
  /-- Value stored by `Iron.Pwm_Out = set*(float)Iron.Pwm_Max`, as a function of `Pwm_Max`. -/
  mulMax : Nat → Nat

/-- The `float` constant 0. -/
def PidFloat.zero : PidFloat :=
  { lt_zero := false, ne_zero := false, mul100 := 0, mulMax := fun _ => 0 }

/-- What one call of `handleIron` reads from its collaborators.  The clock is read more than
once in a tick and may have advanced in between: `HAL_GetTick` is the reading of line 69,
`HAL_GetTick_presence` the one of `checkIronPresence` (line 429), and the three others are the
readings of `setCurrentMode` (line 377) when it is called from `checkIronPresence` (lines 437
and 447), from the debounce (line 120) and from the inactivity timer (line 127). -/
structure Inputs where
  HAL_GetTick : Nat
  HAL_GetTick_presence : Nat
  HAL_GetTick_presenceMode : Nat
  HAL_GetTick_standMode : Nat
  HAL_GetTick_sleepMode : Nat
  readTipTemperatureCompensated : Nat
  TIP_last_avg : Nat
  TIP_last_RawAvg : Nat
  readColdJunctionSensorTemp_x10 : Int
  getSupplyVoltage_v_x10 : Nat
  human2adc : Nat → Nat
  calculatePID : Nat → Nat → PidFloat
  ChecksumSettings : Nat
  ChecksumProfile : Nat

/-- Result of a function that may stop in `Error_Handler` or `FatalError`. -/
inductive Outcome where
  | ok (s : Sys)
  | halt (h : Halt) (s : Sys)

/-- State in which the function returned or stopped. -/
def Outcome.state : Outcome → Sys
  | .ok s => s
  | .halt _ s => s

/-- Whether the function stopped without returning. -/
def Outcome.halted : Outcome → Option Halt
  | .ok _ => none
  | .halt h _ => some h

/-! ## Machine arithmetic -/

/-- Difference `a - b` of two `uint32_t`. -/
def sub32 (a b : Nat) : Nat := (((a : Int) - (b : Int)) % 4294967296).toNat

/-- Product `a * b` of two `uint32_t`. -/
def mul32 (a b : Nat) : Nat := (a * b) % 4294967296

/-- Conversion of an `int` to `uint16_t`. -/
def wrap16 (i : Int) : Nat := (i % 65536).toNat

/-! ## Callback dispatch and mode machine -/

/-- Appends a call that leaves the module to the trace. -/
def emit (e : Event) (s : Sys) : Sys := { s with events := s.events ++ [e] }

/-- Function `temperatureReached` (lines 34-42): call every non-NULL callback of the list. -/
def temperatureReached (temp : Nat) (s : Sys) : Sys :=
  let calls := s.temperatureReachedCallbacks.filterMap
    (fun c => c.map (fun f => Event.setTemperatureReached f temp))
  { s with events := s.events ++ calls }

/-- Function `modeChanged` (lines 44-50): call every callback of the list, unchecked. -/
def modeChanged (newMode : Nat) (s : Sys) : Sys :=
  let calls := s.currentModeChangedCallbacks.map (fun c => Event.currentModeChanged c newMode)
  { s with events := s.events ++ calls }

/-- Function `setCurrentMode` (lines 376-412).  `Iron.CurrentMode` receives the argument as passed; the
`default` label rewrites only the local `mode` that is handed to the callbacks. -/
def setCurrentMode (K : Board) (now : Nat) (mode : Nat) (forceMode : Bool) (s : Sys) : Sys :=
  let s := { s with Iron.CurrentModeTimer := now }
  if s.Iron.CurrentMode ≠ mode ∨ forceMode = true then
    let s := { s with Iron.CurrentMode := mode, Iron.Cal_TemperatureReachedFlag := 0 }
    let s := emit Event.buzzer_short_beep s
    if mode = K.mode_run then
      modeChanged mode
        { s with Iron.CurrentSetTemperature := s.systemSettings.Profile.UserSetTemperature }
    else
      modeChanged K.mode_sleep { s with Iron.CurrentSetTemperature := 0 }
  else s

/-- Function `setModefromStand` (lines 368-372). -/
def setModefromStand (now : Nat) (mode : Nat) (s : Sys) : Sys :=
  { s with Iron.changeMode := mode, Iron.LastModeChangeTime := now,
           Iron.updateMode := UpdateFlag.needs_update }

/-- Function `IronWake` (lines 415-426): `activity` is the clock as read at line 423, `now` the
later reading of `setCurrentMode` (line 377). -/
def IronWake (K : Board) (activity now : Nat) (source : WakeSource) (s : Sys) : Sys :=
  match source with
  | WakeSource.source_wakeButton =>
    if s.systemSettings.settings.wakeOnButton = false then s
    else setCurrentMode K now K.mode_run false s
  | WakeSource.source_encoder =>
    setCurrentMode K now K.mode_run false
      { s with Iron.newActivity := 1, Iron.lastActivityTime := activity }

/-- Function `SetFailState` (lines 459-465). -/
def SetFailState (FailState : Bool) (s : Sys) : Sys :=
  let s := { s with Iron.FailState := FailState }
  if FailState = true then
    { s with Iron.Pwm_Out := 0, Pwm_Timer.Compare := 0 }
  else s

/-- Function `GetFailState` (lines 468-470). -/
def GetFailState (s : Sys) : Bool := s.Iron.FailState

/-- Function `GetIronPresence` (lines 454-456). -/
def GetIronPresence (s : Sys) : Presence := s.Iron.presence

/-- Function `setDebugTemp` (lines 474-476). -/
def setDebugTemp (value : Nat) (s : Sys) : Sys := { s with Iron.Debug_SetTemperature := value }

/-- Function `setDebugMode` (lines 478-480). -/
def setDebugMode (value : DebugMode) (s : Sys) : Sys := { s with Iron.DebugMode := value }

/-- Function `setNoIronValue` (lines 364-366). -/
def setNoIronValue (noiron : Nat) (s : Sys) : Sys :=
  { s with systemSettings.Profile.noIronValue := noiron }

/-- Function `setSetTemperature` (lines 483-492). -/
def setSetTemperature (temperature : Nat) (s : Sys) : Sys :=
  if s.systemSettings.Profile.UserSetTemperature ≠ temperature
      ∨ s.prevProfile ≠ s.systemSettings.settings.currentProfile then
    { s with prevProfile := s.systemSettings.settings.currentProfile,
             systemSettings.Profile.UserSetTemperature := temperature,
             Iron.CurrentSetTemperature := temperature,
             Iron.Cal_TemperatureReachedFlag := 0 }
  else s

/-- Function `getSetTemperature` (lines 495-497). -/
def getSetTemperature (s : Sys) : Nat := s.Iron.CurrentSetTemperature

/-- Function `getCurrentMode` (lines 500-502). -/
def getCurrentMode (s : Sys) : Nat := s.Iron.CurrentMode

/-- Function `getCurrentPower` (lines 505-507). -/
def getCurrentPower (s : Sys) : Int := s.Iron.CurrentIronPower

/-- Function `setPwmDelay` (lines 345-352): the returned `bool` and the new state. -/
def setPwmDelay (delay : Nat) (s : Sys) : Bool × Sys :=
  if s.systemSettings.Profile.pwmPeriod > delay then
    (false, { s with systemSettings.Profile.pwmDelay := delay,
                     Iron.updatePwm := UpdateFlag.needs_update })
  else (true, s)

/-- Function `setPwmPeriod` (lines 355-362): the returned `bool` and the new state. -/
def setPwmPeriod (period : Nat) (s : Sys) : Bool × Sys :=
  if s.systemSettings.Profile.pwmDelay < period then
    (false, { s with systemSettings.Profile.pwmPeriod := period,
                     Iron.updatePwm := UpdateFlag.needs_update })
  else (true, s)

/-- Function `round_10` (lines 279-287), on `uint16_t`. -/
def round_10 (input : Nat) : Nat :=
  if input % 10 > 5 then (input + (10 - input % 10)) % 65536
  else input - input % 10

/-- Argument `unit` of `setSystemTempUnit` as the C `bool`. -/
def TempUnit.toBool : TempUnit → Bool
  | .mode_Celsius => false
  | .mode_Farenheit => true

/-- Function `setSystemTempUnit` (lines 289-298). -/
def setSystemTempUnit (K : Board) (now : Nat) (unit : TempUnit) (s : Sys) : Sys :=
  let s := if s.systemSettings.settings.tempUnit ≠ unit then
      { s with systemSettings.settings.tempUnit := unit } else s
  let s := if s.systemSettings.Profile.tempUnit ≠ unit then
      { s with systemSettings.Profile.tempUnit := unit,
               systemSettings.Profile.UserSetTemperature :=
                 round_10 (K.TempConversion s.systemSettings.Profile.UserSetTemperature
                            unit.toBool % 65536) }
    else s
  setCurrentMode K now s.Iron.CurrentMode true s

/-- Function `addSetTemperatureReachedCallback` (lines 510-526); `mallocOk = false` is a NULL result of
`malloc`. -/
def addSetTemperatureReachedCallback (callback : Option Nat) (mallocOk : Bool) (s : Sys) :
    Outcome :=
  if mallocOk = false then Outcome.halt Halt.Error_Handler s
  else Outcome.ok
    { s with temperatureReachedCallbacks := s.temperatureReachedCallbacks ++ [callback] }

/-- Function `addModeChangedCallback` (lines 529-546).  With an empty list `last` is NULL after the loop
and the new node is stored only in the local `last`: the list head is not written. -/
def addModeChangedCallback (callback : Option Nat) (mallocOk : Bool) (s : Sys) : Outcome :=
  if mallocOk = false then Outcome.halt Halt.Error_Handler s
  else
    match s.currentModeChangedCallbacks with
    | [] => Outcome.ok s
    | c :: cs =>
      Outcome.ok { s with currentModeChangedCallbacks := (c :: cs) ++ [callback] }

/-! ## Presence detector -/

/-- Function `checkIronPresence` (lines 428-451). -/
def checkIronPresence (K : Board) (inp : Inputs) (s : Sys) : Sys :=
  if inp.TIP_last_RawAvg > s.systemSettings.Profile.noIronValue
      ∨ inp.readColdJunctionSensorTemp_x10 < -600 then
    if s.Iron.presence = Presence.isPresent then
      let s := { s with Iron.LastNoPresentTime := inp.HAL_GetTick_presence,
                        Iron.presence := Presence.notPresent }
      let s := setCurrentMode K inp.HAL_GetTick_presenceMode K.mode_sleep true s
      emit Event.buzzer_alarm_start { s with Iron.Pwm_Out := 0 }
    else s
  else
    if s.Iron.presence = Presence.notPresent then
      if sub32 inp.HAL_GetTick_presence s.Iron.LastNoPresentTime
          > s.systemSettings.settings.noIronDelay then
        let s := emit Event.buzzer_alarm_stop s
        setCurrentMode K inp.HAL_GetTick_presenceMode K.mode_run true
          { s with Iron.presence := Presence.isPresent }
      else s
    else s

/-! ## Control tick, block by block -/

/-- Lines 75-80: enter the failure state when no known profile is selected. -/
def profileGuard (s : Sys) : Sys :=
  if GetFailState s = false then
    if s.systemSettings.settings.currentProfile ≠ ProfileId.profile_T12
        ∧ s.systemSettings.settings.currentProfile ≠ ProfileId.profile_C245
        ∧ s.systemSettings.settings.currentProfile ≠ ProfileId.profile_C210 then
      SetFailState true s
    else s
  else s

/-- Modelled from the spec: `saveSettings(saveKeepingProfiles)` of settings.c, which stores the
settings and re-reads the two canonical checksums. -/
def saveSettings (inp : Inputs) (s : Sys) : Sys :=
  emit Event.saveSettings
    { s with systemSettings.settingsChecksum := inp.ChecksumSettings,
             systemSettings.ProfileChecksum := inp.ChecksumProfile }

/-- Lines 82-98: settings watcher. -/
def settingsWatch (inp : Inputs) (s : Sys) : Sys :=
  if s.systemSettings.setupMode = SetupMode.setup_Off
      ∧ s.Iron.calibrating = Calibration.calibration_Off
      ∧ s.systemSettings.settings.saveSettingsDelay > 0
      ∧ s.Iron.FailState = false
      ∧ sub32 inp.HAL_GetTick s.checksumtime > 999 then
    let s := { s with checksumtime := inp.HAL_GetTick,
                      newSysChecksum := inp.ChecksumSettings,
                      newTipChecksum := inp.ChecksumProfile }
    if s.systemSettings.settingsChecksum ≠ s.newSysChecksum
        ∨ s.systemSettings.ProfileChecksum ≠ s.newTipChecksum then
      if s.prevSysChecksum ≠ s.newSysChecksum ∨ s.prevTipChecksum ≠ s.newTipChecksum then
        { s with prevSysChecksum := s.newSysChecksum,
                 prevTipChecksum := s.newTipChecksum,
                 Iron.LastSysChangeTime := inp.HAL_GetTick }
      else if sub32 inp.HAL_GetTick s.Iron.LastSysChangeTime
          > mul32 s.systemSettings.settings.saveSettingsDelay 1000 then
        saveSettings inp s
      else s
    else s
  else s

/-- State at line 103, after the profile guard, the settings watcher and the presence
detector. -/
def entryState (K : Board) (inp : Inputs) (s : Sys) : Sys :=
  checkIronPresence K inp (settingsWatch inp (profileGuard s))

/-- Condition of line 104. -/
def flagsActive (s : Sys) : Bool :=
  decide (s.Iron.FailState = true ∨ s.Iron.presence = Presence.notPresent)

/-- Lines 105-113: body of the short circuit. -/
def idle (inp : Inputs) (s : Sys) : Sys :=
  let s := if s.Iron.FailState = true then { s with Iron.CurrentIronPower := -99 }
           else { s with Iron.CurrentIronPower := 0 }
  { s with Iron.prevRunawayLevel := runaway_ok, Iron.RunawayTimer := inp.HAL_GetTick }

/-- Lines 116-122: apply a mode requested by the stand once it has been steady. -/
def standDebounce (K : Board) (inp : Inputs) (s : Sys) : Sys :=
  if s.Iron.updateMode = UpdateFlag.needs_update then
    if sub32 inp.HAL_GetTick s.Iron.LastModeChangeTime > 500 then
      setCurrentMode K inp.HAL_GetTick_standMode s.Iron.changeMode false
        { s with Iron.updateMode := UpdateFlag.no_update }
    else s
  else s

/-- Lines 124-130: inactivity timer. -/
def sleepTimer (K : Board) (inp : Inputs) (s : Sys) : Sys :=
  if s.Iron.CurrentMode = K.mode_run then
    if s.Iron.calibrating = Calibration.calibration_Off
        ∧ s.systemSettings.Profile.sleepTimeout > 0
        ∧ sub32 inp.HAL_GetTick s.Iron.CurrentModeTimer
            > mul32 s.systemSettings.Profile.sleepTimeout 60000 then
      emit Event.buzzer_long_beep
        (setCurrentMode K inp.HAL_GetTick_sleepMode K.mode_sleep true s)
    else s
  else s

/-- State at line 131, after the debounce and the inactivity timer. -/
def modeState (K : Board) (inp : Inputs) (s : Sys) : Sys :=
  sleepTimer K inp (standDebounce K inp (entryState K inp s))

/-- Condition of line 133: the PID period has not elapsed, or the first second after boot. -/
def pidHold (inp : Inputs) (s : Sys) : Bool :=
  decide (sub32 inp.HAL_GetTick s.PID_time < s.systemSettings.Profile.PIDTime
    ∨ inp.HAL_GetTick < 1000)

/-- Lines 136-144: store the PID time and apply pending PWM settings. -/
def applyPwm (K : Board) (inp : Inputs) (s : Sys) : Sys :=
  let s := { s with PID_time := inp.HAL_GetTick }
  if s.Iron.updatePwm = UpdateFlag.needs_update then
    { s with Iron.updatePwm := UpdateFlag.no_update,
             Pwm_Timer.Autoreload := s.systemSettings.Profile.pwmPeriod,
             Delay_Timer.Autoreload := s.systemSettings.Profile.pwmDelay,
             Iron.Pwm_Limit :=
               wrap16 ((s.systemSettings.Profile.pwmPeriod : Int)
                 - ((s.systemSettings.Profile.pwmDelay : Int)
                     + ((K.ADC_MEASURE_TIME % 65536 : Nat) : Int))) }
  else s

/-- Lines 146-164: the local `set`. -/
def pidSet (inp : Inputs) (s : Sys) : PidFloat :=
  let set :=
    if s.Iron.DebugMode = DebugMode.debug_On then
      inp.calculatePID s.Iron.Debug_SetTemperature inp.TIP_last_avg
    else if s.Iron.CurrentSetTemperature > 99 then
      let t := inp.human2adc s.Iron.CurrentSetTemperature
      if t ≠ 0 then inp.calculatePID t inp.TIP_last_avg else PidFloat.zero
    else PidFloat.zero
  if set.lt_zero = true then PidFloat.zero else set

/-- Lines 167-182: the value given to `Iron.Pwm_Max`, `none` when a division has a zero
divisor. -/
def powerLimit (volts impedance power pwmPeriod Pwm_Limit : Nat) : Option Nat :=
  let volts := mul32 volts volts / 10
  let volts := if volts = 0 then 1 else volts
  let PwmPeriod := pwmPeriod
  if impedance = 0 then none
  else
    let maxPower := volts / impedance
    if power ≥ maxPower then some Pwm_Limit
    else if maxPower = 0 then none
    else
      let Pwm_Max := (mul32 PwmPeriod power / maxPower) % 65536
      if Pwm_Max > Pwm_Limit then some Pwm_Limit else some Pwm_Max

/-- Lines 166-191: duty and power from the PID output. -/
def pwmDuty (inp : Inputs) (s : Sys) : Option Sys :=
  let set := pidSet inp s
  if set.ne_zero = true then
    match powerLimit inp.getSupplyVoltage_v_x10 s.systemSettings.Profile.impedance
        s.systemSettings.Profile.power s.systemSettings.Profile.pwmPeriod s.Iron.Pwm_Limit with
    | none => none
    | some m =>
      some { s with Iron.Pwm_Max := m, Iron.CurrentIronPower := set.mul100,
                    Iron.Pwm_Out := set.mulMax m % 65536 }
  else
    some { s with Iron.CurrentIronPower := 0, Iron.Pwm_Out := 0 }

/-- State at line 192 of a tick that was neither short-circuited nor held back, `none` when
line 173 divides by zero. -/
def dutyState (K : Board) (inp : Inputs) (s : Sys) : Option Sys :=
  pwmDuty inp (applyPwm K inp (modeState K inp s))

/-- Lines 198-201: setpoint-reached notification. -/
def reachedCheck (inp : Inputs) (s : Sys) : Sys :=
  if (inp.readTipTemperatureCompensated : Int) ≥ (s.Iron.CurrentSetTemperature : Int) - 3
      ∧ (inp.readTipTemperatureCompensated : Int) ≤ (s.Iron.CurrentSetTemperature : Int) + 3
      ∧ s.Iron.Cal_TemperatureReachedFlag = 0 then
    { temperatureReached s.Iron.CurrentSetTemperature s with
        Iron.Cal_TemperatureReachedFlag := 1 }
  else s

/-! ## Runaway supervisor -/

/-- Local `TempStep` (lines 205-210). -/
def TempStep (s : Sys) : Nat :=
  if s.systemSettings.settings.tempUnit = TempUnit.mode_Farenheit then 45 else 25

/-- Local `TempLimit` (lines 206-210). -/
def TempLimit (s : Sys) : Nat :=
  if s.systemSettings.settings.tempUnit = TempUnit.mode_Farenheit then 950 else 500

/-- Loop of lines 212-218, entered with counter `c`: the value left in `Iron.RunawayLevel`. -/
def runawayScan (tipTemp setT step : Nat) : Nat → Nat
  | 0 => 0
  | c + 1 => if tipTemp > setT + step * (c + 1) then c + 1 else runawayScan tipTemp setT step c

/-- Lines 212-219: the tier stored in `Iron.RunawayLevel`. -/
def runawayTier (inp : Inputs) (s : Sys) : Nat :=
  let level := runawayScan inp.readTipTemperatureCompensated s.Iron.CurrentSetTemperature
    (TempStep s) runaway_100
  if inp.readTipTemperatureCompensated > TempLimit s then runaway_500 else level

/-- One timed `case` of the `switch` at lines 227-264. -/
def runawayCase (inp : Inputs) (s : Sys) (limit : Nat) (code : ErrorCode) : Outcome :=
  if sub32 inp.HAL_GetTick s.Iron.RunawayTimer > limit then
    Outcome.halt (Halt.FatalError code)
      { s with Iron.RunawayStatus := RunawayStatus.runaway_triggered }
  else Outcome.ok s

/-- The `switch` at lines 227-264. -/
def runawaySwitch (inp : Inputs) (s : Sys) : Outcome :=
  if s.Iron.RunawayLevel = runaway_ok then Outcome.ok s
  else if s.Iron.RunawayLevel = runaway_25 then
    runawayCase inp s 20000 ErrorCode.error_RUNAWAY25
  else if s.Iron.RunawayLevel = runaway_50 then
    runawayCase inp s 10000 ErrorCode.error_RUNAWAY50
  else if s.Iron.RunawayLevel = runaway_75 then
    runawayCase inp s 3000 ErrorCode.error_RUNAWAY75
  else if s.Iron.RunawayLevel = runaway_100 then
    runawayCase inp s 1000 ErrorCode.error_RUNAWAY100
  else if s.Iron.RunawayLevel = runaway_500 then
    runawayCase inp s 1000 ErrorCode.error_RUNAWAY500
  else
    Outcome.halt (Halt.FatalError ErrorCode.error_RUNAWAY_UNKNOWN)
      { s with Iron.RunawayStatus := RunawayStatus.runaway_triggered }

/-- Condition of line 211. -/
def runawayEntry (inp : Inputs) (s : Sys) : Bool :=
  decide (s.Iron.Pwm_Out ≠ 0 ∧ s.Iron.RunawayStatus = RunawayStatus.runaway_ok
    ∧ s.Iron.DebugMode = DebugMode.debug_Off
    ∧ inp.readTipTemperatureCompensated > s.Iron.CurrentSetTemperature)

/-- Lines 204-275. -/
def runawayCheck (inp : Inputs) (s : Sys) : Outcome :=
  if runawayEntry inp s = true then
    let s := { s with Iron.RunawayLevel := runawayTier inp s }
    if s.Iron.RunawayLevel ≠ runaway_ok then
      if s.Iron.prevRunawayLevel = runaway_ok then
        Outcome.ok { s with Iron.prevRunawayLevel := s.Iron.RunawayLevel,
                            Iron.RunawayTimer := inp.HAL_GetTick }
      else runawaySwitch inp s
    else
      Outcome.ok { s with Iron.RunawayTimer := inp.HAL_GetTick,
                          Iron.prevRunawayLevel := runaway_ok }
  else
    Outcome.ok { s with Iron.RunawayTimer := inp.HAL_GetTick,
                        Iron.prevRunawayLevel := runaway_ok }

/-! ## The control tick -/

/-- Function `handleIron` (lines 64-276). -/
def handleIron (K : Board) (inp : Inputs) (s : Sys) : Outcome :=
  if flagsActive (entryState K inp s) = true then
    Outcome.ok (idle inp (entryState K inp s))
  else if pidHold inp (modeState K inp s) = true then
    Outcome.ok (modeState K inp s)
  else
    match dutyState K inp s with
    | none => Outcome.halt Halt.division_by_zero (applyPwm K inp (modeState K inp s))
    | some d =>
      if d.Iron.Pwm_Out > d.Iron.Pwm_Limit then Outcome.halt Halt.Error_Handler d
      else runawayCheck inp (reachedCheck inp d)

/-! ## Initialisation -/

/-- What `ironInit` receives and reads. -/
structure InitInputs where
  HAL_GetTick : Nat
  pwmchannel : Nat
  SystemCoreClock : Nat
  /-- Whether `HAL_TIM_Base_Init(Iron.Delay_Timer)` returns `HAL_OK`. -/
  delayInitOk : Bool
  /-- Whether `HAL_TIM_Base_Init(Iron.Pwm_Timer)` returns `HAL_OK`. -/
  pwmInitOk : Bool

/-- Local `delay` of `initTimers` (lines 303-311). -/
def initDelay (s : Sys) : Nat :=
  if s.systemSettings.settings.currentProfile ≠ ProfileId.profile_None
  then s.systemSettings.Profile.pwmDelay % 65536 else 1999

/-- Local `pwm` of `initTimers` (lines 303-311). -/
def initPwm (s : Sys) : Nat :=
  if s.systemSettings.settings.currentProfile ≠ ProfileId.profile_None
  then s.systemSettings.Profile.pwmPeriod % 65536 else 19999

/-- Lines 314-316: delay timer configuration, up to the call of `HAL_TIM_Base_Init`. -/
def delayTimerConfig (h : InitInputs) (s : Sys) : Sys :=
  emit Event.HAL_TIM_Base_Init_Delay
    { s with Delay_Timer.Init_Prescaler := sub32 (h.SystemCoreClock / 100000) 1,
             Delay_Timer.Init_Period := initDelay s }

/-- Lines 322-324: PWM timer configuration, up to the call of `HAL_TIM_Base_Init`. -/
def pwmTimerConfig (h : InitInputs) (s : Sys) : Sys :=
  emit Event.HAL_TIM_Base_Init_Pwm
    { s with Pwm_Timer.Init_Prescaler := sub32 (h.SystemCoreClock / 100000) 1,
             Pwm_Timer.Init_Period := initPwm s }

/-- Line 341: the value given to `Iron.Pwm_Limit`. -/
def initLimit (K : Board) (s : Sys) : Nat :=
  wrap16 ((initPwm s : Int) - ((initDelay s : Int) + ((K.ADC_MEASURE_TIME % 65536 : Nat) : Int)))

/-- Function `initTimers` (lines 302-342).  Clearing the timer flags and enabling the update interrupt
(lines 328-332) touch no state of the model. -/
def initTimers (K : Board) (h : InitInputs) (s : Sys) : Outcome :=
  if h.delayInitOk = false then Outcome.halt Halt.Error_Handler (delayTimerConfig h s)
  else if h.pwmInitOk = false then
    Outcome.halt Halt.Error_Handler (pwmTimerConfig h (delayTimerConfig h s))
  else
    Outcome.ok
      { emit Event.HAL_TIM_PWM_Start (pwmTimerConfig h (delayTimerConfig h s)) with
          Iron.Pwm_Limit := initLimit K s }

/-- Function `ironInit` (lines 53-62). -/
def ironInit (K : Board) (h : InitInputs) (s : Sys) : Outcome :=
  let s := { s with Iron.Pwm_Channel := h.pwmchannel, Iron.presence := Presence.isPresent }
  initTimers K h (setCurrentMode K h.HAL_GetTick s.systemSettings.settings.initMode true s)

/-! ## Runs of the public interface -/

/-- One call of a public function of the module after initialisation. -/
inductive Op where
  | handleIron (inp : Inputs)
  | setSystemTempUnit (now : Nat) (unit : TempUnit)
  | setPwmDelay (delay : Nat)
  | setPwmPeriod (period : Nat)
  | setNoIronValue (noiron : Nat)
  | setModefromStand (now : Nat) (mode : Nat)
  | setCurrentMode (now : Nat) (mode : Nat) (forceMode : Bool)
  | IronWake (activity now : Nat) (source : WakeSource)
  | SetFailState (FailState : Bool)
  | setDebugTemp (value : Nat)
  | setDebugMode (value : DebugMode)
  | setSetTemperature (temperature : Nat)
  | addSetTemperatureReachedCallback (callback : Option Nat) (mallocOk : Bool)
  | addModeChangedCallback (callback : Option Nat) (mallocOk : Bool)

/-- Effect of one call. -/
def step (K : Board) (op : Op) (s : Sys) : Outcome :=
  match op with
  | .handleIron inp => handleIron K inp s
  | .setSystemTempUnit now unit => Outcome.ok (setSystemTempUnit K now unit s)
  | .setPwmDelay delay => Outcome.ok (setPwmDelay delay s).2
  | .setPwmPeriod period => Outcome.ok (setPwmPeriod period s).2
  | .setNoIronValue noiron => Outcome.ok (setNoIronValue noiron s)
  | .setModefromStand now mode => Outcome.ok (setModefromStand now mode s)
  | .setCurrentMode now mode forceMode => Outcome.ok (setCurrentMode K now mode forceMode s)
  | .IronWake activity now source => Outcome.ok (IronWake K activity now source s)
  | .SetFailState FailState => Outcome.ok (SetFailState FailState s)
  | .setDebugTemp value => Outcome.ok (setDebugTemp value s)
  | .setDebugMode value => Outcome.ok (setDebugMode value s)
  | .setSetTemperature temperature => Outcome.ok (setSetTemperature temperature s)
  | .addSetTemperatureReachedCallback callback mallocOk =>
    addSetTemperatureReachedCallback callback mallocOk s
  | .addModeChangedCallback callback mallocOk => addModeChangedCallback callback mallocOk s

/-- A sequence of calls, oldest first; nothing runs after a halt. -/
def run (K : Board) : List Op → Sys → Outcome
  | [], s => Outcome.ok s
  | op :: ops, s =>
    match step K op s with
    | Outcome.ok s1 => run K ops s1
    | Outcome.halt h s1 => Outcome.halt h s1

/-- States reached after `ironInit` by a sequence of calls none of which halted. -/
def Reached (K : Board) (h : InitInputs) (boot : Sys) (ops : List Op) (s : Sys) : Prop :=
  ∃ s0, ironInit K h boot = Outcome.ok s0 ∧ run K ops s0 = Outcome.ok s

/-! ## A concrete station used to evaluate the model -/

/-- A board with `mode_sleep = 0`, `mode_run = 1` and an ADC window of 60 timer ticks. -/
def demoBoard : Board :=
  { mode_run := 1, mode_sleep := 0, ADC_MEASURE_TIME := 60,
    TempConversion := fun t toF => if toF = true then t * 9 / 5 + 32 else (t - 32) * 5 / 9,
    run_ne_sleep := by decide }

/-- A T12 profile: setpoint 300, period 19999, delay 1999, 8.0 ohm, 25 W. -/
def demoProfile : profile_t :=
  { UserSetTemperature := 300, pwmPeriod := 19999, pwmDelay := 1999, PIDTime := 100,
    sleepTimeout := 5, noIronValue := 4000, impedance := 80, power := 25,
    tempUnit := TempUnit.mode_Celsius }

/-- System settings selecting the T12 profile, booting in run mode. -/
def demoSettings : systemSettings_t :=
  { settings := { currentProfile := ProfileId.profile_T12, saveSettingsDelay := 3,
                  tempUnit := TempUnit.mode_Celsius, noIronDelay := 1000,
                  wakeOnButton := true, initMode := 1 },
    Profile := demoProfile, setupMode := SetupMode.setup_Off,
    settingsChecksum := 0, ProfileChecksum := 0 }

/-- The zero-initialised globals before `ironInit`, with the settings loaded. -/
def demoBoot : Sys :=
  { Iron :=
      { Pwm_Channel := 0, presence := Presence.notPresent, CurrentMode := 0,
        CurrentModeTimer := 0, CurrentSetTemperature := 0, Cal_TemperatureReachedFlag := 0,
        calibrating := Calibration.calibration_Off, FailState := false,
        LastSysChangeTime := 0, CurrentIronPower := 0, prevRunawayLevel := 0,
        RunawayLevel := 0, RunawayTimer := 0, RunawayStatus := RunawayStatus.runaway_ok,
        updateMode := UpdateFlag.no_update, changeMode := 0, LastModeChangeTime := 0,
        updatePwm := UpdateFlag.no_update, Pwm_Limit := 0, Pwm_Max := 0, Pwm_Out := 0,
        DebugMode := DebugMode.debug_Off, Debug_SetTemperature := 0, LastNoPresentTime := 0,
        newActivity := 0, lastActivityTime := 0 },
    systemSettings := demoSettings,
    currentModeChangedCallbacks := [], temperatureReachedCallbacks := [],
    prevSysChecksum := 0, newSysChecksum := 0, prevTipChecksum := 0, newTipChecksum := 0,
    checksumtime := 0, PID_time := 0, prevProfile := ProfileId.profile_None,
    Pwm_Timer := { Init_Prescaler := 0, Init_Period := 0, Autoreload := 0, Compare := 0 },
    Delay_Timer := { Init_Prescaler := 0, Init_Period := 0, Autoreload := 0, Compare := 0 },
    events := [] }

/-- Arguments of `ironInit` on a 64 MHz core with both timers initialising. -/
def demoInit : InitInputs :=
  { HAL_GetTick := 0, pwmchannel := 1, SystemCoreClock := 64000000,
    delayInitOk := true, pwmInitOk := true }

/-- A PID output of one half. -/
def pidHalf : PidFloat :=
  { lt_zero := false, ne_zero := true, mul100 := 50, mulMax := fun m => m / 2 }

/-- A tick at time `now`, the clock not advancing while the tick runs, with tip temperature
`tip`, a 20.0 V supply, the handle connected and a PID block that answers `pid` whatever it
is asked. -/
def demoInputs (now tip : Nat) (pid : PidFloat) : Inputs :=
  { HAL_GetTick := now, HAL_GetTick_presence := now, HAL_GetTick_presenceMode := now,
    HAL_GetTick_standMode := now, HAL_GetTick_sleepMode := now,
    readTipTemperatureCompensated := tip, TIP_last_avg := 1500,
    TIP_last_RawAvg := 1500, readColdJunctionSensorTemp_x10 := 250,
    getSupplyVoltage_v_x10 := 200, human2adc := fun t => 5 * t,
    calculatePID := fun _ _ => pid, ChecksumSettings := 0, ChecksumProfile := 0 }

/-- The demo station after `ironInit`. -/
def demoStart : Sys := (ironInit demoBoard demoInit demoBoot).state

/-! ## Concrete runs of the demo station -/

/-- A PID output of two: a controller that asks for twice the available duty. -/
def pidOver : PidFloat :=
  { lt_zero := false, ne_zero := true, mul100 := 200, mulMax := fun m => 2 * m }

/-- A full tick at half power, a change of the ADC delay, and the tick that applies it. -/
def limitOps : List Op :=
  [Op.handleIron (demoInputs 1000 25 pidHalf), Op.setPwmDelay 3000,
   Op.handleIron (demoInputs 1200 25 pidHalf)]

/-- State of the demo station after `limitOps`. -/
def limitState : Sys := (run demoBoard limitOps demoStart).state

/-- The handle is pulled at 1200 ms while the heater is driven, and a tick follows. -/
def pullOps : List Op :=
  [Op.handleIron (demoInputs 1000 25 pidHalf),
   Op.handleIron { demoInputs 1200 25 pidHalf with TIP_last_RawAvg := 4090 },
   Op.handleIron { demoInputs 1300 25 pidHalf with TIP_last_RawAvg := 4090 }]

/-- State of the demo station after `pullOps`. -/
def pullState : Sys := (run demoBoard pullOps demoStart).state

/-- The stand asks for sleep, the debounce applies it, the user then dials 350 degrees and a
full tick follows. -/
def sleepDialOps : List Op :=
  [Op.setModefromStand 100 0, Op.handleIron (demoInputs 700 25 pidHalf),
   Op.setSetTemperature 350, Op.handleIron (demoInputs 1000 25 pidHalf)]

/-- One full tick with the tip at 380 degrees, 80 over the setpoint of 300, the heater still
driven. -/
def overheatOps : List Op := [Op.handleIron (demoInputs 1000 380 pidHalf)]

/-- State of the demo station after `overheatOps`: the overrun has been detected once. -/
def overheatState : Sys := (run demoBoard overheatOps demoStart).state

/-- The stand asks for run, run and then sleep within 400 ms, with ticks in between and after,
the last of them exactly 500 ms after the last request. -/
def standOps : List Op :=
  [Op.setModefromStand 1000 1, Op.handleIron (demoInputs 1100 25 pidHalf),
   Op.setModefromStand 1200 1, Op.handleIron (demoInputs 1300 25 pidHalf),
   Op.setModefromStand 1390 0, Op.handleIron (demoInputs 1500 25 pidHalf),
   Op.handleIron (demoInputs 1890 25 pidHalf)]

/-- State of the demo station after `standOps`. -/
def standState : Sys := (run demoBoard standOps demoStart).state

/-- State of the demo station in run mode after a single request for sleep at 1390 ms. -/
def sleepRequested : Sys := setModefromStand 1390 0 demoStart

/-- The stand puts the iron to sleep, and asks for run again at 1000 ms. -/
def wakeOps : List Op :=
  [Op.setModefromStand 100 0, Op.handleIron (demoInputs 700 25 pidHalf),
   Op.setModefromStand 1000 1]

/-- State of the demo station after `wakeOps`: asleep, with run requested. -/
def wakeRequested : Sys := (run demoBoard wakeOps demoStart).state

/-- A tick started at `now` during which the clock advances by one millisecond before the
debounce and the inactivity timer call `setCurrentMode`. -/
def lateInputs (now : Nat) : Inputs :=
  { demoInputs now 25 pidHalf with HAL_GetTick_standMode := now + 1,
                                   HAL_GetTick_sleepMode := now + 1 }

/-! ## The specification's own formulas, to be compared with the code -/

/-- Runaway tier in the words of the specification (section 4.4): the absolute limit first,
then the highest margin over the setpoint that is exceeded. -/
def specTier (unit : TempUnit) (tip_T setpoint : Nat) : Nat :=
  let step := if unit = TempUnit.mode_Farenheit then 45 else 25
  let limit := if unit = TempUnit.mode_Farenheit then 950 else 500
  if tip_T > limit then runaway_500
  else if tip_T - setpoint > 4 * step then runaway_100
  else if tip_T - setpoint > 3 * step then runaway_75
  else if tip_T - setpoint > 2 * step then runaway_50
  else if tip_T - setpoint > step then runaway_25
  else runaway_ok

/-- Time limit of a tier in milliseconds, from the table of section 4.4. -/
def specTimeLimit (tier : Nat) : Nat :=
  if tier = runaway_25 then 20000
  else if tier = runaway_50 then 10000
  else if tier = runaway_75 then 3000
  else 1000

/-- Fatal error keyed to a tier, from section 4.4. -/
def specErrorCode (tier : Nat) : ErrorCode :=
  if tier = runaway_25 then ErrorCode.error_RUNAWAY25
  else if tier = runaway_50 then ErrorCode.error_RUNAWAY50
  else if tier = runaway_75 then ErrorCode.error_RUNAWAY75
  else if tier = runaway_100 then ErrorCode.error_RUNAWAY100
  else ErrorCode.error_RUNAWAY500

/-- Duty ceiling in the words of the specification (section 4.3), in unbounded integers:
`v2 = V*V/10`, replaced by 1 when 0; `max_power = v2 / impedance`; no throttle when the power
limit is at least `max_power`, otherwise `pwm_period * power_limit / max_power` clamped to
`pwm_limit`. -/
def specPwmMax (V_x10 impedance_x10 power_limit_W pwm_period pwm_limit : Nat) : Nat :=
  let v2 := if V_x10 * V_x10 / 10 = 0 then 1 else V_x10 * V_x10 / 10
  let max_power := v2 / impedance_x10
  if power_limit_W ≥ max_power then pwm_limit
  else min (pwm_period * power_limit_W / max_power) pwm_limit

/-! ## Invariants and history of a run -/

/-- The heater is off whenever the failure flag is set or the handle is absent. -/
def Quiet (s : Sys) : Prop :=
  (s.Iron.FailState = true ∨ s.Iron.presence = Presence.notPresent) → s.Iron.Pwm_Out = 0

/-- Either the function returned or stopped elsewhere with the status untouched, or it stopped
in `FatalError` with the status triggered. -/
def StatusKept (s : Sys) (r : Outcome) : Prop :=
  ((∀ code, r.halted ≠ some (Halt.FatalError code))
      ∧ r.state.Iron.RunawayStatus = s.Iron.RunawayStatus)
    ∨ ((∃ code, r.halted = some (Halt.FatalError code))
      ∧ r.state.Iron.RunawayStatus = RunawayStatus.runaway_triggered)

/-- The request recorded by one call: `setModefromStand` replaces it, every other call keeps
it. -/
def standRequest (acc : Option (Nat × Nat)) : Op → Option (Nat × Nat)
  | Op.setModefromStand now mode => some (now, mode)
  | _ => acc

/-- Time and mode of the most recent call of `setModefromStand` in a sequence of calls, oldest
first. -/
def lastStand (ops : List Op) : Option (Nat × Nat) := ops.foldl standRequest none

/-- A pending debounce always carries the most recent request `acc`. -/
def Pending (acc : Option (Nat × Nat)) (s : Sys) : Prop :=
  s.Iron.updateMode = UpdateFlag.needs_update →
    acc = some (s.Iron.LastModeChangeTime, s.Iron.changeMode)

/-! ## Events of a mode change -/

/-- Calls made by `setCurrentMode` when it takes effect (lines 382 and 410): the short beep,
then the mode-changed callbacks with the local `mode` after the `switch`. -/
def modeCalls (K : Board) (mode : Nat) (s : Sys) : List Event :=
  Event.buzzer_short_beep ::
    s.currentModeChangedCallbacks.map
      (fun c => Event.currentModeChanged c (if mode = K.mode_run then mode else K.mode_sleep))

/-- Calls made by `temperatureReached temp` (lines 34-42). -/
def reachedCalls (temp : Nat) (s : Sys) : List Event :=
  s.temperatureReachedCallbacks.filterMap
    (fun c => c.map (fun f => Event.setTemperatureReached f temp))

/-! ## Interrupt context -/

/-- Modelled from the spec: the PWM timer update ISR of section 5, which is not part of
iron.c and "loads the compare register with `pwm_out` at period boundaries". -/
def pwmTimerISR (s : Sys) : Sys := { s with Pwm_Timer.Compare := s.Iron.Pwm_Out }

/-! ## Unit conversion -/

/-- Modelled from the spec: `TempConversion`, which iron.c calls and does not define, as the
standard integer conversion between Celsius and Fahrenheit, truncating: `t * 9 / 5 + 32`
towards Fahrenheit, `(t - 32) * 5 / 9` towards Celsius.  The examples in the comments of
`round_10` (640 F = 337 C, 300 C = 572 F) agree. -/
def TempConversion (temperature : Nat) (conversion : Bool) : Nat :=
  if conversion = true then temperature * 9 / 5 + 32 else (temperature - 32) * 5 / 9

/-! ## Setpoint-reached notification over a run -/

/-- The trace `X` holds no call of a setpoint-reached callback. -/
def NoReached (X : List Event) : Prop := ∀ f temp, Event.setTemperatureReached f temp ∉ X

/-- From `s` to `t` the trace has only grown, and when the reached flag was set in `s` and the
added part holds no short beep (the mark of an effective `setCurrentMode`), the added part
holds no setpoint-reached call and the flag is as it was. -/
def Calm (s t : Sys) : Prop :=
  ∃ X, t.events = s.events ++ X
    ∧ (s.Iron.Cal_TemperatureReachedFlag ≠ 0 → Event.buzzer_short_beep ∉ X →
        NoReached X ∧ t.Iron.Cal_TemperatureReachedFlag = s.Iron.Cal_TemperatureReachedFlag)

/-- The call is a `setSetTemperature` whose guard of line 485 passes in state `s`: the
temperature differs from the user setpoint, or the selected profile differs from the one
recorded by the previous guarded call. -/
def retunes (op : Op) (s : Sys) : Bool :=
  match op with
  | Op.setSetTemperature temperature =>
    decide (s.systemSettings.Profile.UserSetTemperature ≠ temperature
      ∨ s.prevProfile ≠ s.systemSettings.settings.currentProfile)
  | _ => false

/-- No call of the run from `s` is a `setSetTemperature` whose guard passes. -/
def settled (K : Board) : List Op → Sys → Bool
  | [], _ => true
  | op :: ops, s =>
    !(retunes op s) &&
      (match step K op s with
       | Outcome.ok s1 => settled K ops s1
       | Outcome.halt _ _ => true)

/-! ## More runs of the demo station -/

/-- Demo station after one full tick at half power: the heater is driven with a duty of
4999. -/
def heatedState : Sys :=
  (run demoBoard [Op.handleIron (demoInputs 1000 25 pidHalf)] demoStart).state

/-- A tick at time `now` on which the tip raw average reads 4090, above the threshold of
4000: the handle has been pulled. -/
def pulledInputs (now : Nat) : Inputs :=
  { demoInputs now 25 pidHalf with TIP_last_RawAvg := 4090 }

/-- Registration of callback 7 as the first mode-changed observer, then a forced change to
sleep. -/
def observerOps : List Op :=
  [Op.addModeChangedCallback (some 7) true, Op.setCurrentMode 500 0 true]

/-- Registration of callbacks 7 and 8 as setpoint-reached observers: the sibling registration
function, for comparison. -/
def reachedObserverOps : List Op :=
  [Op.addSetTemperatureReachedCallback (some 7) true,
   Op.addSetTemperatureReachedCallback (some 8) true]

/-- The tip is held at 380 degrees, 80 over the setpoint, from 1000 ms to 3999 ms. -/
def overrunOps : List Op :=
  [Op.handleIron (demoInputs 1000 380 pidHalf), Op.handleIron (demoInputs 3999 380 pidHalf)]

/-- State of the demo station after `overrunOps`: 2999 ms into a tier 75 overrun. -/
def overrunState : Sys := (run demoBoard overrunOps demoStart).state

/-- The tip is pulled at 1200 ms and still reads as pulled at 3000 ms. -/
def absentOps : List Op :=
  [Op.handleIron (pulledInputs 1200), Op.handleIron (pulledInputs 3000)]

/-- State of the demo station after `absentOps`, applied to `heatedState`. -/
def absentState : Sys := (run demoBoard absentOps heatedState).state

/-- State of the demo station once the tick at 1200 ms has seen the tip pulled. -/
def pulledState : Sys := (handleIron demoBoard (pulledInputs 1200) heatedState).state

/-- The zero-initialised globals with settings that select no known profile. -/
def strayBoot : Sys :=
  { demoBoot with systemSettings.settings.currentProfile := ProfileId.profile_None }

/-- The demo station after `ironInit` with no known profile selected. -/
def strayStart : Sys := (ironInit demoBoard demoInit strayBoot).state

/-- The demo station driven with a duty of 4999, after its settings have been changed to select
no known profile. -/
def strayHeated : Sys :=
  { heatedState with systemSettings.settings.currentProfile := ProfileId.profile_None }

/-- The demo station switched to Fahrenheit, with the user dialling 401 degrees. -/
def fahrenheitOps : List Op :=
  [Op.setSystemTempUnit 100 TempUnit.mode_Farenheit, Op.setSetTemperature 401]

/-- State of the demo station after `fahrenheitOps`. -/
def fahrenheitState : Sys := (run demoBoard fahrenheitOps demoStart).state

/-- A tick of the demo station at time `now` on which the settings checksum reads `sum`. -/
def editInputs (now sum : Nat) : Inputs :=
  { demoInputs now 25 pidHalf with ChecksumSettings := sum }

/-- A setting is edited before 1000 ms (checksum 5), put back before 2000 ms (checksum 0, the
stored one) and edited again to the same value before 4001 ms. -/
def revertOps : List Op :=
  [Op.handleIron (editInputs 1000 5), Op.handleIron (editInputs 2000 0),
   Op.handleIron (editInputs 4001 5)]

/-- Callback 7 is registered and the tick at 1000 ms finds the tip at the setpoint of 300. -/
def reachedOps : List Op :=
  [Op.addSetTemperatureReachedCallback (some 7) true,
   Op.handleIron (demoInputs 1000 300 pidHalf)]

/-- State of the demo station after `reachedOps`: the callback has been called once. -/
def reachedState : Sys := (run demoBoard reachedOps demoStart).state

/-- The user confirms the setpoint of 300 that is already stored, and a tick follows with the
tip still at 300. -/
def confirmOps : List Op :=
  [Op.setSetTemperature 300, Op.handleIron (demoInputs 1200 300 pidHalf)]

/-- Two more ticks with the tip at the setpoint, a stand request in between. -/
def steadyOps : List Op :=
  [Op.handleIron (demoInputs 1200 300 pidHalf), Op.setModefromStand 1250 1,
   Op.handleIron (demoInputs 1400 301 pidHalf)]

/-- The demo station with callback 7 registered as a setpoint-reached observer. -/
def observedStart : Sys := (run demoBoard (reachedOps.take 1) demoStart).state

/-! ## Reconfiguration of the PWM timing -/

/-- The call is a `setPwmDelay` or a `setPwmPeriod` with a `uint16_t` argument which the
setter accepts in state `s`, returning 0. -/
def accepted (op : Op) (s : Sys) : Bool :=
  match op with
  | Op.setPwmDelay delay => decide (delay < 65536) && !(setPwmDelay delay s).1
  | Op.setPwmPeriod period => decide (period < 65536) && !(setPwmPeriod period s).1
  | _ => false

/-- Every call of the sequence, made in order from `s`, is an accepted PWM setter call. -/
def allAccepted (K : Board) : List Op → Sys → Bool
  | [], _ => true
  | op :: ops, s => accepted op s && allAccepted K ops (step K op s).state

/-- A delay of 19990 ticks: below the period of 19999, and less than the ADC window of 60
away from it. -/
def squeezeOps : List Op := [Op.setPwmDelay 19990]

/-- State of the demo station after `squeezeOps`. -/
def squeezedState : Sys := (run demoBoard squeezeOps demoStart).state

/-- The period is shortened to 9999 ticks and the delay to 999. -/
def retimeOps : List Op := [Op.setPwmPeriod 9999, Op.setPwmDelay 999]

/-- State of the demo station after `retimeOps`. -/
def retimedState : Sys := (run demoBoard retimeOps demoStart).state

/-- A PID output of one: full power. -/
def pidFull : PidFloat :=
  { lt_zero := false, ne_zero := true, mul100 := 100, mulMax := fun m => m }

/-- A tick at time `now` on a 12.0 V supply, the PID block asking for full power. -/
def fullPowerInputs (now : Nat) : Inputs :=
  { demoInputs now 25 pidFull with getSupplyVoltage_v_x10 := 120 }

/-! ## Calls that leave the module only extend the trace -/

@[simp] theorem emit_Iron (e : Event) (s : Sys) : (emit e s).Iron = s.Iron := rfl

@[simp] theorem emit_systemSettings (e : Event) (s : Sys) :
    (emit e s).systemSettings = s.systemSettings := rfl

@[simp] theorem emit_PID_time (e : Event) (s : Sys) : (emit e s).PID_time = s.PID_time := rfl

@[simp] theorem modeChanged_Iron (m : Nat) (s : Sys) : (modeChanged m s).Iron = s.Iron := rfl

@[simp] theorem modeChanged_systemSettings (m : Nat) (s : Sys) :
    (modeChanged m s).systemSettings = s.systemSettings := rfl

@[simp] theorem modeChanged_PID_time (m : Nat) (s : Sys) :
    (modeChanged m s).PID_time = s.PID_time := rfl

@[simp] theorem temperatureReached_Iron (t : Nat) (s : Sys) :
    (temperatureReached t s).Iron = s.Iron := rfl

@[simp] theorem temperatureReached_systemSettings (t : Nat) (s : Sys) :
    (temperatureReached t s).systemSettings = s.systemSettings := rfl

@[simp] theorem temperatureReached_PID_time (t : Nat) (s : Sys) :
    (temperatureReached t s).PID_time = s.PID_time := rfl

/-! ## Frame lemmas: what each block leaves alone -/

/-- Fields that `setCurrentMode` does not write. -/
theorem setCurrentMode_frame (K : Board) (now m : Nat) (f : Bool) (s : Sys) :
    ((setCurrentMode K now m f s).Iron.presence, (setCurrentMode K now m f s).Iron.calibrating,
      (setCurrentMode K now m f s).Iron.FailState,
      (setCurrentMode K now m f s).Iron.LastSysChangeTime,
      (setCurrentMode K now m f s).Iron.CurrentIronPower,
      (setCurrentMode K now m f s).Iron.prevRunawayLevel,
      (setCurrentMode K now m f s).Iron.RunawayLevel,
      (setCurrentMode K now m f s).Iron.RunawayTimer,
      (setCurrentMode K now m f s).Iron.RunawayStatus,
      (setCurrentMode K now m f s).Iron.updateMode, (setCurrentMode K now m f s).Iron.changeMode,
      (setCurrentMode K now m f s).Iron.LastModeChangeTime,
      (setCurrentMode K now m f s).Iron.updatePwm, (setCurrentMode K now m f s).Iron.Pwm_Limit,
      (setCurrentMode K now m f s).Iron.Pwm_Out, (setCurrentMode K now m f s).Iron.DebugMode,
      (setCurrentMode K now m f s).Iron.LastNoPresentTime,
      (setCurrentMode K now m f s).systemSettings, (setCurrentMode K now m f s).PID_time)
    = (s.Iron.presence, s.Iron.calibrating, s.Iron.FailState, s.Iron.LastSysChangeTime,
      s.Iron.CurrentIronPower, s.Iron.prevRunawayLevel, s.Iron.RunawayLevel, s.Iron.RunawayTimer,
      s.Iron.RunawayStatus, s.Iron.updateMode, s.Iron.changeMode, s.Iron.LastModeChangeTime,
      s.Iron.updatePwm, s.Iron.Pwm_Limit, s.Iron.Pwm_Out, s.Iron.DebugMode,
      s.Iron.LastNoPresentTime, s.systemSettings, s.PID_time) := by
  unfold setCurrentMode modeChanged emit
  simp only []
  split_ifs <;> rfl

@[simp] theorem setCurrentMode_presence (K : Board) (now m : Nat) (f : Bool) (s : Sys) :
    (setCurrentMode K now m f s).Iron.presence = s.Iron.presence :=
  congrArg (fun t => t.1) (setCurrentMode_frame K now m f s)

@[simp] theorem setCurrentMode_calibrating (K : Board) (now m : Nat) (f : Bool) (s : Sys) :
    (setCurrentMode K now m f s).Iron.calibrating = s.Iron.calibrating :=
  congrArg (fun t => t.2.1) (setCurrentMode_frame K now m f s)

@[simp] theorem setCurrentMode_FailState (K : Board) (now m : Nat) (f : Bool) (s : Sys) :
    (setCurrentMode K now m f s).Iron.FailState = s.Iron.FailState :=
  congrArg (fun t => t.2.2.1) (setCurrentMode_frame K now m f s)

@[simp] theorem setCurrentMode_LastSysChangeTime (K : Board) (now m : Nat) (f : Bool) (s : Sys) :
    (setCurrentMode K now m f s).Iron.LastSysChangeTime = s.Iron.LastSysChangeTime :=
  congrArg (fun t => t.2.2.2.1) (setCurrentMode_frame K now m f s)

@[simp] theorem setCurrentMode_CurrentIronPower (K : Board) (now m : Nat) (f : Bool) (s : Sys) :
    (setCurrentMode K now m f s).Iron.CurrentIronPower = s.Iron.CurrentIronPower :=
  congrArg (fun t => t.2.2.2.2.1) (setCurrentMode_frame K now m f s)

@[simp] theorem setCurrentMode_prevRunawayLevel (K : Board) (now m : Nat) (f : Bool) (s : Sys) :
    (setCurrentMode K now m f s).Iron.prevRunawayLevel = s.Iron.prevRunawayLevel :=
  congrArg (fun t => t.2.2.2.2.2.1) (setCurrentMode_frame K now m f s)

@[simp] theorem setCurrentMode_RunawayLevel (K : Board) (now m : Nat) (f : Bool) (s : Sys) :
    (setCurrentMode K now m f s).Iron.RunawayLevel = s.Iron.RunawayLevel :=
  congrArg (fun t => t.2.2.2.2.2.2.1) (setCurrentMode_frame K now m f s)

@[simp] theorem setCurrentMode_RunawayTimer (K : Board) (now m : Nat) (f : Bool) (s : Sys) :
    (setCurrentMode K now m f s).Iron.RunawayTimer = s.Iron.RunawayTimer :=
  congrArg (fun t => t.2.2.2.2.2.2.2.1) (setCurrentMode_frame K now m f s)

@[simp] theorem setCurrentMode_RunawayStatus (K : Board) (now m : Nat) (f : Bool) (s : Sys) :
    (setCurrentMode K now m f s).Iron.RunawayStatus = s.Iron.RunawayStatus :=
  congrArg (fun t => t.2.2.2.2.2.2.2.2.1) (setCurrentMode_frame K now m f s)

@[simp] theorem setCurrentMode_updateMode (K : Board) (now m : Nat) (f : Bool) (s : Sys) :
    (setCurrentMode K now m f s).Iron.updateMode = s.Iron.updateMode :=
  congrArg (fun t => t.2.2.2.2.2.2.2.2.2.1) (setCurrentMode_frame K now m f s)

@[simp] theorem setCurrentMode_changeMode (K : Board) (now m : Nat) (f : Bool) (s : Sys) :
    (setCurrentMode K now m f s).Iron.changeMode = s.Iron.changeMode :=
  congrArg (fun t => t.2.2.2.2.2.2.2.2.2.2.1) (setCurrentMode_frame K now m f s)

@[simp] theorem setCurrentMode_LastModeChangeTime (K : Board) (now m : Nat) (f : Bool) (s : Sys) :
    (setCurrentMode K now m f s).Iron.LastModeChangeTime = s.Iron.LastModeChangeTime :=
  congrArg (fun t => t.2.2.2.2.2.2.2.2.2.2.2.1) (setCurrentMode_frame K now m f s)

@[simp] theorem setCurrentMode_updatePwm (K : Board) (now m : Nat) (f : Bool) (s : Sys) :
    (setCurrentMode K now m f s).Iron.updatePwm = s.Iron.updatePwm :=
  congrArg (fun t => t.2.2.2.2.2.2.2.2.2.2.2.2.1) (setCurrentMode_frame K now m f s)

@[simp] theorem setCurrentMode_Pwm_Limit (K : Board) (now m : Nat) (f : Bool) (s : Sys) :
    (setCurrentMode K now m f s).Iron.Pwm_Limit = s.Iron.Pwm_Limit :=
  congrArg (fun t => t.2.2.2.2.2.2.2.2.2.2.2.2.2.1) (setCurrentMode_frame K now m f s)

@[simp] theorem setCurrentMode_Pwm_Out (K : Board) (now m : Nat) (f : Bool) (s : Sys) :
    (setCurrentMode K now m f s).Iron.Pwm_Out = s.Iron.Pwm_Out :=
  congrArg (fun t => t.2.2.2.2.2.2.2.2.2.2.2.2.2.2.1) (setCurrentMode_frame K now m f s)

@[simp] theorem setCurrentMode_DebugMode (K : Board) (now m : Nat) (f : Bool) (s : Sys) :
    (setCurrentMode K now m f s).Iron.DebugMode = s.Iron.DebugMode :=
  congrArg (fun t => t.2.2.2.2.2.2.2.2.2.2.2.2.2.2.2.1) (setCurrentMode_frame K now m f s)

@[simp] theorem setCurrentMode_LastNoPresentTime (K : Board) (now m : Nat) (f : Bool) (s : Sys) :
    (setCurrentMode K now m f s).Iron.LastNoPresentTime = s.Iron.LastNoPresentTime :=
  congrArg (fun t => t.2.2.2.2.2.2.2.2.2.2.2.2.2.2.2.2.1) (setCurrentMode_frame K now m f s)

@[simp] theorem setCurrentMode_systemSettings (K : Board) (now m : Nat) (f : Bool) (s : Sys) :
    (setCurrentMode K now m f s).systemSettings = s.systemSettings :=
  congrArg (fun t => t.2.2.2.2.2.2.2.2.2.2.2.2.2.2.2.2.2.1) (setCurrentMode_frame K now m f s)

@[simp] theorem setCurrentMode_PID_time (K : Board) (now m : Nat) (f : Bool) (s : Sys) :
    (setCurrentMode K now m f s).PID_time = s.PID_time :=
  congrArg (fun t => t.2.2.2.2.2.2.2.2.2.2.2.2.2.2.2.2.2.2) (setCurrentMode_frame K now m f s)

/-- Fields that `checkIronPresence` does not write. -/
theorem checkIronPresence_frame (K : Board) (inp : Inputs) (s : Sys) :
    ((checkIronPresence K inp s).Iron.calibrating, (checkIronPresence K inp s).Iron.FailState,
      (checkIronPresence K inp s).Iron.LastSysChangeTime,
      (checkIronPresence K inp s).Iron.CurrentIronPower,
      (checkIronPresence K inp s).Iron.prevRunawayLevel,
      (checkIronPresence K inp s).Iron.RunawayLevel,
      (checkIronPresence K inp s).Iron.RunawayTimer,
      (checkIronPresence K inp s).Iron.RunawayStatus,
      (checkIronPresence K inp s).Iron.updateMode, (checkIronPresence K inp s).Iron.changeMode,
      (checkIronPresence K inp s).Iron.LastModeChangeTime,
      (checkIronPresence K inp s).Iron.updatePwm, (checkIronPresence K inp s).Iron.Pwm_Limit,
      (checkIronPresence K inp s).Iron.DebugMode, (checkIronPresence K inp s).systemSettings,
      (checkIronPresence K inp s).PID_time)
    = (s.Iron.calibrating, s.Iron.FailState, s.Iron.LastSysChangeTime, s.Iron.CurrentIronPower,
      s.Iron.prevRunawayLevel, s.Iron.RunawayLevel, s.Iron.RunawayTimer, s.Iron.RunawayStatus,
      s.Iron.updateMode, s.Iron.changeMode, s.Iron.LastModeChangeTime, s.Iron.updatePwm,
      s.Iron.Pwm_Limit, s.Iron.DebugMode, s.systemSettings, s.PID_time) := by
  unfold checkIronPresence emit
  simp only []
  split_ifs <;> simp

@[simp] theorem checkIronPresence_calibrating (K : Board) (inp : Inputs) (s : Sys) :
    (checkIronPresence K inp s).Iron.calibrating = s.Iron.calibrating :=
  congrArg (fun t => t.1) (checkIronPresence_frame K inp s)

@[simp] theorem checkIronPresence_FailState (K : Board) (inp : Inputs) (s : Sys) :
    (checkIronPresence K inp s).Iron.FailState = s.Iron.FailState :=
  congrArg (fun t => t.2.1) (checkIronPresence_frame K inp s)

@[simp] theorem checkIronPresence_LastSysChangeTime (K : Board) (inp : Inputs) (s : Sys) :
    (checkIronPresence K inp s).Iron.LastSysChangeTime = s.Iron.LastSysChangeTime :=
  congrArg (fun t => t.2.2.1) (checkIronPresence_frame K inp s)

@[simp] theorem checkIronPresence_CurrentIronPower (K : Board) (inp : Inputs) (s : Sys) :
    (checkIronPresence K inp s).Iron.CurrentIronPower = s.Iron.CurrentIronPower :=
  congrArg (fun t => t.2.2.2.1) (checkIronPresence_frame K inp s)

@[simp] theorem checkIronPresence_prevRunawayLevel (K : Board) (inp : Inputs) (s : Sys) :
    (checkIronPresence K inp s).Iron.prevRunawayLevel = s.Iron.prevRunawayLevel :=
  congrArg (fun t => t.2.2.2.2.1) (checkIronPresence_frame K inp s)

@[simp] theorem checkIronPresence_RunawayLevel (K : Board) (inp : Inputs) (s : Sys) :
    (checkIronPresence K inp s).Iron.RunawayLevel = s.Iron.RunawayLevel :=
  congrArg (fun t => t.2.2.2.2.2.1) (checkIronPresence_frame K inp s)

@[simp] theorem checkIronPresence_RunawayTimer (K : Board) (inp : Inputs) (s : Sys) :
    (checkIronPresence K inp s).Iron.RunawayTimer = s.Iron.RunawayTimer :=
  congrArg (fun t => t.2.2.2.2.2.2.1) (checkIronPresence_frame K inp s)

@[simp] theorem checkIronPresence_RunawayStatus (K : Board) (inp : Inputs) (s : Sys) :
    (checkIronPresence K inp s).Iron.RunawayStatus = s.Iron.RunawayStatus :=
  congrArg (fun t => t.2.2.2.2.2.2.2.1) (checkIronPresence_frame K inp s)

@[simp] theorem checkIronPresence_updateMode (K : Board) (inp : Inputs) (s : Sys) :
    (checkIronPresence K inp s).Iron.updateMode = s.Iron.updateMode :=
  congrArg (fun t => t.2.2.2.2.2.2.2.2.1) (checkIronPresence_frame K inp s)

@[simp] theorem checkIronPresence_changeMode (K : Board) (inp : Inputs) (s : Sys) :
    (checkIronPresence K inp s).Iron.changeMode = s.Iron.changeMode :=
  congrArg (fun t => t.2.2.2.2.2.2.2.2.2.1) (checkIronPresence_frame K inp s)

@[simp] theorem checkIronPresence_LastModeChangeTime (K : Board) (inp : Inputs) (s : Sys) :
    (checkIronPresence K inp s).Iron.LastModeChangeTime = s.Iron.LastModeChangeTime :=
  congrArg (fun t => t.2.2.2.2.2.2.2.2.2.2.1) (checkIronPresence_frame K inp s)

@[simp] theorem checkIronPresence_updatePwm (K : Board) (inp : Inputs) (s : Sys) :
    (checkIronPresence K inp s).Iron.updatePwm = s.Iron.updatePwm :=
  congrArg (fun t => t.2.2.2.2.2.2.2.2.2.2.2.1) (checkIronPresence_frame K inp s)

@[simp] theorem checkIronPresence_Pwm_Limit (K : Board) (inp : Inputs) (s : Sys) :
    (checkIronPresence K inp s).Iron.Pwm_Limit = s.Iron.Pwm_Limit :=
  congrArg (fun t => t.2.2.2.2.2.2.2.2.2.2.2.2.1) (checkIronPresence_frame K inp s)

@[simp] theorem checkIronPresence_DebugMode (K : Board) (inp : Inputs) (s : Sys) :
    (checkIronPresence K inp s).Iron.DebugMode = s.Iron.DebugMode :=
  congrArg (fun t => t.2.2.2.2.2.2.2.2.2.2.2.2.2.1) (checkIronPresence_frame K inp s)

@[simp] theorem checkIronPresence_systemSettings (K : Board) (inp : Inputs) (s : Sys) :
    (checkIronPresence K inp s).systemSettings = s.systemSettings :=
  congrArg (fun t => t.2.2.2.2.2.2.2.2.2.2.2.2.2.2.1) (checkIronPresence_frame K inp s)

@[simp] theorem checkIronPresence_PID_time (K : Board) (inp : Inputs) (s : Sys) :
    (checkIronPresence K inp s).PID_time = s.PID_time :=
  congrArg (fun t => t.2.2.2.2.2.2.2.2.2.2.2.2.2.2.2) (checkIronPresence_frame K inp s)

/-- Fields that the profile guard does not write. -/
theorem profileGuard_frame (s : Sys) :
    ((profileGuard s).Iron.presence, (profileGuard s).Iron.CurrentMode,
      (profileGuard s).Iron.CurrentModeTimer, (profileGuard s).Iron.CurrentSetTemperature,
      (profileGuard s).Iron.Cal_TemperatureReachedFlag, (profileGuard s).Iron.calibrating,
      (profileGuard s).Iron.LastSysChangeTime, (profileGuard s).Iron.CurrentIronPower,
      (profileGuard s).Iron.prevRunawayLevel, (profileGuard s).Iron.RunawayLevel,
      (profileGuard s).Iron.RunawayTimer, (profileGuard s).Iron.RunawayStatus,
      (profileGuard s).Iron.updateMode, (profileGuard s).Iron.changeMode,
      (profileGuard s).Iron.LastModeChangeTime, (profileGuard s).Iron.updatePwm,
      (profileGuard s).Iron.Pwm_Limit, (profileGuard s).Iron.DebugMode,
      (profileGuard s).Iron.LastNoPresentTime, (profileGuard s).systemSettings,
      (profileGuard s).PID_time)
    = (s.Iron.presence, s.Iron.CurrentMode, s.Iron.CurrentModeTimer, s.Iron.CurrentSetTemperature,
      s.Iron.Cal_TemperatureReachedFlag, s.Iron.calibrating, s.Iron.LastSysChangeTime,
      s.Iron.CurrentIronPower, s.Iron.prevRunawayLevel, s.Iron.RunawayLevel, s.Iron.RunawayTimer,
      s.Iron.RunawayStatus, s.Iron.updateMode, s.Iron.changeMode, s.Iron.LastModeChangeTime,
      s.Iron.updatePwm, s.Iron.Pwm_Limit, s.Iron.DebugMode, s.Iron.LastNoPresentTime,
      s.systemSettings, s.PID_time) := by
  unfold profileGuard SetFailState GetFailState
  simp only []
  split_ifs <;> simp

@[simp] theorem profileGuard_presence (s : Sys) :
    (profileGuard s).Iron.presence = s.Iron.presence :=
  congrArg (fun t => t.1) (profileGuard_frame s)

@[simp] theorem profileGuard_CurrentMode (s : Sys) :
    (profileGuard s).Iron.CurrentMode = s.Iron.CurrentMode :=
  congrArg (fun t => t.2.1) (profileGuard_frame s)

@[simp] theorem profileGuard_CurrentModeTimer (s : Sys) :
    (profileGuard s).Iron.CurrentModeTimer = s.Iron.CurrentModeTimer :=
  congrArg (fun t => t.2.2.1) (profileGuard_frame s)

@[simp] theorem profileGuard_CurrentSetTemperature (s : Sys) :
    (profileGuard s).Iron.CurrentSetTemperature = s.Iron.CurrentSetTemperature :=
  congrArg (fun t => t.2.2.2.1) (profileGuard_frame s)

@[simp] theorem profileGuard_Cal_TemperatureReachedFlag (s : Sys) :
    (profileGuard s).Iron.Cal_TemperatureReachedFlag = s.Iron.Cal_TemperatureReachedFlag :=
  congrArg (fun t => t.2.2.2.2.1) (profileGuard_frame s)

@[simp] theorem profileGuard_calibrating (s : Sys) :
    (profileGuard s).Iron.calibrating = s.Iron.calibrating :=
  congrArg (fun t => t.2.2.2.2.2.1) (profileGuard_frame s)

@[simp] theorem profileGuard_LastSysChangeTime (s : Sys) :
    (profileGuard s).Iron.LastSysChangeTime = s.Iron.LastSysChangeTime :=
  congrArg (fun t => t.2.2.2.2.2.2.1) (profileGuard_frame s)

@[simp] theorem profileGuard_CurrentIronPower (s : Sys) :
    (profileGuard s).Iron.CurrentIronPower = s.Iron.CurrentIronPower :=
  congrArg (fun t => t.2.2.2.2.2.2.2.1) (profileGuard_frame s)

@[simp] theorem profileGuard_prevRunawayLevel (s : Sys) :
    (profileGuard s).Iron.prevRunawayLevel = s.Iron.prevRunawayLevel :=
  congrArg (fun t => t.2.2.2.2.2.2.2.2.1) (profileGuard_frame s)

@[simp] theorem profileGuard_RunawayLevel (s : Sys) :
    (profileGuard s).Iron.RunawayLevel = s.Iron.RunawayLevel :=
  congrArg (fun t => t.2.2.2.2.2.2.2.2.2.1) (profileGuard_frame s)

@[simp] theorem profileGuard_RunawayTimer (s : Sys) :
    (profileGuard s).Iron.RunawayTimer = s.Iron.RunawayTimer :=
  congrArg (fun t => t.2.2.2.2.2.2.2.2.2.2.1) (profileGuard_frame s)

@[simp] theorem profileGuard_RunawayStatus (s : Sys) :
    (profileGuard s).Iron.RunawayStatus = s.Iron.RunawayStatus :=
  congrArg (fun t => t.2.2.2.2.2.2.2.2.2.2.2.1) (profileGuard_frame s)

@[simp] theorem profileGuard_updateMode (s : Sys) :
    (profileGuard s).Iron.updateMode = s.Iron.updateMode :=
  congrArg (fun t => t.2.2.2.2.2.2.2.2.2.2.2.2.1) (profileGuard_frame s)

@[simp] theorem profileGuard_changeMode (s : Sys) :
    (profileGuard s).Iron.changeMode = s.Iron.changeMode :=
  congrArg (fun t => t.2.2.2.2.2.2.2.2.2.2.2.2.2.1) (profileGuard_frame s)

@[simp] theorem profileGuard_LastModeChangeTime (s : Sys) :
    (profileGuard s).Iron.LastModeChangeTime = s.Iron.LastModeChangeTime :=
  congrArg (fun t => t.2.2.2.2.2.2.2.2.2.2.2.2.2.2.1) (profileGuard_frame s)

@[simp] theorem profileGuard_updatePwm (s : Sys) :
    (profileGuard s).Iron.updatePwm = s.Iron.updatePwm :=
  congrArg (fun t => t.2.2.2.2.2.2.2.2.2.2.2.2.2.2.2.1) (profileGuard_frame s)

@[simp] theorem profileGuard_Pwm_Limit (s : Sys) :
    (profileGuard s).Iron.Pwm_Limit = s.Iron.Pwm_Limit :=
  congrArg (fun t => t.2.2.2.2.2.2.2.2.2.2.2.2.2.2.2.2.1) (profileGuard_frame s)

@[simp] theorem profileGuard_DebugMode (s : Sys) :
    (profileGuard s).Iron.DebugMode = s.Iron.DebugMode :=
  congrArg (fun t => t.2.2.2.2.2.2.2.2.2.2.2.2.2.2.2.2.2.1) (profileGuard_frame s)

@[simp] theorem profileGuard_LastNoPresentTime (s : Sys) :
    (profileGuard s).Iron.LastNoPresentTime = s.Iron.LastNoPresentTime :=
  congrArg (fun t => t.2.2.2.2.2.2.2.2.2.2.2.2.2.2.2.2.2.2.1) (profileGuard_frame s)

@[simp] theorem profileGuard_systemSettings (s : Sys) :
    (profileGuard s).systemSettings = s.systemSettings :=
  congrArg (fun t => t.2.2.2.2.2.2.2.2.2.2.2.2.2.2.2.2.2.2.2.1) (profileGuard_frame s)

@[simp] theorem profileGuard_PID_time (s : Sys) :
    (profileGuard s).PID_time = s.PID_time :=
  congrArg (fun t => t.2.2.2.2.2.2.2.2.2.2.2.2.2.2.2.2.2.2.2.2) (profileGuard_frame s)

/-- Fields that the settings watcher does not write. -/
theorem settingsWatch_frame (inp : Inputs) (s : Sys) :
    ((settingsWatch inp s).Iron.presence, (settingsWatch inp s).Iron.CurrentMode,
      (settingsWatch inp s).Iron.CurrentModeTimer,
      (settingsWatch inp s).Iron.CurrentSetTemperature,
      (settingsWatch inp s).Iron.Cal_TemperatureReachedFlag,
      (settingsWatch inp s).Iron.calibrating, (settingsWatch inp s).Iron.FailState,
      (settingsWatch inp s).Iron.CurrentIronPower, (settingsWatch inp s).Iron.prevRunawayLevel,
      (settingsWatch inp s).Iron.RunawayLevel, (settingsWatch inp s).Iron.RunawayTimer,
      (settingsWatch inp s).Iron.RunawayStatus, (settingsWatch inp s).Iron.updateMode,
      (settingsWatch inp s).Iron.changeMode, (settingsWatch inp s).Iron.LastModeChangeTime,
      (settingsWatch inp s).Iron.updatePwm, (settingsWatch inp s).Iron.Pwm_Limit,
      (settingsWatch inp s).Iron.Pwm_Out, (settingsWatch inp s).Iron.DebugMode,
      (settingsWatch inp s).Iron.LastNoPresentTime,
      (settingsWatch inp s).systemSettings.settings,
      (settingsWatch inp s).systemSettings.Profile,
      (settingsWatch inp s).systemSettings.setupMode, (settingsWatch inp s).PID_time)
    = (s.Iron.presence, s.Iron.CurrentMode, s.Iron.CurrentModeTimer, s.Iron.CurrentSetTemperature,
      s.Iron.Cal_TemperatureReachedFlag, s.Iron.calibrating, s.Iron.FailState,
      s.Iron.CurrentIronPower, s.Iron.prevRunawayLevel, s.Iron.RunawayLevel, s.Iron.RunawayTimer,
      s.Iron.RunawayStatus, s.Iron.updateMode, s.Iron.changeMode, s.Iron.LastModeChangeTime,
      s.Iron.updatePwm, s.Iron.Pwm_Limit, s.Iron.Pwm_Out, s.Iron.DebugMode,
      s.Iron.LastNoPresentTime, s.systemSettings.settings, s.systemSettings.Profile,
      s.systemSettings.setupMode, s.PID_time) := by
  unfold settingsWatch saveSettings emit
  simp only []
  split_ifs <;> simp

@[simp] theorem settingsWatch_presence (inp : Inputs) (s : Sys) :
    (settingsWatch inp s).Iron.presence = s.Iron.presence :=
  congrArg (fun t => t.1) (settingsWatch_frame inp s)

@[simp] theorem settingsWatch_CurrentMode (inp : Inputs) (s : Sys) :
    (settingsWatch inp s).Iron.CurrentMode = s.Iron.CurrentMode :=
  congrArg (fun t => t.2.1) (settingsWatch_frame inp s)

@[simp] theorem settingsWatch_CurrentModeTimer (inp : Inputs) (s : Sys) :
    (settingsWatch inp s).Iron.CurrentModeTimer = s.Iron.CurrentModeTimer :=
  congrArg (fun t => t.2.2.1) (settingsWatch_frame inp s)

@[simp] theorem settingsWatch_CurrentSetTemperature (inp : Inputs) (s : Sys) :
    (settingsWatch inp s).Iron.CurrentSetTemperature = s.Iron.CurrentSetTemperature :=
  congrArg (fun t => t.2.2.2.1) (settingsWatch_frame inp s)

@[simp] theorem settingsWatch_Cal_TemperatureReachedFlag (inp : Inputs) (s : Sys) :
    (settingsWatch inp s).Iron.Cal_TemperatureReachedFlag = s.Iron.Cal_TemperatureReachedFlag :=
  congrArg (fun t => t.2.2.2.2.1) (settingsWatch_frame inp s)

@[simp] theorem settingsWatch_calibrating (inp : Inputs) (s : Sys) :
    (settingsWatch inp s).Iron.calibrating = s.Iron.calibrating :=
  congrArg (fun t => t.2.2.2.2.2.1) (settingsWatch_frame inp s)

@[simp] theorem settingsWatch_FailState (inp : Inputs) (s : Sys) :
    (settingsWatch inp s).Iron.FailState = s.Iron.FailState :=
  congrArg (fun t => t.2.2.2.2.2.2.1) (settingsWatch_frame inp s)

@[simp] theorem settingsWatch_CurrentIronPower (inp : Inputs) (s : Sys) :
    (settingsWatch inp s).Iron.CurrentIronPower = s.Iron.CurrentIronPower :=
  congrArg (fun t => t.2.2.2.2.2.2.2.1) (settingsWatch_frame inp s)

@[simp] theorem settingsWatch_prevRunawayLevel (inp : Inputs) (s : Sys) :
    (settingsWatch inp s).Iron.prevRunawayLevel = s.Iron.prevRunawayLevel :=
  congrArg (fun t => t.2.2.2.2.2.2.2.2.1) (settingsWatch_frame inp s)

@[simp] theorem settingsWatch_RunawayLevel (inp : Inputs) (s : Sys) :
    (settingsWatch inp s).Iron.RunawayLevel = s.Iron.RunawayLevel :=
  congrArg (fun t => t.2.2.2.2.2.2.2.2.2.1) (settingsWatch_frame inp s)

@[simp] theorem settingsWatch_RunawayTimer (inp : Inputs) (s : Sys) :
    (settingsWatch inp s).Iron.RunawayTimer = s.Iron.RunawayTimer :=
  congrArg (fun t => t.2.2.2.2.2.2.2.2.2.2.1) (settingsWatch_frame inp s)

@[simp] theorem settingsWatch_RunawayStatus (inp : Inputs) (s : Sys) :
    (settingsWatch inp s).Iron.RunawayStatus = s.Iron.RunawayStatus :=
  congrArg (fun t => t.2.2.2.2.2.2.2.2.2.2.2.1) (settingsWatch_frame inp s)

@[simp] theorem settingsWatch_updateMode (inp : Inputs) (s : Sys) :
    (settingsWatch inp s).Iron.updateMode = s.Iron.updateMode :=
  congrArg (fun t => t.2.2.2.2.2.2.2.2.2.2.2.2.1) (settingsWatch_frame inp s)

@[simp] theorem settingsWatch_changeMode (inp : Inputs) (s : Sys) :
    (settingsWatch inp s).Iron.changeMode = s.Iron.changeMode :=
  congrArg (fun t => t.2.2.2.2.2.2.2.2.2.2.2.2.2.1) (settingsWatch_frame inp s)

@[simp] theorem settingsWatch_LastModeChangeTime (inp : Inputs) (s : Sys) :
    (settingsWatch inp s).Iron.LastModeChangeTime = s.Iron.LastModeChangeTime :=
  congrArg (fun t => t.2.2.2.2.2.2.2.2.2.2.2.2.2.2.1) (settingsWatch_frame inp s)

@[simp] theorem settingsWatch_updatePwm (inp : Inputs) (s : Sys) :
    (settingsWatch inp s).Iron.updatePwm = s.Iron.updatePwm :=
  congrArg (fun t => t.2.2.2.2.2.2.2.2.2.2.2.2.2.2.2.1) (settingsWatch_frame inp s)

@[simp] theorem settingsWatch_Pwm_Limit (inp : Inputs) (s : Sys) :
    (settingsWatch inp s).Iron.Pwm_Limit = s.Iron.Pwm_Limit :=
  congrArg (fun t => t.2.2.2.2.2.2.2.2.2.2.2.2.2.2.2.2.1) (settingsWatch_frame inp s)

@[simp] theorem settingsWatch_Pwm_Out (inp : Inputs) (s : Sys) :
    (settingsWatch inp s).Iron.Pwm_Out = s.Iron.Pwm_Out :=
  congrArg (fun t => t.2.2.2.2.2.2.2.2.2.2.2.2.2.2.2.2.2.1) (settingsWatch_frame inp s)

@[simp] theorem settingsWatch_DebugMode (inp : Inputs) (s : Sys) :
    (settingsWatch inp s).Iron.DebugMode = s.Iron.DebugMode :=
  congrArg (fun t => t.2.2.2.2.2.2.2.2.2.2.2.2.2.2.2.2.2.2.1) (settingsWatch_frame inp s)

@[simp] theorem settingsWatch_LastNoPresentTime (inp : Inputs) (s : Sys) :
    (settingsWatch inp s).Iron.LastNoPresentTime = s.Iron.LastNoPresentTime :=
  congrArg (fun t => t.2.2.2.2.2.2.2.2.2.2.2.2.2.2.2.2.2.2.2.1) (settingsWatch_frame inp s)

@[simp] theorem settingsWatch_systemSettings_settings (inp : Inputs) (s : Sys) :
    (settingsWatch inp s).systemSettings.settings = s.systemSettings.settings :=
  congrArg (fun t => t.2.2.2.2.2.2.2.2.2.2.2.2.2.2.2.2.2.2.2.2.1) (settingsWatch_frame inp s)

@[simp] theorem settingsWatch_systemSettings_Profile (inp : Inputs) (s : Sys) :
    (settingsWatch inp s).systemSettings.Profile = s.systemSettings.Profile :=
  congrArg (fun t => t.2.2.2.2.2.2.2.2.2.2.2.2.2.2.2.2.2.2.2.2.2.1) (settingsWatch_frame inp s)

@[simp] theorem settingsWatch_systemSettings_setupMode (inp : Inputs) (s : Sys) :
    (settingsWatch inp s).systemSettings.setupMode = s.systemSettings.setupMode :=
  congrArg (fun t => t.2.2.2.2.2.2.2.2.2.2.2.2.2.2.2.2.2.2.2.2.2.2.1) (settingsWatch_frame inp s)

@[simp] theorem settingsWatch_PID_time (inp : Inputs) (s : Sys) :
    (settingsWatch inp s).PID_time = s.PID_time :=
  congrArg (fun t => t.2.2.2.2.2.2.2.2.2.2.2.2.2.2.2.2.2.2.2.2.2.2.2) (settingsWatch_frame inp s)

/-- Fields that are unchanged at line 103. -/
theorem entryState_frame (K : Board) (inp : Inputs) (s : Sys) :
    ((entryState K inp s).Iron.calibrating, (entryState K inp s).Iron.CurrentIronPower,
      (entryState K inp s).Iron.prevRunawayLevel, (entryState K inp s).Iron.RunawayLevel,
      (entryState K inp s).Iron.RunawayTimer, (entryState K inp s).Iron.RunawayStatus,
      (entryState K inp s).Iron.updateMode, (entryState K inp s).Iron.changeMode,
      (entryState K inp s).Iron.LastModeChangeTime, (entryState K inp s).Iron.updatePwm,
      (entryState K inp s).Iron.Pwm_Limit, (entryState K inp s).Iron.DebugMode,
      (entryState K inp s).systemSettings.settings, (entryState K inp s).systemSettings.Profile,
      (entryState K inp s).systemSettings.setupMode, (entryState K inp s).PID_time)
    = (s.Iron.calibrating, s.Iron.CurrentIronPower, s.Iron.prevRunawayLevel, s.Iron.RunawayLevel,
      s.Iron.RunawayTimer, s.Iron.RunawayStatus, s.Iron.updateMode, s.Iron.changeMode,
      s.Iron.LastModeChangeTime, s.Iron.updatePwm, s.Iron.Pwm_Limit, s.Iron.DebugMode,
      s.systemSettings.settings, s.systemSettings.Profile, s.systemSettings.setupMode, s.PID_time) := by
  simp [entryState]

@[simp] theorem entryState_calibrating (K : Board) (inp : Inputs) (s : Sys) :
    (entryState K inp s).Iron.calibrating = s.Iron.calibrating :=
  congrArg (fun t => t.1) (entryState_frame K inp s)

@[simp] theorem entryState_CurrentIronPower (K : Board) (inp : Inputs) (s : Sys) :
    (entryState K inp s).Iron.CurrentIronPower = s.Iron.CurrentIronPower :=
  congrArg (fun t => t.2.1) (entryState_frame K inp s)

@[simp] theorem entryState_prevRunawayLevel (K : Board) (inp : Inputs) (s : Sys) :
    (entryState K inp s).Iron.prevRunawayLevel = s.Iron.prevRunawayLevel :=
  congrArg (fun t => t.2.2.1) (entryState_frame K inp s)

@[simp] theorem entryState_RunawayLevel (K : Board) (inp : Inputs) (s : Sys) :
    (entryState K inp s).Iron.RunawayLevel = s.Iron.RunawayLevel :=
  congrArg (fun t => t.2.2.2.1) (entryState_frame K inp s)

@[simp] theorem entryState_RunawayTimer (K : Board) (inp : Inputs) (s : Sys) :
    (entryState K inp s).Iron.RunawayTimer = s.Iron.RunawayTimer :=
  congrArg (fun t => t.2.2.2.2.1) (entryState_frame K inp s)

@[simp] theorem entryState_RunawayStatus (K : Board) (inp : Inputs) (s : Sys) :
    (entryState K inp s).Iron.RunawayStatus = s.Iron.RunawayStatus :=
  congrArg (fun t => t.2.2.2.2.2.1) (entryState_frame K inp s)

@[simp] theorem entryState_updateMode (K : Board) (inp : Inputs) (s : Sys) :
    (entryState K inp s).Iron.updateMode = s.Iron.updateMode :=
  congrArg (fun t => t.2.2.2.2.2.2.1) (entryState_frame K inp s)

@[simp] theorem entryState_changeMode (K : Board) (inp : Inputs) (s : Sys) :
    (entryState K inp s).Iron.changeMode = s.Iron.changeMode :=
  congrArg (fun t => t.2.2.2.2.2.2.2.1) (entryState_frame K inp s)

@[simp] theorem entryState_LastModeChangeTime (K : Board) (inp : Inputs) (s : Sys) :
    (entryState K inp s).Iron.LastModeChangeTime = s.Iron.LastModeChangeTime :=
  congrArg (fun t => t.2.2.2.2.2.2.2.2.1) (entryState_frame K inp s)

@[simp] theorem entryState_updatePwm (K : Board) (inp : Inputs) (s : Sys) :
    (entryState K inp s).Iron.updatePwm = s.Iron.updatePwm :=
  congrArg (fun t => t.2.2.2.2.2.2.2.2.2.1) (entryState_frame K inp s)

@[simp] theorem entryState_Pwm_Limit (K : Board) (inp : Inputs) (s : Sys) :
    (entryState K inp s).Iron.Pwm_Limit = s.Iron.Pwm_Limit :=
  congrArg (fun t => t.2.2.2.2.2.2.2.2.2.2.1) (entryState_frame K inp s)

@[simp] theorem entryState_DebugMode (K : Board) (inp : Inputs) (s : Sys) :
    (entryState K inp s).Iron.DebugMode = s.Iron.DebugMode :=
  congrArg (fun t => t.2.2.2.2.2.2.2.2.2.2.2.1) (entryState_frame K inp s)

@[simp] theorem entryState_systemSettings_settings (K : Board) (inp : Inputs) (s : Sys) :
    (entryState K inp s).systemSettings.settings = s.systemSettings.settings :=
  congrArg (fun t => t.2.2.2.2.2.2.2.2.2.2.2.2.1) (entryState_frame K inp s)

@[simp] theorem entryState_systemSettings_Profile (K : Board) (inp : Inputs) (s : Sys) :
    (entryState K inp s).systemSettings.Profile = s.systemSettings.Profile :=
  congrArg (fun t => t.2.2.2.2.2.2.2.2.2.2.2.2.2.1) (entryState_frame K inp s)

@[simp] theorem entryState_systemSettings_setupMode (K : Board) (inp : Inputs) (s : Sys) :
    (entryState K inp s).systemSettings.setupMode = s.systemSettings.setupMode :=
  congrArg (fun t => t.2.2.2.2.2.2.2.2.2.2.2.2.2.2.1) (entryState_frame K inp s)

@[simp] theorem entryState_PID_time (K : Board) (inp : Inputs) (s : Sys) :
    (entryState K inp s).PID_time = s.PID_time :=
  congrArg (fun t => t.2.2.2.2.2.2.2.2.2.2.2.2.2.2.2) (entryState_frame K inp s)

/-- Fields that the short circuit does not write. -/
theorem idle_frame (inp : Inputs) (s : Sys) :
    ((idle inp s).Iron.presence, (idle inp s).Iron.CurrentMode,
      (idle inp s).Iron.CurrentModeTimer, (idle inp s).Iron.CurrentSetTemperature,
      (idle inp s).Iron.Cal_TemperatureReachedFlag, (idle inp s).Iron.calibrating,
      (idle inp s).Iron.FailState, (idle inp s).Iron.LastSysChangeTime,
      (idle inp s).Iron.RunawayLevel, (idle inp s).Iron.RunawayStatus,
      (idle inp s).Iron.updateMode, (idle inp s).Iron.changeMode,
      (idle inp s).Iron.LastModeChangeTime, (idle inp s).Iron.updatePwm,
      (idle inp s).Iron.Pwm_Limit, (idle inp s).Iron.Pwm_Out, (idle inp s).Iron.DebugMode,
      (idle inp s).Iron.LastNoPresentTime, (idle inp s).systemSettings, (idle inp s).PID_time)
    = (s.Iron.presence, s.Iron.CurrentMode, s.Iron.CurrentModeTimer, s.Iron.CurrentSetTemperature,
      s.Iron.Cal_TemperatureReachedFlag, s.Iron.calibrating, s.Iron.FailState,
      s.Iron.LastSysChangeTime, s.Iron.RunawayLevel, s.Iron.RunawayStatus, s.Iron.updateMode,
      s.Iron.changeMode, s.Iron.LastModeChangeTime, s.Iron.updatePwm, s.Iron.Pwm_Limit,
      s.Iron.Pwm_Out, s.Iron.DebugMode, s.Iron.LastNoPresentTime, s.systemSettings, s.PID_time) := by
  unfold idle
  simp only []
  split_ifs <;> simp

@[simp] theorem idle_presence (inp : Inputs) (s : Sys) :
    (idle inp s).Iron.presence = s.Iron.presence :=
  congrArg (fun t => t.1) (idle_frame inp s)

@[simp] theorem idle_CurrentMode (inp : Inputs) (s : Sys) :
    (idle inp s).Iron.CurrentMode = s.Iron.CurrentMode :=
  congrArg (fun t => t.2.1) (idle_frame inp s)

@[simp] theorem idle_CurrentModeTimer (inp : Inputs) (s : Sys) :
    (idle inp s).Iron.CurrentModeTimer = s.Iron.CurrentModeTimer :=
  congrArg (fun t => t.2.2.1) (idle_frame inp s)

@[simp] theorem idle_CurrentSetTemperature (inp : Inputs) (s : Sys) :
    (idle inp s).Iron.CurrentSetTemperature = s.Iron.CurrentSetTemperature :=
  congrArg (fun t => t.2.2.2.1) (idle_frame inp s)

@[simp] theorem idle_Cal_TemperatureReachedFlag (inp : Inputs) (s : Sys) :
    (idle inp s).Iron.Cal_TemperatureReachedFlag = s.Iron.Cal_TemperatureReachedFlag :=
  congrArg (fun t => t.2.2.2.2.1) (idle_frame inp s)

@[simp] theorem idle_calibrating (inp : Inputs) (s : Sys) :
    (idle inp s).Iron.calibrating = s.Iron.calibrating :=
  congrArg (fun t => t.2.2.2.2.2.1) (idle_frame inp s)

@[simp] theorem idle_FailState (inp : Inputs) (s : Sys) :
    (idle inp s).Iron.FailState = s.Iron.FailState :=
  congrArg (fun t => t.2.2.2.2.2.2.1) (idle_frame inp s)

@[simp] theorem idle_LastSysChangeTime (inp : Inputs) (s : Sys) :
    (idle inp s).Iron.LastSysChangeTime = s.Iron.LastSysChangeTime :=
  congrArg (fun t => t.2.2.2.2.2.2.2.1) (idle_frame inp s)

@[simp] theorem idle_RunawayLevel (inp : Inputs) (s : Sys) :
    (idle inp s).Iron.RunawayLevel = s.Iron.RunawayLevel :=
  congrArg (fun t => t.2.2.2.2.2.2.2.2.1) (idle_frame inp s)

@[simp] theorem idle_RunawayStatus (inp : Inputs) (s : Sys) :
    (idle inp s).Iron.RunawayStatus = s.Iron.RunawayStatus :=
  congrArg (fun t => t.2.2.2.2.2.2.2.2.2.1) (idle_frame inp s)

@[simp] theorem idle_updateMode (inp : Inputs) (s : Sys) :
    (idle inp s).Iron.updateMode = s.Iron.updateMode :=
  congrArg (fun t => t.2.2.2.2.2.2.2.2.2.2.1) (idle_frame inp s)

@[simp] theorem idle_changeMode (inp : Inputs) (s : Sys) :
    (idle inp s).Iron.changeMode = s.Iron.changeMode :=
  congrArg (fun t => t.2.2.2.2.2.2.2.2.2.2.2.1) (idle_frame inp s)

@[simp] theorem idle_LastModeChangeTime (inp : Inputs) (s : Sys) :
    (idle inp s).Iron.LastModeChangeTime = s.Iron.LastModeChangeTime :=
  congrArg (fun t => t.2.2.2.2.2.2.2.2.2.2.2.2.1) (idle_frame inp s)

@[simp] theorem idle_updatePwm (inp : Inputs) (s : Sys) :
    (idle inp s).Iron.updatePwm = s.Iron.updatePwm :=
  congrArg (fun t => t.2.2.2.2.2.2.2.2.2.2.2.2.2.1) (idle_frame inp s)

@[simp] theorem idle_Pwm_Limit (inp : Inputs) (s : Sys) :
    (idle inp s).Iron.Pwm_Limit = s.Iron.Pwm_Limit :=
  congrArg (fun t => t.2.2.2.2.2.2.2.2.2.2.2.2.2.2.1) (idle_frame inp s)

@[simp] theorem idle_Pwm_Out (inp : Inputs) (s : Sys) :
    (idle inp s).Iron.Pwm_Out = s.Iron.Pwm_Out :=
  congrArg (fun t => t.2.2.2.2.2.2.2.2.2.2.2.2.2.2.2.1) (idle_frame inp s)

@[simp] theorem idle_DebugMode (inp : Inputs) (s : Sys) :
    (idle inp s).Iron.DebugMode = s.Iron.DebugMode :=
  congrArg (fun t => t.2.2.2.2.2.2.2.2.2.2.2.2.2.2.2.2.1) (idle_frame inp s)

@[simp] theorem idle_LastNoPresentTime (inp : Inputs) (s : Sys) :
    (idle inp s).Iron.LastNoPresentTime = s.Iron.LastNoPresentTime :=
  congrArg (fun t => t.2.2.2.2.2.2.2.2.2.2.2.2.2.2.2.2.2.1) (idle_frame inp s)

@[simp] theorem idle_systemSettings (inp : Inputs) (s : Sys) :
    (idle inp s).systemSettings = s.systemSettings :=
  congrArg (fun t => t.2.2.2.2.2.2.2.2.2.2.2.2.2.2.2.2.2.2.1) (idle_frame inp s)

@[simp] theorem idle_PID_time (inp : Inputs) (s : Sys) :
    (idle inp s).PID_time = s.PID_time :=
  congrArg (fun t => t.2.2.2.2.2.2.2.2.2.2.2.2.2.2.2.2.2.2.2) (idle_frame inp s)

/-- Fields that the debounce block does not write. -/
theorem standDebounce_frame (K : Board) (inp : Inputs) (s : Sys) :
    ((standDebounce K inp s).Iron.presence, (standDebounce K inp s).Iron.calibrating,
      (standDebounce K inp s).Iron.FailState, (standDebounce K inp s).Iron.LastSysChangeTime,
      (standDebounce K inp s).Iron.CurrentIronPower,
      (standDebounce K inp s).Iron.prevRunawayLevel, (standDebounce K inp s).Iron.RunawayLevel,
      (standDebounce K inp s).Iron.RunawayTimer, (standDebounce K inp s).Iron.RunawayStatus,
      (standDebounce K inp s).Iron.changeMode, (standDebounce K inp s).Iron.LastModeChangeTime,
      (standDebounce K inp s).Iron.updatePwm, (standDebounce K inp s).Iron.Pwm_Limit,
      (standDebounce K inp s).Iron.Pwm_Out, (standDebounce K inp s).Iron.DebugMode,
      (standDebounce K inp s).Iron.LastNoPresentTime, (standDebounce K inp s).systemSettings,
      (standDebounce K inp s).PID_time)
    = (s.Iron.presence, s.Iron.calibrating, s.Iron.FailState, s.Iron.LastSysChangeTime,
      s.Iron.CurrentIronPower, s.Iron.prevRunawayLevel, s.Iron.RunawayLevel, s.Iron.RunawayTimer,
      s.Iron.RunawayStatus, s.Iron.changeMode, s.Iron.LastModeChangeTime, s.Iron.updatePwm,
      s.Iron.Pwm_Limit, s.Iron.Pwm_Out, s.Iron.DebugMode, s.Iron.LastNoPresentTime,
      s.systemSettings, s.PID_time) := by
  unfold standDebounce
  split_ifs <;> simp

@[simp] theorem standDebounce_presence (K : Board) (inp : Inputs) (s : Sys) :
    (standDebounce K inp s).Iron.presence = s.Iron.presence :=
  congrArg (fun t => t.1) (standDebounce_frame K inp s)

@[simp] theorem standDebounce_calibrating (K : Board) (inp : Inputs) (s : Sys) :
    (standDebounce K inp s).Iron.calibrating = s.Iron.calibrating :=
  congrArg (fun t => t.2.1) (standDebounce_frame K inp s)

@[simp] theorem standDebounce_FailState (K : Board) (inp : Inputs) (s : Sys) :
    (standDebounce K inp s).Iron.FailState = s.Iron.FailState :=
  congrArg (fun t => t.2.2.1) (standDebounce_frame K inp s)

@[simp] theorem standDebounce_LastSysChangeTime (K : Board) (inp : Inputs) (s : Sys) :
    (standDebounce K inp s).Iron.LastSysChangeTime = s.Iron.LastSysChangeTime :=
  congrArg (fun t => t.2.2.2.1) (standDebounce_frame K inp s)

@[simp] theorem standDebounce_CurrentIronPower (K : Board) (inp : Inputs) (s : Sys) :
    (standDebounce K inp s).Iron.CurrentIronPower = s.Iron.CurrentIronPower :=
  congrArg (fun t => t.2.2.2.2.1) (standDebounce_frame K inp s)

@[simp] theorem standDebounce_prevRunawayLevel (K : Board) (inp : Inputs) (s : Sys) :
    (standDebounce K inp s).Iron.prevRunawayLevel = s.Iron.prevRunawayLevel :=
  congrArg (fun t => t.2.2.2.2.2.1) (standDebounce_frame K inp s)

@[simp] theorem standDebounce_RunawayLevel (K : Board) (inp : Inputs) (s : Sys) :
    (standDebounce K inp s).Iron.RunawayLevel = s.Iron.RunawayLevel :=
  congrArg (fun t => t.2.2.2.2.2.2.1) (standDebounce_frame K inp s)

@[simp] theorem standDebounce_RunawayTimer (K : Board) (inp : Inputs) (s : Sys) :
    (standDebounce K inp s).Iron.RunawayTimer = s.Iron.RunawayTimer :=
  congrArg (fun t => t.2.2.2.2.2.2.2.1) (standDebounce_frame K inp s)

@[simp] theorem standDebounce_RunawayStatus (K : Board) (inp : Inputs) (s : Sys) :
    (standDebounce K inp s).Iron.RunawayStatus = s.Iron.RunawayStatus :=
  congrArg (fun t => t.2.2.2.2.2.2.2.2.1) (standDebounce_frame K inp s)

@[simp] theorem standDebounce_changeMode (K : Board) (inp : Inputs) (s : Sys) :
    (standDebounce K inp s).Iron.changeMode = s.Iron.changeMode :=
  congrArg (fun t => t.2.2.2.2.2.2.2.2.2.1) (standDebounce_frame K inp s)

@[simp] theorem standDebounce_LastModeChangeTime (K : Board) (inp : Inputs) (s : Sys) :
    (standDebounce K inp s).Iron.LastModeChangeTime = s.Iron.LastModeChangeTime :=
  congrArg (fun t => t.2.2.2.2.2.2.2.2.2.2.1) (standDebounce_frame K inp s)

@[simp] theorem standDebounce_updatePwm (K : Board) (inp : Inputs) (s : Sys) :
    (standDebounce K inp s).Iron.updatePwm = s.Iron.updatePwm :=
  congrArg (fun t => t.2.2.2.2.2.2.2.2.2.2.2.1) (standDebounce_frame K inp s)

@[simp] theorem standDebounce_Pwm_Limit (K : Board) (inp : Inputs) (s : Sys) :
    (standDebounce K inp s).Iron.Pwm_Limit = s.Iron.Pwm_Limit :=
  congrArg (fun t => t.2.2.2.2.2.2.2.2.2.2.2.2.1) (standDebounce_frame K inp s)

@[simp] theorem standDebounce_Pwm_Out (K : Board) (inp : Inputs) (s : Sys) :
    (standDebounce K inp s).Iron.Pwm_Out = s.Iron.Pwm_Out :=
  congrArg (fun t => t.2.2.2.2.2.2.2.2.2.2.2.2.2.1) (standDebounce_frame K inp s)

@[simp] theorem standDebounce_DebugMode (K : Board) (inp : Inputs) (s : Sys) :
    (standDebounce K inp s).Iron.DebugMode = s.Iron.DebugMode :=
  congrArg (fun t => t.2.2.2.2.2.2.2.2.2.2.2.2.2.2.1) (standDebounce_frame K inp s)

@[simp] theorem standDebounce_LastNoPresentTime (K : Board) (inp : Inputs) (s : Sys) :
    (standDebounce K inp s).Iron.LastNoPresentTime = s.Iron.LastNoPresentTime :=
  congrArg (fun t => t.2.2.2.2.2.2.2.2.2.2.2.2.2.2.2.1) (standDebounce_frame K inp s)

@[simp] theorem standDebounce_systemSettings (K : Board) (inp : Inputs) (s : Sys) :
    (standDebounce K inp s).systemSettings = s.systemSettings :=
  congrArg (fun t => t.2.2.2.2.2.2.2.2.2.2.2.2.2.2.2.2.1) (standDebounce_frame K inp s)

@[simp] theorem standDebounce_PID_time (K : Board) (inp : Inputs) (s : Sys) :
    (standDebounce K inp s).PID_time = s.PID_time :=
  congrArg (fun t => t.2.2.2.2.2.2.2.2.2.2.2.2.2.2.2.2.2) (standDebounce_frame K inp s)

/-- Fields that the inactivity timer does not write. -/
theorem sleepTimer_frame (K : Board) (inp : Inputs) (s : Sys) :
    ((sleepTimer K inp s).Iron.presence, (sleepTimer K inp s).Iron.calibrating,
      (sleepTimer K inp s).Iron.FailState, (sleepTimer K inp s).Iron.LastSysChangeTime,
      (sleepTimer K inp s).Iron.CurrentIronPower, (sleepTimer K inp s).Iron.prevRunawayLevel,
      (sleepTimer K inp s).Iron.RunawayLevel, (sleepTimer K inp s).Iron.RunawayTimer,
      (sleepTimer K inp s).Iron.RunawayStatus, (sleepTimer K inp s).Iron.updateMode,
      (sleepTimer K inp s).Iron.changeMode, (sleepTimer K inp s).Iron.LastModeChangeTime,
      (sleepTimer K inp s).Iron.updatePwm, (sleepTimer K inp s).Iron.Pwm_Limit,
      (sleepTimer K inp s).Iron.Pwm_Out, (sleepTimer K inp s).Iron.DebugMode,
      (sleepTimer K inp s).Iron.LastNoPresentTime, (sleepTimer K inp s).systemSettings,
      (sleepTimer K inp s).PID_time)
    = (s.Iron.presence, s.Iron.calibrating, s.Iron.FailState, s.Iron.LastSysChangeTime,
      s.Iron.CurrentIronPower, s.Iron.prevRunawayLevel, s.Iron.RunawayLevel, s.Iron.RunawayTimer,
      s.Iron.RunawayStatus, s.Iron.updateMode, s.Iron.changeMode, s.Iron.LastModeChangeTime,
      s.Iron.updatePwm, s.Iron.Pwm_Limit, s.Iron.Pwm_Out, s.Iron.DebugMode,
      s.Iron.LastNoPresentTime, s.systemSettings, s.PID_time) := by
  unfold sleepTimer emit
  split_ifs <;> simp

@[simp] theorem sleepTimer_presence (K : Board) (inp : Inputs) (s : Sys) :
    (sleepTimer K inp s).Iron.presence = s.Iron.presence :=
  congrArg (fun t => t.1) (sleepTimer_frame K inp s)

@[simp] theorem sleepTimer_calibrating (K : Board) (inp : Inputs) (s : Sys) :
    (sleepTimer K inp s).Iron.calibrating = s.Iron.calibrating :=
  congrArg (fun t => t.2.1) (sleepTimer_frame K inp s)

@[simp] theorem sleepTimer_FailState (K : Board) (inp : Inputs) (s : Sys) :
    (sleepTimer K inp s).Iron.FailState = s.Iron.FailState :=
  congrArg (fun t => t.2.2.1) (sleepTimer_frame K inp s)

@[simp] theorem sleepTimer_LastSysChangeTime (K : Board) (inp : Inputs) (s : Sys) :
    (sleepTimer K inp s).Iron.LastSysChangeTime = s.Iron.LastSysChangeTime :=
  congrArg (fun t => t.2.2.2.1) (sleepTimer_frame K inp s)

@[simp] theorem sleepTimer_CurrentIronPower (K : Board) (inp : Inputs) (s : Sys) :
    (sleepTimer K inp s).Iron.CurrentIronPower = s.Iron.CurrentIronPower :=
  congrArg (fun t => t.2.2.2.2.1) (sleepTimer_frame K inp s)

@[simp] theorem sleepTimer_prevRunawayLevel (K : Board) (inp : Inputs) (s : Sys) :
    (sleepTimer K inp s).Iron.prevRunawayLevel = s.Iron.prevRunawayLevel :=
  congrArg (fun t => t.2.2.2.2.2.1) (sleepTimer_frame K inp s)

@[simp] theorem sleepTimer_RunawayLevel (K : Board) (inp : Inputs) (s : Sys) :
    (sleepTimer K inp s).Iron.RunawayLevel = s.Iron.RunawayLevel :=
  congrArg (fun t => t.2.2.2.2.2.2.1) (sleepTimer_frame K inp s)

@[simp] theorem sleepTimer_RunawayTimer (K : Board) (inp : Inputs) (s : Sys) :
    (sleepTimer K inp s).Iron.RunawayTimer = s.Iron.RunawayTimer :=
  congrArg (fun t => t.2.2.2.2.2.2.2.1) (sleepTimer_frame K inp s)

@[simp] theorem sleepTimer_RunawayStatus (K : Board) (inp : Inputs) (s : Sys) :
    (sleepTimer K inp s).Iron.RunawayStatus = s.Iron.RunawayStatus :=
  congrArg (fun t => t.2.2.2.2.2.2.2.2.1) (sleepTimer_frame K inp s)

@[simp] theorem sleepTimer_updateMode (K : Board) (inp : Inputs) (s : Sys) :
    (sleepTimer K inp s).Iron.updateMode = s.Iron.updateMode :=
  congrArg (fun t => t.2.2.2.2.2.2.2.2.2.1) (sleepTimer_frame K inp s)

@[simp] theorem sleepTimer_changeMode (K : Board) (inp : Inputs) (s : Sys) :
    (sleepTimer K inp s).Iron.changeMode = s.Iron.changeMode :=
  congrArg (fun t => t.2.2.2.2.2.2.2.2.2.2.1) (sleepTimer_frame K inp s)

@[simp] theorem sleepTimer_LastModeChangeTime (K : Board) (inp : Inputs) (s : Sys) :
    (sleepTimer K inp s).Iron.LastModeChangeTime = s.Iron.LastModeChangeTime :=
  congrArg (fun t => t.2.2.2.2.2.2.2.2.2.2.2.1) (sleepTimer_frame K inp s)

@[simp] theorem sleepTimer_updatePwm (K : Board) (inp : Inputs) (s : Sys) :
    (sleepTimer K inp s).Iron.updatePwm = s.Iron.updatePwm :=
  congrArg (fun t => t.2.2.2.2.2.2.2.2.2.2.2.2.1) (sleepTimer_frame K inp s)

@[simp] theorem sleepTimer_Pwm_Limit (K : Board) (inp : Inputs) (s : Sys) :
    (sleepTimer K inp s).Iron.Pwm_Limit = s.Iron.Pwm_Limit :=
  congrArg (fun t => t.2.2.2.2.2.2.2.2.2.2.2.2.2.1) (sleepTimer_frame K inp s)

@[simp] theorem sleepTimer_Pwm_Out (K : Board) (inp : Inputs) (s : Sys) :
    (sleepTimer K inp s).Iron.Pwm_Out = s.Iron.Pwm_Out :=
  congrArg (fun t => t.2.2.2.2.2.2.2.2.2.2.2.2.2.2.1) (sleepTimer_frame K inp s)

@[simp] theorem sleepTimer_DebugMode (K : Board) (inp : Inputs) (s : Sys) :
    (sleepTimer K inp s).Iron.DebugMode = s.Iron.DebugMode :=
  congrArg (fun t => t.2.2.2.2.2.2.2.2.2.2.2.2.2.2.2.1) (sleepTimer_frame K inp s)

@[simp] theorem sleepTimer_LastNoPresentTime (K : Board) (inp : Inputs) (s : Sys) :
    (sleepTimer K inp s).Iron.LastNoPresentTime = s.Iron.LastNoPresentTime :=
  congrArg (fun t => t.2.2.2.2.2.2.2.2.2.2.2.2.2.2.2.2.1) (sleepTimer_frame K inp s)

@[simp] theorem sleepTimer_systemSettings (K : Board) (inp : Inputs) (s : Sys) :
    (sleepTimer K inp s).systemSettings = s.systemSettings :=
  congrArg (fun t => t.2.2.2.2.2.2.2.2.2.2.2.2.2.2.2.2.2.1) (sleepTimer_frame K inp s)

@[simp] theorem sleepTimer_PID_time (K : Board) (inp : Inputs) (s : Sys) :
    (sleepTimer K inp s).PID_time = s.PID_time :=
  congrArg (fun t => t.2.2.2.2.2.2.2.2.2.2.2.2.2.2.2.2.2.2) (sleepTimer_frame K inp s)

/-- Fields that lines 136-144 do not write. -/
theorem applyPwm_frame (K : Board) (inp : Inputs) (s : Sys) :
    ((applyPwm K inp s).Iron.presence, (applyPwm K inp s).Iron.CurrentMode,
      (applyPwm K inp s).Iron.CurrentModeTimer, (applyPwm K inp s).Iron.CurrentSetTemperature,
      (applyPwm K inp s).Iron.Cal_TemperatureReachedFlag, (applyPwm K inp s).Iron.calibrating,
      (applyPwm K inp s).Iron.FailState, (applyPwm K inp s).Iron.LastSysChangeTime,
      (applyPwm K inp s).Iron.CurrentIronPower, (applyPwm K inp s).Iron.prevRunawayLevel,
      (applyPwm K inp s).Iron.RunawayLevel, (applyPwm K inp s).Iron.RunawayTimer,
      (applyPwm K inp s).Iron.RunawayStatus, (applyPwm K inp s).Iron.updateMode,
      (applyPwm K inp s).Iron.changeMode, (applyPwm K inp s).Iron.LastModeChangeTime,
      (applyPwm K inp s).Iron.Pwm_Out, (applyPwm K inp s).Iron.DebugMode,
      (applyPwm K inp s).Iron.LastNoPresentTime, (applyPwm K inp s).systemSettings)
    = (s.Iron.presence, s.Iron.CurrentMode, s.Iron.CurrentModeTimer, s.Iron.CurrentSetTemperature,
      s.Iron.Cal_TemperatureReachedFlag, s.Iron.calibrating, s.Iron.FailState,
      s.Iron.LastSysChangeTime, s.Iron.CurrentIronPower, s.Iron.prevRunawayLevel,
      s.Iron.RunawayLevel, s.Iron.RunawayTimer, s.Iron.RunawayStatus, s.Iron.updateMode,
      s.Iron.changeMode, s.Iron.LastModeChangeTime, s.Iron.Pwm_Out, s.Iron.DebugMode,
      s.Iron.LastNoPresentTime, s.systemSettings) := by
  unfold applyPwm
  simp only []
  split_ifs <;> simp

@[simp] theorem applyPwm_presence (K : Board) (inp : Inputs) (s : Sys) :
    (applyPwm K inp s).Iron.presence = s.Iron.presence :=
  congrArg (fun t => t.1) (applyPwm_frame K inp s)

@[simp] theorem applyPwm_CurrentMode (K : Board) (inp : Inputs) (s : Sys) :
    (applyPwm K inp s).Iron.CurrentMode = s.Iron.CurrentMode :=
  congrArg (fun t => t.2.1) (applyPwm_frame K inp s)

@[simp] theorem applyPwm_CurrentModeTimer (K : Board) (inp : Inputs) (s : Sys) :
    (applyPwm K inp s).Iron.CurrentModeTimer = s.Iron.CurrentModeTimer :=
  congrArg (fun t => t.2.2.1) (applyPwm_frame K inp s)

@[simp] theorem applyPwm_CurrentSetTemperature (K : Board) (inp : Inputs) (s : Sys) :
    (applyPwm K inp s).Iron.CurrentSetTemperature = s.Iron.CurrentSetTemperature :=
  congrArg (fun t => t.2.2.2.1) (applyPwm_frame K inp s)

@[simp] theorem applyPwm_Cal_TemperatureReachedFlag (K : Board) (inp : Inputs) (s : Sys) :
    (applyPwm K inp s).Iron.Cal_TemperatureReachedFlag = s.Iron.Cal_TemperatureReachedFlag :=
  congrArg (fun t => t.2.2.2.2.1) (applyPwm_frame K inp s)

@[simp] theorem applyPwm_calibrating (K : Board) (inp : Inputs) (s : Sys) :
    (applyPwm K inp s).Iron.calibrating = s.Iron.calibrating :=
  congrArg (fun t => t.2.2.2.2.2.1) (applyPwm_frame K inp s)

@[simp] theorem applyPwm_FailState (K : Board) (inp : Inputs) (s : Sys) :
    (applyPwm K inp s).Iron.FailState = s.Iron.FailState :=
  congrArg (fun t => t.2.2.2.2.2.2.1) (applyPwm_frame K inp s)

@[simp] theorem applyPwm_LastSysChangeTime (K : Board) (inp : Inputs) (s : Sys) :
    (applyPwm K inp s).Iron.LastSysChangeTime = s.Iron.LastSysChangeTime :=
  congrArg (fun t => t.2.2.2.2.2.2.2.1) (applyPwm_frame K inp s)

@[simp] theorem applyPwm_CurrentIronPower (K : Board) (inp : Inputs) (s : Sys) :
    (applyPwm K inp s).Iron.CurrentIronPower = s.Iron.CurrentIronPower :=
  congrArg (fun t => t.2.2.2.2.2.2.2.2.1) (applyPwm_frame K inp s)

@[simp] theorem applyPwm_prevRunawayLevel (K : Board) (inp : Inputs) (s : Sys) :
    (applyPwm K inp s).Iron.prevRunawayLevel = s.Iron.prevRunawayLevel :=
  congrArg (fun t => t.2.2.2.2.2.2.2.2.2.1) (applyPwm_frame K inp s)

@[simp] theorem applyPwm_RunawayLevel (K : Board) (inp : Inputs) (s : Sys) :
    (applyPwm K inp s).Iron.RunawayLevel = s.Iron.RunawayLevel :=
  congrArg (fun t => t.2.2.2.2.2.2.2.2.2.2.1) (applyPwm_frame K inp s)

@[simp] theorem applyPwm_RunawayTimer (K : Board) (inp : Inputs) (s : Sys) :
    (applyPwm K inp s).Iron.RunawayTimer = s.Iron.RunawayTimer :=
  congrArg (fun t => t.2.2.2.2.2.2.2.2.2.2.2.1) (applyPwm_frame K inp s)

@[simp] theorem applyPwm_RunawayStatus (K : Board) (inp : Inputs) (s : Sys) :
    (applyPwm K inp s).Iron.RunawayStatus = s.Iron.RunawayStatus :=
  congrArg (fun t => t.2.2.2.2.2.2.2.2.2.2.2.2.1) (applyPwm_frame K inp s)

@[simp] theorem applyPwm_updateMode (K : Board) (inp : Inputs) (s : Sys) :
    (applyPwm K inp s).Iron.updateMode = s.Iron.updateMode :=
  congrArg (fun t => t.2.2.2.2.2.2.2.2.2.2.2.2.2.1) (applyPwm_frame K inp s)

@[simp] theorem applyPwm_changeMode (K : Board) (inp : Inputs) (s : Sys) :
    (applyPwm K inp s).Iron.changeMode = s.Iron.changeMode :=
  congrArg (fun t => t.2.2.2.2.2.2.2.2.2.2.2.2.2.2.1) (applyPwm_frame K inp s)

@[simp] theorem applyPwm_LastModeChangeTime (K : Board) (inp : Inputs) (s : Sys) :
    (applyPwm K inp s).Iron.LastModeChangeTime = s.Iron.LastModeChangeTime :=
  congrArg (fun t => t.2.2.2.2.2.2.2.2.2.2.2.2.2.2.2.1) (applyPwm_frame K inp s)

@[simp] theorem applyPwm_Pwm_Out (K : Board) (inp : Inputs) (s : Sys) :
    (applyPwm K inp s).Iron.Pwm_Out = s.Iron.Pwm_Out :=
  congrArg (fun t => t.2.2.2.2.2.2.2.2.2.2.2.2.2.2.2.2.1) (applyPwm_frame K inp s)

@[simp] theorem applyPwm_DebugMode (K : Board) (inp : Inputs) (s : Sys) :
    (applyPwm K inp s).Iron.DebugMode = s.Iron.DebugMode :=
  congrArg (fun t => t.2.2.2.2.2.2.2.2.2.2.2.2.2.2.2.2.2.1) (applyPwm_frame K inp s)

@[simp] theorem applyPwm_LastNoPresentTime (K : Board) (inp : Inputs) (s : Sys) :
    (applyPwm K inp s).Iron.LastNoPresentTime = s.Iron.LastNoPresentTime :=
  congrArg (fun t => t.2.2.2.2.2.2.2.2.2.2.2.2.2.2.2.2.2.2.1) (applyPwm_frame K inp s)

@[simp] theorem applyPwm_systemSettings (K : Board) (inp : Inputs) (s : Sys) :
    (applyPwm K inp s).systemSettings = s.systemSettings :=
  congrArg (fun t => t.2.2.2.2.2.2.2.2.2.2.2.2.2.2.2.2.2.2.2) (applyPwm_frame K inp s)

/-- Fields that the setpoint-reached block does not write. -/
theorem reachedCheck_frame (inp : Inputs) (s : Sys) :
    ((reachedCheck inp s).Iron.presence, (reachedCheck inp s).Iron.CurrentMode,
      (reachedCheck inp s).Iron.CurrentModeTimer,
      (reachedCheck inp s).Iron.CurrentSetTemperature, (reachedCheck inp s).Iron.calibrating,
      (reachedCheck inp s).Iron.FailState, (reachedCheck inp s).Iron.LastSysChangeTime,
      (reachedCheck inp s).Iron.CurrentIronPower, (reachedCheck inp s).Iron.prevRunawayLevel,
      (reachedCheck inp s).Iron.RunawayLevel, (reachedCheck inp s).Iron.RunawayTimer,
      (reachedCheck inp s).Iron.RunawayStatus, (reachedCheck inp s).Iron.updateMode,
      (reachedCheck inp s).Iron.changeMode, (reachedCheck inp s).Iron.LastModeChangeTime,
      (reachedCheck inp s).Iron.updatePwm, (reachedCheck inp s).Iron.Pwm_Limit,
      (reachedCheck inp s).Iron.Pwm_Out, (reachedCheck inp s).Iron.DebugMode,
      (reachedCheck inp s).Iron.LastNoPresentTime, (reachedCheck inp s).systemSettings,
      (reachedCheck inp s).PID_time)
    = (s.Iron.presence, s.Iron.CurrentMode, s.Iron.CurrentModeTimer, s.Iron.CurrentSetTemperature,
      s.Iron.calibrating, s.Iron.FailState, s.Iron.LastSysChangeTime, s.Iron.CurrentIronPower,
      s.Iron.prevRunawayLevel, s.Iron.RunawayLevel, s.Iron.RunawayTimer, s.Iron.RunawayStatus,
      s.Iron.updateMode, s.Iron.changeMode, s.Iron.LastModeChangeTime, s.Iron.updatePwm,
      s.Iron.Pwm_Limit, s.Iron.Pwm_Out, s.Iron.DebugMode, s.Iron.LastNoPresentTime,
      s.systemSettings, s.PID_time) := by
  unfold reachedCheck temperatureReached
  simp only []
  split_ifs <;> simp

@[simp] theorem reachedCheck_presence (inp : Inputs) (s : Sys) :
    (reachedCheck inp s).Iron.presence = s.Iron.presence :=
  congrArg (fun t => t.1) (reachedCheck_frame inp s)

@[simp] theorem reachedCheck_CurrentMode (inp : Inputs) (s : Sys) :
    (reachedCheck inp s).Iron.CurrentMode = s.Iron.CurrentMode :=
  congrArg (fun t => t.2.1) (reachedCheck_frame inp s)

@[simp] theorem reachedCheck_CurrentModeTimer (inp : Inputs) (s : Sys) :
    (reachedCheck inp s).Iron.CurrentModeTimer = s.Iron.CurrentModeTimer :=
  congrArg (fun t => t.2.2.1) (reachedCheck_frame inp s)

@[simp] theorem reachedCheck_CurrentSetTemperature (inp : Inputs) (s : Sys) :
    (reachedCheck inp s).Iron.CurrentSetTemperature = s.Iron.CurrentSetTemperature :=
  congrArg (fun t => t.2.2.2.1) (reachedCheck_frame inp s)

@[simp] theorem reachedCheck_calibrating (inp : Inputs) (s : Sys) :
    (reachedCheck inp s).Iron.calibrating = s.Iron.calibrating :=
  congrArg (fun t => t.2.2.2.2.1) (reachedCheck_frame inp s)

@[simp] theorem reachedCheck_FailState (inp : Inputs) (s : Sys) :
    (reachedCheck inp s).Iron.FailState = s.Iron.FailState :=
  congrArg (fun t => t.2.2.2.2.2.1) (reachedCheck_frame inp s)

@[simp] theorem reachedCheck_LastSysChangeTime (inp : Inputs) (s : Sys) :
    (reachedCheck inp s).Iron.LastSysChangeTime = s.Iron.LastSysChangeTime :=
  congrArg (fun t => t.2.2.2.2.2.2.1) (reachedCheck_frame inp s)

@[simp] theorem reachedCheck_CurrentIronPower (inp : Inputs) (s : Sys) :
    (reachedCheck inp s).Iron.CurrentIronPower = s.Iron.CurrentIronPower :=
  congrArg (fun t => t.2.2.2.2.2.2.2.1) (reachedCheck_frame inp s)

@[simp] theorem reachedCheck_prevRunawayLevel (inp : Inputs) (s : Sys) :
    (reachedCheck inp s).Iron.prevRunawayLevel = s.Iron.prevRunawayLevel :=
  congrArg (fun t => t.2.2.2.2.2.2.2.2.1) (reachedCheck_frame inp s)

@[simp] theorem reachedCheck_RunawayLevel (inp : Inputs) (s : Sys) :
    (reachedCheck inp s).Iron.RunawayLevel = s.Iron.RunawayLevel :=
  congrArg (fun t => t.2.2.2.2.2.2.2.2.2.1) (reachedCheck_frame inp s)

@[simp] theorem reachedCheck_RunawayTimer (inp : Inputs) (s : Sys) :
    (reachedCheck inp s).Iron.RunawayTimer = s.Iron.RunawayTimer :=
  congrArg (fun t => t.2.2.2.2.2.2.2.2.2.2.1) (reachedCheck_frame inp s)

@[simp] theorem reachedCheck_RunawayStatus (inp : Inputs) (s : Sys) :
    (reachedCheck inp s).Iron.RunawayStatus = s.Iron.RunawayStatus :=
  congrArg (fun t => t.2.2.2.2.2.2.2.2.2.2.2.1) (reachedCheck_frame inp s)

@[simp] theorem reachedCheck_updateMode (inp : Inputs) (s : Sys) :
    (reachedCheck inp s).Iron.updateMode = s.Iron.updateMode :=
  congrArg (fun t => t.2.2.2.2.2.2.2.2.2.2.2.2.1) (reachedCheck_frame inp s)

@[simp] theorem reachedCheck_changeMode (inp : Inputs) (s : Sys) :
    (reachedCheck inp s).Iron.changeMode = s.Iron.changeMode :=
  congrArg (fun t => t.2.2.2.2.2.2.2.2.2.2.2.2.2.1) (reachedCheck_frame inp s)

@[simp] theorem reachedCheck_LastModeChangeTime (inp : Inputs) (s : Sys) :
    (reachedCheck inp s).Iron.LastModeChangeTime = s.Iron.LastModeChangeTime :=
  congrArg (fun t => t.2.2.2.2.2.2.2.2.2.2.2.2.2.2.1) (reachedCheck_frame inp s)

@[simp] theorem reachedCheck_updatePwm (inp : Inputs) (s : Sys) :
    (reachedCheck inp s).Iron.updatePwm = s.Iron.updatePwm :=
  congrArg (fun t => t.2.2.2.2.2.2.2.2.2.2.2.2.2.2.2.1) (reachedCheck_frame inp s)

@[simp] theorem reachedCheck_Pwm_Limit (inp : Inputs) (s : Sys) :
    (reachedCheck inp s).Iron.Pwm_Limit = s.Iron.Pwm_Limit :=
  congrArg (fun t => t.2.2.2.2.2.2.2.2.2.2.2.2.2.2.2.2.1) (reachedCheck_frame inp s)

@[simp] theorem reachedCheck_Pwm_Out (inp : Inputs) (s : Sys) :
    (reachedCheck inp s).Iron.Pwm_Out = s.Iron.Pwm_Out :=
  congrArg (fun t => t.2.2.2.2.2.2.2.2.2.2.2.2.2.2.2.2.2.1) (reachedCheck_frame inp s)

@[simp] theorem reachedCheck_DebugMode (inp : Inputs) (s : Sys) :
    (reachedCheck inp s).Iron.DebugMode = s.Iron.DebugMode :=
  congrArg (fun t => t.2.2.2.2.2.2.2.2.2.2.2.2.2.2.2.2.2.2.1) (reachedCheck_frame inp s)

@[simp] theorem reachedCheck_LastNoPresentTime (inp : Inputs) (s : Sys) :
    (reachedCheck inp s).Iron.LastNoPresentTime = s.Iron.LastNoPresentTime :=
  congrArg (fun t => t.2.2.2.2.2.2.2.2.2.2.2.2.2.2.2.2.2.2.2.1) (reachedCheck_frame inp s)

@[simp] theorem reachedCheck_systemSettings (inp : Inputs) (s : Sys) :
    (reachedCheck inp s).systemSettings = s.systemSettings :=
  congrArg (fun t => t.2.2.2.2.2.2.2.2.2.2.2.2.2.2.2.2.2.2.2.2.1) (reachedCheck_frame inp s)

@[simp] theorem reachedCheck_PID_time (inp : Inputs) (s : Sys) :
    (reachedCheck inp s).PID_time = s.PID_time :=
  congrArg (fun t => t.2.2.2.2.2.2.2.2.2.2.2.2.2.2.2.2.2.2.2.2.2) (reachedCheck_frame inp s)

/-- Fields that a timed case of the runaway switch does not write. -/
theorem runawayCase_frame (inp : Inputs) (l : Nat) (c : ErrorCode) (s : Sys) :
    (((runawayCase inp s l c).state).Iron.presence,
      ((runawayCase inp s l c).state).Iron.CurrentMode,
      ((runawayCase inp s l c).state).Iron.CurrentModeTimer,
      ((runawayCase inp s l c).state).Iron.CurrentSetTemperature,
      ((runawayCase inp s l c).state).Iron.Cal_TemperatureReachedFlag,
      ((runawayCase inp s l c).state).Iron.calibrating,
      ((runawayCase inp s l c).state).Iron.FailState,
      ((runawayCase inp s l c).state).Iron.LastSysChangeTime,
      ((runawayCase inp s l c).state).Iron.CurrentIronPower,
      ((runawayCase inp s l c).state).Iron.prevRunawayLevel,
      ((runawayCase inp s l c).state).Iron.RunawayLevel,
      ((runawayCase inp s l c).state).Iron.RunawayTimer,
      ((runawayCase inp s l c).state).Iron.updateMode,
      ((runawayCase inp s l c).state).Iron.changeMode,
      ((runawayCase inp s l c).state).Iron.LastModeChangeTime,
      ((runawayCase inp s l c).state).Iron.updatePwm,
      ((runawayCase inp s l c).state).Iron.Pwm_Limit,
      ((runawayCase inp s l c).state).Iron.Pwm_Out,
      ((runawayCase inp s l c).state).Iron.DebugMode,
      ((runawayCase inp s l c).state).Iron.LastNoPresentTime,
      ((runawayCase inp s l c).state).systemSettings, ((runawayCase inp s l c).state).PID_time)
    = (s.Iron.presence, s.Iron.CurrentMode, s.Iron.CurrentModeTimer, s.Iron.CurrentSetTemperature,
      s.Iron.Cal_TemperatureReachedFlag, s.Iron.calibrating, s.Iron.FailState,
      s.Iron.LastSysChangeTime, s.Iron.CurrentIronPower, s.Iron.prevRunawayLevel,
      s.Iron.RunawayLevel, s.Iron.RunawayTimer, s.Iron.updateMode, s.Iron.changeMode,
      s.Iron.LastModeChangeTime, s.Iron.updatePwm, s.Iron.Pwm_Limit, s.Iron.Pwm_Out,
      s.Iron.DebugMode, s.Iron.LastNoPresentTime, s.systemSettings, s.PID_time) := by
  unfold runawayCase
  split_ifs <;> rfl

@[simp] theorem runawayCase_presence (inp : Inputs) (l : Nat) (c : ErrorCode) (s : Sys) :
    ((runawayCase inp s l c).state).Iron.presence = s.Iron.presence :=
  congrArg (fun t => t.1) (runawayCase_frame inp l c s)

@[simp] theorem runawayCase_CurrentMode (inp : Inputs) (l : Nat) (c : ErrorCode) (s : Sys) :
    ((runawayCase inp s l c).state).Iron.CurrentMode = s.Iron.CurrentMode :=
  congrArg (fun t => t.2.1) (runawayCase_frame inp l c s)

@[simp] theorem runawayCase_CurrentModeTimer (inp : Inputs) (l : Nat) (c : ErrorCode) (s : Sys) :
    ((runawayCase inp s l c).state).Iron.CurrentModeTimer = s.Iron.CurrentModeTimer :=
  congrArg (fun t => t.2.2.1) (runawayCase_frame inp l c s)

@[simp] theorem runawayCase_CurrentSetTemperature (inp : Inputs) (l : Nat) (c : ErrorCode) (s : Sys) :
    ((runawayCase inp s l c).state).Iron.CurrentSetTemperature = s.Iron.CurrentSetTemperature :=
  congrArg (fun t => t.2.2.2.1) (runawayCase_frame inp l c s)

@[simp] theorem runawayCase_Cal_TemperatureReachedFlag (inp : Inputs) (l : Nat) (c : ErrorCode) (s : Sys) :
    ((runawayCase inp s l c).state).Iron.Cal_TemperatureReachedFlag = s.Iron.Cal_TemperatureReachedFlag :=
  congrArg (fun t => t.2.2.2.2.1) (runawayCase_frame inp l c s)

@[simp] theorem runawayCase_calibrating (inp : Inputs) (l : Nat) (c : ErrorCode) (s : Sys) :
    ((runawayCase inp s l c).state).Iron.calibrating = s.Iron.calibrating :=
  congrArg (fun t => t.2.2.2.2.2.1) (runawayCase_frame inp l c s)

@[simp] theorem runawayCase_FailState (inp : Inputs) (l : Nat) (c : ErrorCode) (s : Sys) :
    ((runawayCase inp s l c).state).Iron.FailState = s.Iron.FailState :=
  congrArg (fun t => t.2.2.2.2.2.2.1) (runawayCase_frame inp l c s)

@[simp] theorem runawayCase_LastSysChangeTime (inp : Inputs) (l : Nat) (c : ErrorCode) (s : Sys) :
    ((runawayCase inp s l c).state).Iron.LastSysChangeTime = s.Iron.LastSysChangeTime :=
  congrArg (fun t => t.2.2.2.2.2.2.2.1) (runawayCase_frame inp l c s)

@[simp] theorem runawayCase_CurrentIronPower (inp : Inputs) (l : Nat) (c : ErrorCode) (s : Sys) :
    ((runawayCase inp s l c).state).Iron.CurrentIronPower = s.Iron.CurrentIronPower :=
  congrArg (fun t => t.2.2.2.2.2.2.2.2.1) (runawayCase_frame inp l c s)

@[simp] theorem runawayCase_prevRunawayLevel (inp : Inputs) (l : Nat) (c : ErrorCode) (s : Sys) :
    ((runawayCase inp s l c).state).Iron.prevRunawayLevel = s.Iron.prevRunawayLevel :=
  congrArg (fun t => t.2.2.2.2.2.2.2.2.2.1) (runawayCase_frame inp l c s)

@[simp] theorem runawayCase_RunawayLevel (inp : Inputs) (l : Nat) (c : ErrorCode) (s : Sys) :
    ((runawayCase inp s l c).state).Iron.RunawayLevel = s.Iron.RunawayLevel :=
  congrArg (fun t => t.2.2.2.2.2.2.2.2.2.2.1) (runawayCase_frame inp l c s)

@[simp] theorem runawayCase_RunawayTimer (inp : Inputs) (l : Nat) (c : ErrorCode) (s : Sys) :
    ((runawayCase inp s l c).state).Iron.RunawayTimer = s.Iron.RunawayTimer :=
  congrArg (fun t => t.2.2.2.2.2.2.2.2.2.2.2.1) (runawayCase_frame inp l c s)

@[simp] theorem runawayCase_updateMode (inp : Inputs) (l : Nat) (c : ErrorCode) (s : Sys) :
    ((runawayCase inp s l c).state).Iron.updateMode = s.Iron.updateMode :=
  congrArg (fun t => t.2.2.2.2.2.2.2.2.2.2.2.2.1) (runawayCase_frame inp l c s)

@[simp] theorem runawayCase_changeMode (inp : Inputs) (l : Nat) (c : ErrorCode) (s : Sys) :
    ((runawayCase inp s l c).state).Iron.changeMode = s.Iron.changeMode :=
  congrArg (fun t => t.2.2.2.2.2.2.2.2.2.2.2.2.2.1) (runawayCase_frame inp l c s)

@[simp] theorem runawayCase_LastModeChangeTime (inp : Inputs) (l : Nat) (c : ErrorCode) (s : Sys) :
    ((runawayCase inp s l c).state).Iron.LastModeChangeTime = s.Iron.LastModeChangeTime :=
  congrArg (fun t => t.2.2.2.2.2.2.2.2.2.2.2.2.2.2.1) (runawayCase_frame inp l c s)

@[simp] theorem runawayCase_updatePwm (inp : Inputs) (l : Nat) (c : ErrorCode) (s : Sys) :
    ((runawayCase inp s l c).state).Iron.updatePwm = s.Iron.updatePwm :=
  congrArg (fun t => t.2.2.2.2.2.2.2.2.2.2.2.2.2.2.2.1) (runawayCase_frame inp l c s)

@[simp] theorem runawayCase_Pwm_Limit (inp : Inputs) (l : Nat) (c : ErrorCode) (s : Sys) :
    ((runawayCase inp s l c).state).Iron.Pwm_Limit = s.Iron.Pwm_Limit :=
  congrArg (fun t => t.2.2.2.2.2.2.2.2.2.2.2.2.2.2.2.2.1) (runawayCase_frame inp l c s)

@[simp] theorem runawayCase_Pwm_Out (inp : Inputs) (l : Nat) (c : ErrorCode) (s : Sys) :
    ((runawayCase inp s l c).state).Iron.Pwm_Out = s.Iron.Pwm_Out :=
  congrArg (fun t => t.2.2.2.2.2.2.2.2.2.2.2.2.2.2.2.2.2.1) (runawayCase_frame inp l c s)

@[simp] theorem runawayCase_DebugMode (inp : Inputs) (l : Nat) (c : ErrorCode) (s : Sys) :
    ((runawayCase inp s l c).state).Iron.DebugMode = s.Iron.DebugMode :=
  congrArg (fun t => t.2.2.2.2.2.2.2.2.2.2.2.2.2.2.2.2.2.2.1) (runawayCase_frame inp l c s)

@[simp] theorem runawayCase_LastNoPresentTime (inp : Inputs) (l : Nat) (c : ErrorCode) (s : Sys) :
    ((runawayCase inp s l c).state).Iron.LastNoPresentTime = s.Iron.LastNoPresentTime :=
  congrArg (fun t => t.2.2.2.2.2.2.2.2.2.2.2.2.2.2.2.2.2.2.2.1) (runawayCase_frame inp l c s)

@[simp] theorem runawayCase_systemSettings (inp : Inputs) (l : Nat) (c : ErrorCode) (s : Sys) :
    ((runawayCase inp s l c).state).systemSettings = s.systemSettings :=
  congrArg (fun t => t.2.2.2.2.2.2.2.2.2.2.2.2.2.2.2.2.2.2.2.2.1) (runawayCase_frame inp l c s)

@[simp] theorem runawayCase_PID_time (inp : Inputs) (l : Nat) (c : ErrorCode) (s : Sys) :
    ((runawayCase inp s l c).state).PID_time = s.PID_time :=
  congrArg (fun t => t.2.2.2.2.2.2.2.2.2.2.2.2.2.2.2.2.2.2.2.2.2) (runawayCase_frame inp l c s)

/-- Fields that the runaway switch does not write. -/
theorem runawaySwitch_frame (inp : Inputs) (s : Sys) :
    (((runawaySwitch inp s).state).Iron.presence, ((runawaySwitch inp s).state).Iron.CurrentMode,
      ((runawaySwitch inp s).state).Iron.CurrentModeTimer,
      ((runawaySwitch inp s).state).Iron.CurrentSetTemperature,
      ((runawaySwitch inp s).state).Iron.Cal_TemperatureReachedFlag,
      ((runawaySwitch inp s).state).Iron.calibrating,
      ((runawaySwitch inp s).state).Iron.FailState,
      ((runawaySwitch inp s).state).Iron.LastSysChangeTime,
      ((runawaySwitch inp s).state).Iron.CurrentIronPower,
      ((runawaySwitch inp s).state).Iron.prevRunawayLevel,
      ((runawaySwitch inp s).state).Iron.RunawayLevel,
      ((runawaySwitch inp s).state).Iron.RunawayTimer,
      ((runawaySwitch inp s).state).Iron.updateMode,
      ((runawaySwitch inp s).state).Iron.changeMode,
      ((runawaySwitch inp s).state).Iron.LastModeChangeTime,
      ((runawaySwitch inp s).state).Iron.updatePwm, ((runawaySwitch inp s).state).Iron.Pwm_Limit,
      ((runawaySwitch inp s).state).Iron.Pwm_Out, ((runawaySwitch inp s).state).Iron.DebugMode,
      ((runawaySwitch inp s).state).Iron.LastNoPresentTime,
      ((runawaySwitch inp s).state).systemSettings, ((runawaySwitch inp s).state).PID_time)
    = (s.Iron.presence, s.Iron.CurrentMode, s.Iron.CurrentModeTimer, s.Iron.CurrentSetTemperature,
      s.Iron.Cal_TemperatureReachedFlag, s.Iron.calibrating, s.Iron.FailState,
      s.Iron.LastSysChangeTime, s.Iron.CurrentIronPower, s.Iron.prevRunawayLevel,
      s.Iron.RunawayLevel, s.Iron.RunawayTimer, s.Iron.updateMode, s.Iron.changeMode,
      s.Iron.LastModeChangeTime, s.Iron.updatePwm, s.Iron.Pwm_Limit, s.Iron.Pwm_Out,
      s.Iron.DebugMode, s.Iron.LastNoPresentTime, s.systemSettings, s.PID_time) := by
  unfold runawaySwitch
  split_ifs <;> first | rfl | exact runawayCase_frame _ _ _ _

@[simp] theorem runawaySwitch_presence (inp : Inputs) (s : Sys) :
    ((runawaySwitch inp s).state).Iron.presence = s.Iron.presence :=
  congrArg (fun t => t.1) (runawaySwitch_frame inp s)

@[simp] theorem runawaySwitch_CurrentMode (inp : Inputs) (s : Sys) :
    ((runawaySwitch inp s).state).Iron.CurrentMode = s.Iron.CurrentMode :=
  congrArg (fun t => t.2.1) (runawaySwitch_frame inp s)

@[simp] theorem runawaySwitch_CurrentModeTimer (inp : Inputs) (s : Sys) :
    ((runawaySwitch inp s).state).Iron.CurrentModeTimer = s.Iron.CurrentModeTimer :=
  congrArg (fun t => t.2.2.1) (runawaySwitch_frame inp s)

@[simp] theorem runawaySwitch_CurrentSetTemperature (inp : Inputs) (s : Sys) :
    ((runawaySwitch inp s).state).Iron.CurrentSetTemperature = s.Iron.CurrentSetTemperature :=
  congrArg (fun t => t.2.2.2.1) (runawaySwitch_frame inp s)

@[simp] theorem runawaySwitch_Cal_TemperatureReachedFlag (inp : Inputs) (s : Sys) :
    ((runawaySwitch inp s).state).Iron.Cal_TemperatureReachedFlag = s.Iron.Cal_TemperatureReachedFlag :=
  congrArg (fun t => t.2.2.2.2.1) (runawaySwitch_frame inp s)

@[simp] theorem runawaySwitch_calibrating (inp : Inputs) (s : Sys) :
    ((runawaySwitch inp s).state).Iron.calibrating = s.Iron.calibrating :=
  congrArg (fun t => t.2.2.2.2.2.1) (runawaySwitch_frame inp s)

@[simp] theorem runawaySwitch_FailState (inp : Inputs) (s : Sys) :
    ((runawaySwitch inp s).state).Iron.FailState = s.Iron.FailState :=
  congrArg (fun t => t.2.2.2.2.2.2.1) (runawaySwitch_frame inp s)

@[simp] theorem runawaySwitch_LastSysChangeTime (inp : Inputs) (s : Sys) :
    ((runawaySwitch inp s).state).Iron.LastSysChangeTime = s.Iron.LastSysChangeTime :=
  congrArg (fun t => t.2.2.2.2.2.2.2.1) (runawaySwitch_frame inp s)

@[simp] theorem runawaySwitch_CurrentIronPower (inp : Inputs) (s : Sys) :
    ((runawaySwitch inp s).state).Iron.CurrentIronPower = s.Iron.CurrentIronPower :=
  congrArg (fun t => t.2.2.2.2.2.2.2.2.1) (runawaySwitch_frame inp s)

@[simp] theorem runawaySwitch_prevRunawayLevel (inp : Inputs) (s : Sys) :
    ((runawaySwitch inp s).state).Iron.prevRunawayLevel = s.Iron.prevRunawayLevel :=
  congrArg (fun t => t.2.2.2.2.2.2.2.2.2.1) (runawaySwitch_frame inp s)

@[simp] theorem runawaySwitch_RunawayLevel (inp : Inputs) (s : Sys) :
    ((runawaySwitch inp s).state).Iron.RunawayLevel = s.Iron.RunawayLevel :=
  congrArg (fun t => t.2.2.2.2.2.2.2.2.2.2.1) (runawaySwitch_frame inp s)

@[simp] theorem runawaySwitch_RunawayTimer (inp : Inputs) (s : Sys) :
    ((runawaySwitch inp s).state).Iron.RunawayTimer = s.Iron.RunawayTimer :=
  congrArg (fun t => t.2.2.2.2.2.2.2.2.2.2.2.1) (runawaySwitch_frame inp s)

@[simp] theorem runawaySwitch_updateMode (inp : Inputs) (s : Sys) :
    ((runawaySwitch inp s).state).Iron.updateMode = s.Iron.updateMode :=
  congrArg (fun t => t.2.2.2.2.2.2.2.2.2.2.2.2.1) (runawaySwitch_frame inp s)

@[simp] theorem runawaySwitch_changeMode (inp : Inputs) (s : Sys) :
    ((runawaySwitch inp s).state).Iron.changeMode = s.Iron.changeMode :=
  congrArg (fun t => t.2.2.2.2.2.2.2.2.2.2.2.2.2.1) (runawaySwitch_frame inp s)

@[simp] theorem runawaySwitch_LastModeChangeTime (inp : Inputs) (s : Sys) :
    ((runawaySwitch inp s).state).Iron.LastModeChangeTime = s.Iron.LastModeChangeTime :=
  congrArg (fun t => t.2.2.2.2.2.2.2.2.2.2.2.2.2.2.1) (runawaySwitch_frame inp s)

@[simp] theorem runawaySwitch_updatePwm (inp : Inputs) (s : Sys) :
    ((runawaySwitch inp s).state).Iron.updatePwm = s.Iron.updatePwm :=
  congrArg (fun t => t.2.2.2.2.2.2.2.2.2.2.2.2.2.2.2.1) (runawaySwitch_frame inp s)

@[simp] theorem runawaySwitch_Pwm_Limit (inp : Inputs) (s : Sys) :
    ((runawaySwitch inp s).state).Iron.Pwm_Limit = s.Iron.Pwm_Limit :=
  congrArg (fun t => t.2.2.2.2.2.2.2.2.2.2.2.2.2.2.2.2.1) (runawaySwitch_frame inp s)

@[simp] theorem runawaySwitch_Pwm_Out (inp : Inputs) (s : Sys) :
    ((runawaySwitch inp s).state).Iron.Pwm_Out = s.Iron.Pwm_Out :=
  congrArg (fun t => t.2.2.2.2.2.2.2.2.2.2.2.2.2.2.2.2.2.1) (runawaySwitch_frame inp s)

@[simp] theorem runawaySwitch_DebugMode (inp : Inputs) (s : Sys) :
    ((runawaySwitch inp s).state).Iron.DebugMode = s.Iron.DebugMode :=
  congrArg (fun t => t.2.2.2.2.2.2.2.2.2.2.2.2.2.2.2.2.2.2.1) (runawaySwitch_frame inp s)

@[simp] theorem runawaySwitch_LastNoPresentTime (inp : Inputs) (s : Sys) :
    ((runawaySwitch inp s).state).Iron.LastNoPresentTime = s.Iron.LastNoPresentTime :=
  congrArg (fun t => t.2.2.2.2.2.2.2.2.2.2.2.2.2.2.2.2.2.2.2.1) (runawaySwitch_frame inp s)

@[simp] theorem runawaySwitch_systemSettings (inp : Inputs) (s : Sys) :
    ((runawaySwitch inp s).state).systemSettings = s.systemSettings :=
  congrArg (fun t => t.2.2.2.2.2.2.2.2.2.2.2.2.2.2.2.2.2.2.2.2.1) (runawaySwitch_frame inp s)

@[simp] theorem runawaySwitch_PID_time (inp : Inputs) (s : Sys) :
    ((runawaySwitch inp s).state).PID_time = s.PID_time :=
  congrArg (fun t => t.2.2.2.2.2.2.2.2.2.2.2.2.2.2.2.2.2.2.2.2.2) (runawaySwitch_frame inp s)

/-- Fields that the runaway supervisor does not write. -/
theorem runawayCheck_frame (inp : Inputs) (s : Sys) :
    (((runawayCheck inp s).state).Iron.presence, ((runawayCheck inp s).state).Iron.CurrentMode,
      ((runawayCheck inp s).state).Iron.CurrentModeTimer,
      ((runawayCheck inp s).state).Iron.CurrentSetTemperature,
      ((runawayCheck inp s).state).Iron.Cal_TemperatureReachedFlag,
      ((runawayCheck inp s).state).Iron.calibrating, ((runawayCheck inp s).state).Iron.FailState,
      ((runawayCheck inp s).state).Iron.LastSysChangeTime,
      ((runawayCheck inp s).state).Iron.CurrentIronPower,
      ((runawayCheck inp s).state).Iron.updateMode, ((runawayCheck inp s).state).Iron.changeMode,
      ((runawayCheck inp s).state).Iron.LastModeChangeTime,
      ((runawayCheck inp s).state).Iron.updatePwm, ((runawayCheck inp s).state).Iron.Pwm_Limit,
      ((runawayCheck inp s).state).Iron.Pwm_Out, ((runawayCheck inp s).state).Iron.DebugMode,
      ((runawayCheck inp s).state).Iron.LastNoPresentTime,
      ((runawayCheck inp s).state).systemSettings, ((runawayCheck inp s).state).PID_time)
    = (s.Iron.presence, s.Iron.CurrentMode, s.Iron.CurrentModeTimer, s.Iron.CurrentSetTemperature,
      s.Iron.Cal_TemperatureReachedFlag, s.Iron.calibrating, s.Iron.FailState,
      s.Iron.LastSysChangeTime, s.Iron.CurrentIronPower, s.Iron.updateMode, s.Iron.changeMode,
      s.Iron.LastModeChangeTime, s.Iron.updatePwm, s.Iron.Pwm_Limit, s.Iron.Pwm_Out,
      s.Iron.DebugMode, s.Iron.LastNoPresentTime, s.systemSettings, s.PID_time) := by
  unfold runawayCheck
  simp only []
  split
  · split
    · split
      · rfl
      · simp
    · rfl
  · rfl

@[simp] theorem runawayCheck_presence (inp : Inputs) (s : Sys) :
    ((runawayCheck inp s).state).Iron.presence = s.Iron.presence :=
  congrArg (fun t => t.1) (runawayCheck_frame inp s)

@[simp] theorem runawayCheck_CurrentMode (inp : Inputs) (s : Sys) :
    ((runawayCheck inp s).state).Iron.CurrentMode = s.Iron.CurrentMode :=
  congrArg (fun t => t.2.1) (runawayCheck_frame inp s)

@[simp] theorem runawayCheck_CurrentModeTimer (inp : Inputs) (s : Sys) :
    ((runawayCheck inp s).state).Iron.CurrentModeTimer = s.Iron.CurrentModeTimer :=
  congrArg (fun t => t.2.2.1) (runawayCheck_frame inp s)

@[simp] theorem runawayCheck_CurrentSetTemperature (inp : Inputs) (s : Sys) :
    ((runawayCheck inp s).state).Iron.CurrentSetTemperature = s.Iron.CurrentSetTemperature :=
  congrArg (fun t => t.2.2.2.1) (runawayCheck_frame inp s)

@[simp] theorem runawayCheck_Cal_TemperatureReachedFlag (inp : Inputs) (s : Sys) :
    ((runawayCheck inp s).state).Iron.Cal_TemperatureReachedFlag = s.Iron.Cal_TemperatureReachedFlag :=
  congrArg (fun t => t.2.2.2.2.1) (runawayCheck_frame inp s)

@[simp] theorem runawayCheck_calibrating (inp : Inputs) (s : Sys) :
    ((runawayCheck inp s).state).Iron.calibrating = s.Iron.calibrating :=
  congrArg (fun t => t.2.2.2.2.2.1) (runawayCheck_frame inp s)

@[simp] theorem runawayCheck_FailState (inp : Inputs) (s : Sys) :
    ((runawayCheck inp s).state).Iron.FailState = s.Iron.FailState :=
  congrArg (fun t => t.2.2.2.2.2.2.1) (runawayCheck_frame inp s)

@[simp] theorem runawayCheck_LastSysChangeTime (inp : Inputs) (s : Sys) :
    ((runawayCheck inp s).state).Iron.LastSysChangeTime = s.Iron.LastSysChangeTime :=
  congrArg (fun t => t.2.2.2.2.2.2.2.1) (runawayCheck_frame inp s)

@[simp] theorem runawayCheck_CurrentIronPower (inp : Inputs) (s : Sys) :
    ((runawayCheck inp s).state).Iron.CurrentIronPower = s.Iron.CurrentIronPower :=
  congrArg (fun t => t.2.2.2.2.2.2.2.2.1) (runawayCheck_frame inp s)

@[simp] theorem runawayCheck_updateMode (inp : Inputs) (s : Sys) :
    ((runawayCheck inp s).state).Iron.updateMode = s.Iron.updateMode :=
  congrArg (fun t => t.2.2.2.2.2.2.2.2.2.1) (runawayCheck_frame inp s)

@[simp] theorem runawayCheck_changeMode (inp : Inputs) (s : Sys) :
    ((runawayCheck inp s).state).Iron.changeMode = s.Iron.changeMode :=
  congrArg (fun t => t.2.2.2.2.2.2.2.2.2.2.1) (runawayCheck_frame inp s)

@[simp] theorem runawayCheck_LastModeChangeTime (inp : Inputs) (s : Sys) :
    ((runawayCheck inp s).state).Iron.LastModeChangeTime = s.Iron.LastModeChangeTime :=
  congrArg (fun t => t.2.2.2.2.2.2.2.2.2.2.2.1) (runawayCheck_frame inp s)

@[simp] theorem runawayCheck_updatePwm (inp : Inputs) (s : Sys) :
    ((runawayCheck inp s).state).Iron.updatePwm = s.Iron.updatePwm :=
  congrArg (fun t => t.2.2.2.2.2.2.2.2.2.2.2.2.1) (runawayCheck_frame inp s)

@[simp] theorem runawayCheck_Pwm_Limit (inp : Inputs) (s : Sys) :
    ((runawayCheck inp s).state).Iron.Pwm_Limit = s.Iron.Pwm_Limit :=
  congrArg (fun t => t.2.2.2.2.2.2.2.2.2.2.2.2.2.1) (runawayCheck_frame inp s)

@[simp] theorem runawayCheck_Pwm_Out (inp : Inputs) (s : Sys) :
    ((runawayCheck inp s).state).Iron.Pwm_Out = s.Iron.Pwm_Out :=
  congrArg (fun t => t.2.2.2.2.2.2.2.2.2.2.2.2.2.2.1) (runawayCheck_frame inp s)

@[simp] theorem runawayCheck_DebugMode (inp : Inputs) (s : Sys) :
    ((runawayCheck inp s).state).Iron.DebugMode = s.Iron.DebugMode :=
  congrArg (fun t => t.2.2.2.2.2.2.2.2.2.2.2.2.2.2.2.1) (runawayCheck_frame inp s)

@[simp] theorem runawayCheck_LastNoPresentTime (inp : Inputs) (s : Sys) :
    ((runawayCheck inp s).state).Iron.LastNoPresentTime = s.Iron.LastNoPresentTime :=
  congrArg (fun t => t.2.2.2.2.2.2.2.2.2.2.2.2.2.2.2.2.1) (runawayCheck_frame inp s)

@[simp] theorem runawayCheck_systemSettings (inp : Inputs) (s : Sys) :
    ((runawayCheck inp s).state).systemSettings = s.systemSettings :=
  congrArg (fun t => t.2.2.2.2.2.2.2.2.2.2.2.2.2.2.2.2.2.1) (runawayCheck_frame inp s)

@[simp] theorem runawayCheck_PID_time (inp : Inputs) (s : Sys) :
    ((runawayCheck inp s).state).PID_time = s.PID_time :=
  congrArg (fun t => t.2.2.2.2.2.2.2.2.2.2.2.2.2.2.2.2.2.2) (runawayCheck_frame inp s)

/-- Fields that lines 166-191 do not write. -/
theorem pwmDuty_frame (inp : Inputs) (s d : Sys) (h : pwmDuty inp s = some d) :
    (d.Iron.presence,
      d.Iron.CurrentMode,
      d.Iron.CurrentModeTimer,
      d.Iron.CurrentSetTemperature,
      d.Iron.Cal_TemperatureReachedFlag,
      d.Iron.calibrating,
      d.Iron.FailState,
      d.Iron.LastSysChangeTime,
      d.Iron.prevRunawayLevel,
      d.Iron.RunawayLevel,
      d.Iron.RunawayTimer,
      d.Iron.RunawayStatus,
      d.Iron.updateMode,
      d.Iron.changeMode,
      d.Iron.LastModeChangeTime,
      d.Iron.updatePwm,
      d.Iron.Pwm_Limit,
      d.Iron.DebugMode,
      d.Iron.LastNoPresentTime,
      d.systemSettings,
      d.PID_time)
    = (s.Iron.presence,
      s.Iron.CurrentMode,
      s.Iron.CurrentModeTimer,
      s.Iron.CurrentSetTemperature,
      s.Iron.Cal_TemperatureReachedFlag,
      s.Iron.calibrating,
      s.Iron.FailState,
      s.Iron.LastSysChangeTime,
      s.Iron.prevRunawayLevel,
      s.Iron.RunawayLevel,
      s.Iron.RunawayTimer,
      s.Iron.RunawayStatus,
      s.Iron.updateMode,
      s.Iron.changeMode,
      s.Iron.LastModeChangeTime,
      s.Iron.updatePwm,
      s.Iron.Pwm_Limit,
      s.Iron.DebugMode,
      s.Iron.LastNoPresentTime,
      s.systemSettings,
      s.PID_time) := by
  unfold pwmDuty at h
  simp only [] at h
  split at h
  · split at h
    · exact absurd h (by simp)
    · cases h; rfl
  · cases h; rfl

theorem pwmDuty_presence (inp : Inputs) (s d : Sys) (h : pwmDuty inp s = some d) :
    d.Iron.presence = s.Iron.presence :=
  congrArg (fun t => t.1) (pwmDuty_frame inp s d h)

theorem pwmDuty_CurrentMode (inp : Inputs) (s d : Sys) (h : pwmDuty inp s = some d) :
    d.Iron.CurrentMode = s.Iron.CurrentMode :=
  congrArg (fun t => t.2.1) (pwmDuty_frame inp s d h)

theorem pwmDuty_CurrentModeTimer (inp : Inputs) (s d : Sys) (h : pwmDuty inp s = some d) :
    d.Iron.CurrentModeTimer = s.Iron.CurrentModeTimer :=
  congrArg (fun t => t.2.2.1) (pwmDuty_frame inp s d h)

theorem pwmDuty_CurrentSetTemperature (inp : Inputs) (s d : Sys) (h : pwmDuty inp s = some d) :
    d.Iron.CurrentSetTemperature = s.Iron.CurrentSetTemperature :=
  congrArg (fun t => t.2.2.2.1) (pwmDuty_frame inp s d h)

theorem pwmDuty_Cal_TemperatureReachedFlag (inp : Inputs) (s d : Sys) (h : pwmDuty inp s = some d) :
    d.Iron.Cal_TemperatureReachedFlag = s.Iron.Cal_TemperatureReachedFlag :=
  congrArg (fun t => t.2.2.2.2.1) (pwmDuty_frame inp s d h)

theorem pwmDuty_calibrating (inp : Inputs) (s d : Sys) (h : pwmDuty inp s = some d) :
    d.Iron.calibrating = s.Iron.calibrating :=
  congrArg (fun t => t.2.2.2.2.2.1) (pwmDuty_frame inp s d h)

theorem pwmDuty_FailState (inp : Inputs) (s d : Sys) (h : pwmDuty inp s = some d) :
    d.Iron.FailState = s.Iron.FailState :=
  congrArg (fun t => t.2.2.2.2.2.2.1) (pwmDuty_frame inp s d h)

theorem pwmDuty_LastSysChangeTime (inp : Inputs) (s d : Sys) (h : pwmDuty inp s = some d) :
    d.Iron.LastSysChangeTime = s.Iron.LastSysChangeTime :=
  congrArg (fun t => t.2.2.2.2.2.2.2.1) (pwmDuty_frame inp s d h)

theorem pwmDuty_prevRunawayLevel (inp : Inputs) (s d : Sys) (h : pwmDuty inp s = some d) :
    d.Iron.prevRunawayLevel = s.Iron.prevRunawayLevel :=
  congrArg (fun t => t.2.2.2.2.2.2.2.2.1) (pwmDuty_frame inp s d h)

theorem pwmDuty_RunawayLevel (inp : Inputs) (s d : Sys) (h : pwmDuty inp s = some d) :
    d.Iron.RunawayLevel = s.Iron.RunawayLevel :=
  congrArg (fun t => t.2.2.2.2.2.2.2.2.2.1) (pwmDuty_frame inp s d h)

theorem pwmDuty_RunawayTimer (inp : Inputs) (s d : Sys) (h : pwmDuty inp s = some d) :
    d.Iron.RunawayTimer = s.Iron.RunawayTimer :=
  congrArg (fun t => t.2.2.2.2.2.2.2.2.2.2.1) (pwmDuty_frame inp s d h)

theorem pwmDuty_RunawayStatus (inp : Inputs) (s d : Sys) (h : pwmDuty inp s = some d) :
    d.Iron.RunawayStatus = s.Iron.RunawayStatus :=
  congrArg (fun t => t.2.2.2.2.2.2.2.2.2.2.2.1) (pwmDuty_frame inp s d h)

theorem pwmDuty_updateMode (inp : Inputs) (s d : Sys) (h : pwmDuty inp s = some d) :
    d.Iron.updateMode = s.Iron.updateMode :=
  congrArg (fun t => t.2.2.2.2.2.2.2.2.2.2.2.2.1) (pwmDuty_frame inp s d h)

theorem pwmDuty_changeMode (inp : Inputs) (s d : Sys) (h : pwmDuty inp s = some d) :
    d.Iron.changeMode = s.Iron.changeMode :=
  congrArg (fun t => t.2.2.2.2.2.2.2.2.2.2.2.2.2.1) (pwmDuty_frame inp s d h)

theorem pwmDuty_LastModeChangeTime (inp : Inputs) (s d : Sys) (h : pwmDuty inp s = some d) :
    d.Iron.LastModeChangeTime = s.Iron.LastModeChangeTime :=
  congrArg (fun t => t.2.2.2.2.2.2.2.2.2.2.2.2.2.2.1) (pwmDuty_frame inp s d h)

theorem pwmDuty_updatePwm (inp : Inputs) (s d : Sys) (h : pwmDuty inp s = some d) :
    d.Iron.updatePwm = s.Iron.updatePwm :=
  congrArg (fun t => t.2.2.2.2.2.2.2.2.2.2.2.2.2.2.2.1) (pwmDuty_frame inp s d h)

theorem pwmDuty_Pwm_Limit (inp : Inputs) (s d : Sys) (h : pwmDuty inp s = some d) :
    d.Iron.Pwm_Limit = s.Iron.Pwm_Limit :=
  congrArg (fun t => t.2.2.2.2.2.2.2.2.2.2.2.2.2.2.2.2.1) (pwmDuty_frame inp s d h)

theorem pwmDuty_DebugMode (inp : Inputs) (s d : Sys) (h : pwmDuty inp s = some d) :
    d.Iron.DebugMode = s.Iron.DebugMode :=
  congrArg (fun t => t.2.2.2.2.2.2.2.2.2.2.2.2.2.2.2.2.2.1) (pwmDuty_frame inp s d h)

theorem pwmDuty_LastNoPresentTime (inp : Inputs) (s d : Sys) (h : pwmDuty inp s = some d) :
    d.Iron.LastNoPresentTime = s.Iron.LastNoPresentTime :=
  congrArg (fun t => t.2.2.2.2.2.2.2.2.2.2.2.2.2.2.2.2.2.2.1) (pwmDuty_frame inp s d h)

theorem pwmDuty_systemSettings (inp : Inputs) (s d : Sys) (h : pwmDuty inp s = some d) :
    d.systemSettings = s.systemSettings :=
  congrArg (fun t => t.2.2.2.2.2.2.2.2.2.2.2.2.2.2.2.2.2.2.2.1) (pwmDuty_frame inp s d h)

theorem pwmDuty_PID_time (inp : Inputs) (s d : Sys) (h : pwmDuty inp s = some d) :
    d.PID_time = s.PID_time :=
  congrArg (fun t => t.2.2.2.2.2.2.2.2.2.2.2.2.2.2.2.2.2.2.2.2) (pwmDuty_frame inp s d h)

/-! ## Initialisation writes the timers, the trace and `Pwm_Limit` only -/

@[simp] theorem delayTimerConfig_Iron (h : InitInputs) (s : Sys) :
    (delayTimerConfig h s).Iron = s.Iron := by
  simp [delayTimerConfig]

@[simp] theorem delayTimerConfig_systemSettings (h : InitInputs) (s : Sys) :
    (delayTimerConfig h s).systemSettings = s.systemSettings := by
  simp [delayTimerConfig]

@[simp] theorem pwmTimerConfig_Iron (h : InitInputs) (s : Sys) :
    (pwmTimerConfig h s).Iron = s.Iron := by
  simp [pwmTimerConfig]

@[simp] theorem pwmTimerConfig_systemSettings (h : InitInputs) (s : Sys) :
    (pwmTimerConfig h s).systemSettings = s.systemSettings := by
  simp [pwmTimerConfig]

theorem initTimers_Pwm_Out (K : Board) (h : InitInputs) (s : Sys) :
    (initTimers K h s).state.Iron.Pwm_Out = s.Iron.Pwm_Out := by
  unfold initTimers
  split_ifs <;> simp [Outcome.state]

theorem ironInit_Pwm_Out (K : Board) (h : InitInputs) (s : Sys) :
    (ironInit K h s).state.Iron.Pwm_Out = s.Iron.Pwm_Out := by
  unfold ironInit
  rw [initTimers_Pwm_Out]
  simp

theorem initTimers_RunawayStatus (K : Board) (h : InitInputs) (s : Sys) :
    (initTimers K h s).state.Iron.RunawayStatus = s.Iron.RunawayStatus := by
  unfold initTimers
  split_ifs <;> simp [Outcome.state]

theorem ironInit_RunawayStatus (K : Board) (h : InitInputs) (s : Sys) :
    (ironInit K h s).state.Iron.RunawayStatus = s.Iron.RunawayStatus := by
  unfold ironInit
  rw [initTimers_RunawayStatus]
  simp

theorem initTimers_updateMode (K : Board) (h : InitInputs) (s : Sys) :
    (initTimers K h s).state.Iron.updateMode = s.Iron.updateMode := by
  unfold initTimers
  split_ifs <;> simp [Outcome.state]

theorem ironInit_updateMode (K : Board) (h : InitInputs) (s : Sys) :
    (ironInit K h s).state.Iron.updateMode = s.Iron.updateMode := by
  unfold ironInit
  rw [initTimers_updateMode]
  simp

/-! ## Shape of a control tick -/

/-- The five ways a call of `handleIron` can end. -/
theorem handleIron_cases (K : Board) (inp : Inputs) (s : Sys) :
    (flagsActive (entryState K inp s) = true
      ∧ handleIron K inp s = Outcome.ok (idle inp (entryState K inp s)))
    ∨ (flagsActive (entryState K inp s) = false ∧ pidHold inp (modeState K inp s) = true
      ∧ handleIron K inp s = Outcome.ok (modeState K inp s))
    ∨ (flagsActive (entryState K inp s) = false ∧ pidHold inp (modeState K inp s) = false
      ∧ dutyState K inp s = none
      ∧ handleIron K inp s
          = Outcome.halt Halt.division_by_zero (applyPwm K inp (modeState K inp s)))
    ∨ (∃ d, flagsActive (entryState K inp s) = false ∧ pidHold inp (modeState K inp s) = false
      ∧ dutyState K inp s = some d ∧ d.Iron.Pwm_Out > d.Iron.Pwm_Limit
      ∧ handleIron K inp s = Outcome.halt Halt.Error_Handler d)
    ∨ (∃ d, flagsActive (entryState K inp s) = false ∧ pidHold inp (modeState K inp s) = false
      ∧ dutyState K inp s = some d ∧ d.Iron.Pwm_Out ≤ d.Iron.Pwm_Limit
      ∧ handleIron K inp s = runawayCheck inp (reachedCheck inp d)) := by
  unfold handleIron
  by_cases h1 : flagsActive (entryState K inp s) = true
  · left
    simp [h1]
  · right
    have h1f : flagsActive (entryState K inp s) = false := by simpa using h1
    by_cases h2 : pidHold inp (modeState K inp s) = true
    · left
      simp [h1f, h2]
    · right
      have h2f : pidHold inp (modeState K inp s) = false := by simpa using h2
      cases hd : dutyState K inp s with
      | none =>
        left
        simp [h1f, h2f]
      | some d =>
        right
        by_cases h3 : d.Iron.Pwm_Out > d.Iron.Pwm_Limit
        · left
          exact ⟨d, h1f, h2f, rfl, h3, by simp [h1f, h2f, h3]⟩
        · right
          exact ⟨d, h1f, h2f, rfl, Nat.le_of_not_lt h3, by simp [h1f, h2f, h3]⟩

/-- A tick that reaches line 196: neither short-circuited nor held back, no division by zero,
and the duty `d.Iron.Pwm_Out` within the limit. -/
theorem handleIron_full (K : Board) (inp : Inputs) (s d : Sys)
    (h1 : flagsActive (entryState K inp s) = false)
    (h2 : pidHold inp (modeState K inp s) = false)
    (h3 : dutyState K inp s = some d) (h4 : d.Iron.Pwm_Out ≤ d.Iron.Pwm_Limit) :
    handleIron K inp s = runawayCheck inp (reachedCheck inp d) := by
  unfold handleIron
  simp [h1, h2, h3, Nat.not_lt.mpr h4]

/-! ## Invariant I1: the duty never exceeds the limit -/

theorem profileGuard_Pwm_Out_le (s : Sys) : (profileGuard s).Iron.Pwm_Out ≤ s.Iron.Pwm_Out := by
  unfold profileGuard SetFailState GetFailState
  simp only []
  split_ifs <;> simp

theorem checkIronPresence_Pwm_Out_le (K : Board) (inp : Inputs) (s : Sys) :
    (checkIronPresence K inp s).Iron.Pwm_Out ≤ s.Iron.Pwm_Out := by
  unfold checkIronPresence emit
  simp only []
  split_ifs <;> simp

theorem entryState_Pwm_Out_le (K : Board) (inp : Inputs) (s : Sys) :
    (entryState K inp s).Iron.Pwm_Out ≤ s.Iron.Pwm_Out := by
  unfold entryState
  calc (checkIronPresence K inp (settingsWatch inp (profileGuard s))).Iron.Pwm_Out
      ≤ (settingsWatch inp (profileGuard s)).Iron.Pwm_Out := checkIronPresence_Pwm_Out_le _ _ _
    _ = (profileGuard s).Iron.Pwm_Out := settingsWatch_Pwm_Out _ _
    _ ≤ s.Iron.Pwm_Out := profileGuard_Pwm_Out_le s

theorem modeState_Pwm_Out (K : Board) (inp : Inputs) (s : Sys) :
    (modeState K inp s).Iron.Pwm_Out = (entryState K inp s).Iron.Pwm_Out := by
  simp [modeState]

theorem modeState_Pwm_Limit (K : Board) (inp : Inputs) (s : Sys) :
    (modeState K inp s).Iron.Pwm_Limit = s.Iron.Pwm_Limit := by
  simp [modeState]

/-- A tick that returns keeps `Pwm_Out ≤ Pwm_Limit`. -/
theorem handleIron_keeps_limit (K : Board) (inp : Inputs) (s t : Sys)
    (h : handleIron K inp s = Outcome.ok t) (hs : s.Iron.Pwm_Out ≤ s.Iron.Pwm_Limit) :
    t.Iron.Pwm_Out ≤ t.Iron.Pwm_Limit := by
  rcases handleIron_cases K inp s with ⟨_, e⟩ | ⟨_, _, e⟩ | ⟨_, _, _, e⟩ | ⟨d, _, _, _, _, e⟩
    | ⟨d, _, _, _, hd, e⟩
  · rw [e] at h
    cases h
    simpa using le_trans (entryState_Pwm_Out_le K inp s) hs
  · rw [e] at h
    cases h
    rw [modeState_Pwm_Out, modeState_Pwm_Limit]
    exact le_trans (entryState_Pwm_Out_le K inp s) hs
  · rw [e] at h
    cases h
  · rw [e] at h
    cases h
  · have h1 : (runawayCheck inp (reachedCheck inp d)).state = t := by rw [← e, h]; rfl
    rw [← h1]
    simpa using hd

/-- Every public call that returns keeps `Pwm_Out ≤ Pwm_Limit`. -/
theorem step_keeps_limit (K : Board) (op : Op) (s t : Sys)
    (h : step K op s = Outcome.ok t) (hs : s.Iron.Pwm_Out ≤ s.Iron.Pwm_Limit) :
    t.Iron.Pwm_Out ≤ t.Iron.Pwm_Limit := by
  cases op with
  | handleIron inp => exact handleIron_keeps_limit K inp s t h hs
  | setSystemTempUnit now unit =>
    cases h
    unfold setSystemTempUnit
    simp only [setCurrentMode_Pwm_Out, setCurrentMode_Pwm_Limit]
    split_ifs <;> simpa using hs
  | setPwmDelay delay =>
    cases h
    unfold setPwmDelay
    split_ifs <;> simpa using hs
  | setPwmPeriod period =>
    cases h
    unfold setPwmPeriod
    split_ifs <;> simpa using hs
  | setNoIronValue noiron =>
    cases h
    unfold setNoIronValue
    simpa using hs
  | setModefromStand now mode =>
    cases h
    unfold setModefromStand
    simpa using hs
  | setCurrentMode now mode forceMode =>
    cases h
    simpa using hs
  | IronWake activity now source =>
    cases h
    unfold IronWake
    cases source
    · simp only []
      split_ifs <;> simpa using hs
    · simpa using hs
  | SetFailState FailState =>
    cases h
    unfold SetFailState
    simp only []
    split_ifs <;> simp [hs]
  | setDebugTemp value =>
    cases h
    unfold setDebugTemp
    simpa using hs
  | setDebugMode value =>
    cases h
    unfold setDebugMode
    simpa using hs
  | setSetTemperature temperature =>
    cases h
    unfold setSetTemperature
    split_ifs <;> simpa using hs
  | addSetTemperatureReachedCallback callback mallocOk =>
    simp only [step, addSetTemperatureReachedCallback] at h
    split_ifs at h
    cases h
    simpa using hs
  | addModeChangedCallback callback mallocOk =>
    simp only [step, addModeChangedCallback] at h
    split_ifs at h
    split at h <;> cases h <;> simpa using hs

/-- A run that returns keeps `Pwm_Out ≤ Pwm_Limit`. -/
theorem run_keeps_limit (K : Board) (ops : List Op) (s t : Sys)
    (h : run K ops s = Outcome.ok t) (hs : s.Iron.Pwm_Out ≤ s.Iron.Pwm_Limit) :
    t.Iron.Pwm_Out ≤ t.Iron.Pwm_Limit := by
  induction ops generalizing s with
  | nil =>
    simp only [run, Outcome.ok.injEq] at h
    subst h
    exact hs
  | cons op ops ih =>
    unfold run at h
    cases hstep : step K op s with
    | ok s1 =>
      rw [hstep] at h
      exact ih s1 h (step_keeps_limit K op s s1 hstep hs)
    | halt e s1 =>
      rw [hstep] at h
      cases h

/-! ## Invariant I2: no duty in the failure state or without a handle -/

theorem flagsActive_eq_false (s : Sys) :
    flagsActive s = false ↔ s.Iron.FailState = false ∧ s.Iron.presence = Presence.isPresent := by
  unfold flagsActive
  cases hf : s.Iron.FailState <;> cases hp : s.Iron.presence <;> simp

theorem flagsActive_eq_true (s : Sys) :
    flagsActive s = true ↔ s.Iron.FailState = true ∨ s.Iron.presence = Presence.notPresent := by
  unfold flagsActive
  simp

theorem profileGuard_quiet (s : Sys) (hs : Quiet s) : Quiet (profileGuard s) := by
  unfold Quiet at *
  unfold profileGuard SetFailState GetFailState
  simp only []
  split_ifs <;> simp_all

theorem settingsWatch_quiet (inp : Inputs) (s : Sys) (hs : Quiet s) :
    Quiet (settingsWatch inp s) := by
  unfold Quiet at *
  simpa using hs

theorem checkIronPresence_quiet (K : Board) (inp : Inputs) (s : Sys) (hs : Quiet s) :
    Quiet (checkIronPresence K inp s) := by
  unfold Quiet at *
  unfold checkIronPresence
  simp only []
  split_ifs with h1 h2 h3 h4
  · simp
  · exact hs
  · simp only [setCurrentMode_FailState, setCurrentMode_presence, setCurrentMode_Pwm_Out,
      emit_Iron]
    intro h
    rcases h with h | h
    · exact hs (Or.inl h)
    · cases h
  · exact hs
  · exact hs

theorem entryState_quiet (K : Board) (inp : Inputs) (s : Sys) (hs : Quiet s) :
    Quiet (entryState K inp s) :=
  checkIronPresence_quiet K inp _ (settingsWatch_quiet inp _ (profileGuard_quiet s hs))

theorem modeState_FailState (K : Board) (inp : Inputs) (s : Sys) :
    (modeState K inp s).Iron.FailState = (entryState K inp s).Iron.FailState := by
  simp [modeState]

theorem modeState_presence (K : Board) (inp : Inputs) (s : Sys) :
    (modeState K inp s).Iron.presence = (entryState K inp s).Iron.presence := by
  simp [modeState]

/-- The flags tested at line 104 are not written by the rest of the tick. -/
theorem dutyState_flags (K : Board) (inp : Inputs) (s d : Sys) (h : dutyState K inp s = some d) :
    d.Iron.FailState = (entryState K inp s).Iron.FailState
    ∧ d.Iron.presence = (entryState K inp s).Iron.presence := by
  unfold dutyState at h
  rw [pwmDuty_FailState inp _ d h, pwmDuty_presence inp _ d h]
  simp [modeState]

/-- A tick that returns keeps the heater off under the two flags. -/
theorem handleIron_keeps_quiet (K : Board) (inp : Inputs) (s t : Sys)
    (h : handleIron K inp s = Outcome.ok t) (hs : Quiet s) : Quiet t := by
  have he := entryState_quiet K inp s hs
  rcases handleIron_cases K inp s with ⟨f, e⟩ | ⟨f, _, e⟩ | ⟨_, _, _, e⟩ | ⟨d, _, _, _, _, e⟩
    | ⟨d, f, _, hd, _, e⟩
  · rw [e] at h
    cases h
    intro _
    rw [idle_Pwm_Out]
    exact he ((flagsActive_eq_true _).mp f)
  · rw [e] at h
    cases h
    obtain ⟨f1, f2⟩ := (flagsActive_eq_false _).mp f
    intro hh
    rw [modeState_FailState, modeState_presence, f1, f2] at hh
    simp at hh
  · rw [e] at h
    cases h
  · rw [e] at h
    cases h
  · have h1 : (runawayCheck inp (reachedCheck inp d)).state = t := by rw [← e, h]; rfl
    obtain ⟨f1, f2⟩ := (flagsActive_eq_false _).mp f
    obtain ⟨g1, g2⟩ := dutyState_flags K inp s d hd
    intro hh
    rw [← h1] at hh
    simp only [runawayCheck_FailState, runawayCheck_presence, reachedCheck_FailState,
      reachedCheck_presence, g1, g2, f1, f2] at hh
    simp at hh

/-- Every public call that returns keeps the heater off under the two flags. -/
theorem step_keeps_quiet (K : Board) (op : Op) (s t : Sys)
    (h : step K op s = Outcome.ok t) (hs : Quiet s) : Quiet t := by
  unfold Quiet at hs
  cases op with
  | handleIron inp => exact handleIron_keeps_quiet K inp s t h hs
  | setSystemTempUnit now unit =>
    cases h
    unfold Quiet setSystemTempUnit
    simp only [setCurrentMode_Pwm_Out, setCurrentMode_FailState, setCurrentMode_presence]
    split_ifs <;> simpa using hs
  | setPwmDelay delay =>
    cases h
    unfold Quiet setPwmDelay
    split_ifs <;> simpa using hs
  | setPwmPeriod period =>
    cases h
    unfold Quiet setPwmPeriod
    split_ifs <;> simpa using hs
  | setNoIronValue noiron =>
    cases h
    unfold Quiet setNoIronValue
    simpa using hs
  | setModefromStand now mode =>
    cases h
    unfold Quiet setModefromStand
    simpa using hs
  | setCurrentMode now mode forceMode =>
    cases h
    unfold Quiet
    simpa using hs
  | IronWake activity now source =>
    cases h
    unfold Quiet IronWake
    cases source
    · simp only []
      split_ifs <;> simpa using hs
    · simpa using hs
  | SetFailState FailState =>
    cases h
    unfold Quiet SetFailState
    simp only []
    split_ifs with hf
    · simp
    · simp only [Bool.not_eq_true] at hf
      subst hf
      intro hh
      apply hs
      right
      simpa using hh
  | setDebugTemp value =>
    cases h
    unfold Quiet setDebugTemp
    simpa using hs
  | setDebugMode value =>
    cases h
    unfold Quiet setDebugMode
    simpa using hs
  | setSetTemperature temperature =>
    cases h
    unfold Quiet setSetTemperature
    split_ifs <;> simpa using hs
  | addSetTemperatureReachedCallback callback mallocOk =>
    simp only [step, addSetTemperatureReachedCallback] at h
    split_ifs at h
    cases h
    unfold Quiet
    simpa using hs
  | addModeChangedCallback callback mallocOk =>
    simp only [step, addModeChangedCallback] at h
    split_ifs at h
    split at h <;> cases h <;> unfold Quiet <;> simpa using hs

/-- A run that returns keeps the heater off under the two flags. -/
theorem run_keeps_quiet (K : Board) (ops : List Op) (s t : Sys)
    (h : run K ops s = Outcome.ok t) (hs : Quiet s) : Quiet t := by
  induction ops generalizing s with
  | nil =>
    simp only [run, Outcome.ok.injEq] at h
    subst h
    exact hs
  | cons op ops ih =>
    unfold run at h
    cases hstep : step K op s with
    | ok s1 =>
      rw [hstep] at h
      exact ih s1 h (step_keeps_quiet K op s s1 hstep hs)
    | halt e s1 =>
      rw [hstep] at h
      cases h

/-! ## The runaway status is only ever set, and only together with `FatalError` -/

theorem statusKept_ok (s t : Sys) (h : t.Iron.RunawayStatus = s.Iron.RunawayStatus) :
    StatusKept s (Outcome.ok t) :=
  Or.inl ⟨fun _ hc => by simp [Outcome.halted] at hc, h⟩

theorem runawayCase_status (inp : Inputs) (s : Sys) (l : Nat) (c : ErrorCode) :
    StatusKept s (runawayCase inp s l c) := by
  unfold runawayCase
  split_ifs
  · exact Or.inr ⟨⟨c, rfl⟩, rfl⟩
  · exact statusKept_ok s s rfl

theorem runawaySwitch_status (inp : Inputs) (s : Sys) :
    StatusKept s (runawaySwitch inp s) := by
  unfold runawaySwitch
  split_ifs
  · exact statusKept_ok s s rfl
  · exact runawayCase_status inp s _ _
  · exact runawayCase_status inp s _ _
  · exact runawayCase_status inp s _ _
  · exact runawayCase_status inp s _ _
  · exact runawayCase_status inp s _ _
  · exact Or.inr ⟨⟨_, rfl⟩, rfl⟩

theorem runawayCheck_status (inp : Inputs) (s : Sys) :
    StatusKept s (runawayCheck inp s) := by
  unfold runawayCheck
  simp only []
  split
  · split
    · split
      · exact statusKept_ok s _ rfl
      · exact runawaySwitch_status inp { s with Iron.RunawayLevel := runawayTier inp s }
    · exact statusKept_ok s _ rfl
  · exact statusKept_ok s _ rfl

theorem dutyState_RunawayStatus (K : Board) (inp : Inputs) (s d : Sys)
    (h : dutyState K inp s = some d) : d.Iron.RunawayStatus = s.Iron.RunawayStatus := by
  unfold dutyState at h
  rw [pwmDuty_RunawayStatus inp _ d h]
  simp [modeState]

/-- A tick changes the runaway status only by stopping in `FatalError`. -/
theorem handleIron_status (K : Board) (inp : Inputs) (s : Sys) :
    StatusKept s (handleIron K inp s) := by
  rcases handleIron_cases K inp s with ⟨_, e⟩ | ⟨_, _, e⟩ | ⟨_, _, _, e⟩ | ⟨d, _, _, hd, _, e⟩
    | ⟨d, _, _, hd, _, e⟩
  · rw [e]
    exact statusKept_ok s _ (by simp)
  · rw [e]
    exact statusKept_ok s _ (by simp [modeState])
  · rw [e]
    exact Or.inl ⟨fun _ hc => by simp [Outcome.halted] at hc, by simp [Outcome.state, modeState]⟩
  · rw [e]
    exact Or.inl ⟨fun _ hc => by simp [Outcome.halted] at hc,
      by simpa [Outcome.state] using dutyState_RunawayStatus K inp s d hd⟩
  · rw [e]
    have hk := runawayCheck_status inp (reachedCheck inp d)
    have hd2 : (reachedCheck inp d).Iron.RunawayStatus = s.Iron.RunawayStatus := by
      rw [reachedCheck_RunawayStatus, dutyState_RunawayStatus K inp s d hd]
    unfold StatusKept at hk ⊢
    rw [hd2] at hk
    exact hk

/-- Every setter leaves the runaway status alone. -/
theorem step_status (K : Board) (op : Op) (s : Sys) : StatusKept s (step K op s) := by
  cases op with
  | handleIron inp => exact handleIron_status K inp s
  | setSystemTempUnit now unit =>
    refine statusKept_ok s _ ?_
    unfold setSystemTempUnit
    simp only [setCurrentMode_RunawayStatus]
    split_ifs <;> simp
  | setPwmDelay delay =>
    refine statusKept_ok s _ ?_
    unfold setPwmDelay
    split_ifs <;> simp
  | setPwmPeriod period =>
    refine statusKept_ok s _ ?_
    unfold setPwmPeriod
    split_ifs <;> simp
  | setNoIronValue noiron => exact statusKept_ok s _ (by simp [setNoIronValue])
  | setModefromStand now mode => exact statusKept_ok s _ (by simp [setModefromStand])
  | setCurrentMode now mode forceMode => exact statusKept_ok s _ (by simp)
  | IronWake activity now source =>
    refine statusKept_ok s _ ?_
    unfold IronWake
    cases source
    · simp only []
      split_ifs <;> simp
    · simp
  | SetFailState FailState =>
    refine statusKept_ok s _ ?_
    unfold SetFailState
    simp only []
    split_ifs <;> simp
  | setDebugTemp value => exact statusKept_ok s _ (by simp [setDebugTemp])
  | setDebugMode value => exact statusKept_ok s _ (by simp [setDebugMode])
  | setSetTemperature temperature =>
    refine statusKept_ok s _ ?_
    unfold setSetTemperature
    split_ifs <;> simp
  | addSetTemperatureReachedCallback callback mallocOk =>
    simp only [step, addSetTemperatureReachedCallback]
    split_ifs
    · exact Or.inl ⟨fun _ hc => by simp [Outcome.halted] at hc, rfl⟩
    · exact statusKept_ok s _ (by simp)
  | addModeChangedCallback callback mallocOk =>
    simp only [step, addModeChangedCallback]
    split_ifs
    · exact Or.inl ⟨fun _ hc => by simp [Outcome.halted] at hc, rfl⟩
    · split
      · exact statusKept_ok s _ rfl
      · exact statusKept_ok s _ (by simp)

/-! ## Machine subtraction -/

theorem sub32_self (a : Nat) : sub32 a a = 0 := by
  unfold sub32
  simp

/-- On a clock that has not wrapped between the two readings, `sub32` is the elapsed time. -/
theorem sub32_eq_sub (a b : Nat) (hb : b ≤ a) (ha : a < 4294967296) : sub32 a b = a - b := by
  unfold sub32
  omega

/-! ## Runaway supervisor: tier and trip -/

theorem runawayTier_eq_specTier (inp : Inputs) (s : Sys)
    (ht : inp.readTipTemperatureCompensated > s.Iron.CurrentSetTemperature) :
    runawayTier inp s
      = specTier s.systemSettings.settings.tempUnit inp.readTipTemperatureCompensated
          s.Iron.CurrentSetTemperature := by
  unfold runawayTier specTier TempStep TempLimit
  simp only [runaway_100, runaway_75, runaway_50, runaway_25, runaway_ok, runaway_500,
    runawayScan]
  split_ifs <;> omega

theorem specTier_le (unit : TempUnit) (tip_T setpoint : Nat) :
    specTier unit tip_T setpoint ≤ 5 := by
  unfold specTier
  simp only [runaway_100, runaway_75, runaway_50, runaway_25, runaway_ok, runaway_500]
  split_ifs <;> omega

/-- For a tier between 25 and 500 the `switch` is the timed case of the table. -/
theorem runawaySwitch_tier (inp : Inputs) (s : Sys) (h0 : s.Iron.RunawayLevel ≠ runaway_ok)
    (h5 : s.Iron.RunawayLevel ≤ 5) :
    runawaySwitch inp s
      = runawayCase inp s (specTimeLimit s.Iron.RunawayLevel)
          (specErrorCode s.Iron.RunawayLevel) := by
  unfold runawaySwitch specTimeLimit specErrorCode
  simp only [runaway_100, runaway_75, runaway_50, runaway_25, runaway_ok, runaway_500] at *
  have h : s.Iron.RunawayLevel = 1 ∨ s.Iron.RunawayLevel = 2 ∨ s.Iron.RunawayLevel = 3
      ∨ s.Iron.RunawayLevel = 4 ∨ s.Iron.RunawayLevel = 5 := by omega
  rcases h with h | h | h | h | h <;> simp [h]

theorem dutyState_prevRunawayLevel (K : Board) (inp : Inputs) (s d : Sys)
    (h : dutyState K inp s = some d) : d.Iron.prevRunawayLevel = s.Iron.prevRunawayLevel := by
  unfold dutyState at h
  rw [pwmDuty_prevRunawayLevel inp _ d h]
  simp [modeState]

theorem dutyState_RunawayTimer (K : Board) (inp : Inputs) (s d : Sys)
    (h : dutyState K inp s = some d) : d.Iron.RunawayTimer = s.Iron.RunawayTimer := by
  unfold dutyState at h
  rw [pwmDuty_RunawayTimer inp _ d h]
  simp [modeState]

/-- The entry condition of line 211 read on the state at line 192. -/
theorem runawayEntry_reachedCheck (inp : Inputs) (d : Sys) (hp : 0 < d.Iron.Pwm_Out)
    (hst : d.Iron.RunawayStatus = RunawayStatus.runaway_ok)
    (hdb : d.Iron.DebugMode = DebugMode.debug_Off)
    (ht : inp.readTipTemperatureCompensated > d.Iron.CurrentSetTemperature) :
    runawayEntry inp (reachedCheck inp d) = true := by
  unfold runawayEntry
  simp only [reachedCheck_Pwm_Out, reachedCheck_RunawayStatus, reachedCheck_DebugMode,
    reachedCheck_CurrentSetTemperature]
  simp [hst, hdb, ht, Nat.pos_iff_ne_zero.mp hp]

/-- Supervisor entered, first detection of a tier: the tier and the time are recorded. -/
theorem runawayCheck_first (inp : Inputs) (s : Sys) (he : runawayEntry inp s = true)
    (ht : runawayTier inp s ≠ runaway_ok) (hprev : s.Iron.prevRunawayLevel = runaway_ok) :
    runawayCheck inp s
      = Outcome.ok { s with Iron.RunawayLevel := runawayTier inp s,
                            Iron.prevRunawayLevel := runawayTier inp s,
                            Iron.RunawayTimer := inp.HAL_GetTick } := by
  unfold runawayCheck
  simp [he, ht, hprev]

/-- Supervisor entered, tier already seen on an earlier tick: the timed case decides. -/
theorem runawayCheck_continuing (inp : Inputs) (s : Sys) (he : runawayEntry inp s = true)
    (ht : runawayTier inp s ≠ runaway_ok) (h5 : runawayTier inp s ≤ 5)
    (hprev : s.Iron.prevRunawayLevel ≠ runaway_ok) :
    runawayCheck inp s
      = runawayCase inp { s with Iron.RunawayLevel := runawayTier inp s }
          (specTimeLimit (runawayTier inp s)) (specErrorCode (runawayTier inp s)) := by
  unfold runawayCheck
  simp only [he, if_true]
  rw [if_pos ht, if_neg hprev]
  exact runawaySwitch_tier inp _ ht h5

/-- Supervisor entered, no tier exceeded: tracking is reset. -/
theorem runawayCheck_clear (inp : Inputs) (s : Sys) (he : runawayEntry inp s = true)
    (ht : runawayTier inp s = runaway_ok) :
    runawayCheck inp s
      = Outcome.ok { s with Iron.RunawayLevel := runawayTier inp s,
                            Iron.RunawayTimer := inp.HAL_GetTick,
                            Iron.prevRunawayLevel := runaway_ok } := by
  unfold runawayCheck
  simp [he, ht]

/-- Supervisor not entered: tracking is reset. -/
theorem runawayCheck_skipped (inp : Inputs) (s : Sys) (he : runawayEntry inp s = false) :
    runawayCheck inp s
      = Outcome.ok { s with Iron.RunawayTimer := inp.HAL_GetTick,
                            Iron.prevRunawayLevel := runaway_ok } := by
  unfold runawayCheck
  simp [he]

/-! ## Debounce of the stand -/

theorem setCurrentMode_noForce_CurrentMode (K : Board) (now m : Nat) (s : Sys) :
    (setCurrentMode K now m false s).Iron.CurrentMode = m := by
  unfold setCurrentMode modeChanged emit
  simp only []
  by_cases hm : s.Iron.CurrentMode = m
  · rw [if_neg (by simp [hm])]
    exact hm
  · rw [if_pos (Or.inl hm)]
    split_ifs <;> rfl

theorem setCurrentMode_CurrentModeTimer (K : Board) (now m : Nat) (f : Bool) (s : Sys) :
    (setCurrentMode K now m f s).Iron.CurrentModeTimer = now := by
  unfold setCurrentMode modeChanged emit
  simp only []
  split_ifs <;> rfl

/-- The inactivity timer does nothing when the mode timer holds the clock reading of line 69. -/
theorem sleepTimer_fresh (K : Board) (inp : Inputs) (s : Sys)
    (h : s.Iron.CurrentModeTimer = inp.HAL_GetTick) : sleepTimer K inp s = s := by
  unfold sleepTimer
  rw [h, sub32_self]
  simp

/-- The inactivity timer does nothing outside run mode. -/
theorem sleepTimer_off (K : Board) (inp : Inputs) (s : Sys)
    (h : s.Iron.CurrentMode ≠ K.mode_run) : sleepTimer K inp s = s := by
  unfold sleepTimer
  rw [if_neg h]

/-- After `setCurrentMode(m, noForceMode)` the inactivity timer leaves the mode at `m` when
`m` is not run, or when the clock reading of `setCurrentMode` is the one of line 69. -/
theorem sleepTimer_after_setCurrentMode (K : Board) (inp : Inputs) (now m : Nat) (s : Sys)
    (h : m ≠ K.mode_run ∨ now = inp.HAL_GetTick) :
    (sleepTimer K inp (setCurrentMode K now m false s)).Iron.CurrentMode = m := by
  rcases h with h | h
  · rw [sleepTimer_off K inp _ (by rw [setCurrentMode_noForce_CurrentMode]; exact h),
      setCurrentMode_noForce_CurrentMode]
  · rw [sleepTimer_fresh K inp _ (by rw [setCurrentMode_CurrentModeTimer]; exact h),
      setCurrentMode_noForce_CurrentMode]

theorem standDebounce_fired (K : Board) (inp : Inputs) (s : Sys)
    (hp : s.Iron.updateMode = UpdateFlag.needs_update)
    (ht : sub32 inp.HAL_GetTick s.Iron.LastModeChangeTime > 500) :
    standDebounce K inp s
      = setCurrentMode K inp.HAL_GetTick_standMode s.Iron.changeMode false
          { s with Iron.updateMode := UpdateFlag.no_update } := by
  unfold standDebounce
  rw [if_pos hp, if_pos ht]

theorem standDebounce_idle (K : Board) (inp : Inputs) (s : Sys)
    (h : ¬ (s.Iron.updateMode = UpdateFlag.needs_update
      ∧ sub32 inp.HAL_GetTick s.Iron.LastModeChangeTime > 500)) :
    standDebounce K inp s = s := by
  unfold standDebounce
  split_ifs with h1 h2
  · exact absurd ⟨h1, h2⟩ h
  · rfl
  · rfl

/-- Mode fields at the end of a tick that was not short-circuited are those of line 131. -/
theorem handleIron_modeFields (K : Board) (inp : Inputs) (s : Sys)
    (h1 : flagsActive (entryState K inp s) = false) :
    (handleIron K inp s).state.Iron.updateMode = (modeState K inp s).Iron.updateMode
    ∧ (handleIron K inp s).state.Iron.CurrentMode = (modeState K inp s).Iron.CurrentMode
    ∧ (handleIron K inp s).state.Iron.changeMode = (modeState K inp s).Iron.changeMode
    ∧ (handleIron K inp s).state.Iron.LastModeChangeTime
        = (modeState K inp s).Iron.LastModeChangeTime := by
  rcases handleIron_cases K inp s with ⟨f, _⟩ | ⟨_, _, e⟩ | ⟨_, _, _, e⟩ | ⟨d, _, _, hd, _, e⟩
    | ⟨d, _, _, hd, _, e⟩
  · rw [h1] at f
    cases f
  · rw [e]
    exact ⟨rfl, rfl, rfl, rfl⟩
  · rw [e]
    simp [Outcome.state]
  · rw [e]
    unfold dutyState at hd
    simp only [Outcome.state]
    rw [pwmDuty_updateMode inp _ d hd, pwmDuty_CurrentMode inp _ d hd,
      pwmDuty_changeMode inp _ d hd, pwmDuty_LastModeChangeTime inp _ d hd]
    simp
  · rw [e]
    unfold dutyState at hd
    simp only [runawayCheck_updateMode, runawayCheck_CurrentMode, runawayCheck_changeMode,
      runawayCheck_LastModeChangeTime, reachedCheck_updateMode, reachedCheck_CurrentMode,
      reachedCheck_changeMode, reachedCheck_LastModeChangeTime]
    rw [pwmDuty_updateMode inp _ d hd, pwmDuty_CurrentMode inp _ d hd,
      pwmDuty_changeMode inp _ d hd, pwmDuty_LastModeChangeTime inp _ d hd]
    simp

/-- A tick never writes the request, and writes the pending flag only to clear it. -/
theorem handleIron_request (K : Board) (inp : Inputs) (s : Sys) :
    (handleIron K inp s).state.Iron.changeMode = s.Iron.changeMode
    ∧ (handleIron K inp s).state.Iron.LastModeChangeTime = s.Iron.LastModeChangeTime
    ∧ ((handleIron K inp s).state.Iron.updateMode = UpdateFlag.needs_update →
        s.Iron.updateMode = UpdateFlag.needs_update) := by
  by_cases h1 : flagsActive (entryState K inp s) = true
  · have e : handleIron K inp s = Outcome.ok (idle inp (entryState K inp s)) := by
      unfold handleIron
      simp [h1]
    rw [e]
    simp [Outcome.state]
  · have h1f : flagsActive (entryState K inp s) = false := by simpa using h1
    obtain ⟨a, _, c, d⟩ := handleIron_modeFields K inp s h1f
    rw [a, c, d]
    refine ⟨by simp [modeState], by simp [modeState], ?_⟩
    unfold modeState
    rw [sleepTimer_updateMode]
    intro hh
    by_contra hn
    have hid := standDebounce_idle K inp (entryState K inp s)
      (fun hc => hn (by rw [entryState_updateMode] at hc; exact hc.1))
    rw [hid, entryState_updateMode] at hh
    exact hn hh

/-- A tick that finds a request pending and leaves none pending has applied it: more than
500 ms have passed since the request and the debounce block is the call
`setCurrentMode(changeMode, noForceMode)`, which leaves the requested mode at line 123.  The
tick ends in that mode when the mode is not run, or when the clock has not advanced between
line 69 and the reading of `setCurrentMode`. -/
theorem handleIron_applies (K : Board) (inp : Inputs) (s : Sys)
    (hp : s.Iron.updateMode = UpdateFlag.needs_update)
    (hc : (handleIron K inp s).state.Iron.updateMode = UpdateFlag.no_update) :
    sub32 inp.HAL_GetTick s.Iron.LastModeChangeTime > 500
    ∧ standDebounce K inp (entryState K inp s)
        = setCurrentMode K inp.HAL_GetTick_standMode s.Iron.changeMode false
            { entryState K inp s with Iron.updateMode := UpdateFlag.no_update }
    ∧ (standDebounce K inp (entryState K inp s)).Iron.CurrentMode = s.Iron.changeMode
    ∧ (s.Iron.changeMode ≠ K.mode_run ∨ inp.HAL_GetTick_standMode = inp.HAL_GetTick →
        (handleIron K inp s).state.Iron.CurrentMode = s.Iron.changeMode) := by
  by_cases h1 : flagsActive (entryState K inp s) = true
  · have e : handleIron K inp s = Outcome.ok (idle inp (entryState K inp s)) := by
      unfold handleIron
      simp [h1]
    rw [e] at hc
    simp [Outcome.state, hp] at hc
  · have h1f : flagsActive (entryState K inp s) = false := by simpa using h1
    obtain ⟨a, b, _, _⟩ := handleIron_modeFields K inp s h1f
    rw [a] at hc
    rw [b]
    unfold modeState at hc ⊢
    rw [sleepTimer_updateMode] at hc
    by_cases ht : sub32 inp.HAL_GetTick s.Iron.LastModeChangeTime > 500
    · have hf := standDebounce_fired K inp (entryState K inp s)
        (by rw [entryState_updateMode]; exact hp)
        (by rw [entryState_LastModeChangeTime]; exact ht)
      rw [entryState_changeMode] at hf
      refine ⟨ht, hf, ?_, ?_⟩
      · rw [hf, setCurrentMode_noForce_CurrentMode]
      · intro hh
        rw [hf]
        exact sleepTimer_after_setCurrentMode K inp _ _ _ hh
    · have hid := standDebounce_idle K inp (entryState K inp s)
        (fun hcc => ht (by rw [entryState_LastModeChangeTime] at hcc; exact hcc.2))
      rw [hid, entryState_updateMode, hp] at hc
      cases hc

/-- A tick, not short-circuited, with a request pending for more than 500 ms applies it. -/
theorem handleIron_debounce (K : Board) (inp : Inputs) (s : Sys)
    (h1 : flagsActive (entryState K inp s) = false)
    (hp : s.Iron.updateMode = UpdateFlag.needs_update)
    (ht : sub32 inp.HAL_GetTick s.Iron.LastModeChangeTime > 500) :
    standDebounce K inp (entryState K inp s)
        = setCurrentMode K inp.HAL_GetTick_standMode s.Iron.changeMode false
            { entryState K inp s with Iron.updateMode := UpdateFlag.no_update }
    ∧ (handleIron K inp s).state.Iron.updateMode = UpdateFlag.no_update
    ∧ (standDebounce K inp (entryState K inp s)).Iron.CurrentMode = s.Iron.changeMode
    ∧ (s.Iron.changeMode ≠ K.mode_run ∨ inp.HAL_GetTick_standMode = inp.HAL_GetTick →
        (handleIron K inp s).state.Iron.CurrentMode = s.Iron.changeMode) := by
  have hf := standDebounce_fired K inp (entryState K inp s)
    (by rw [entryState_updateMode]; exact hp)
    (by rw [entryState_LastModeChangeTime]; exact ht)
  rw [entryState_changeMode] at hf
  obtain ⟨a, b, _, _⟩ := handleIron_modeFields K inp s h1
  refine ⟨hf, ?_, ?_, ?_⟩
  · rw [a]
    unfold modeState
    rw [sleepTimer_updateMode, hf, setCurrentMode_updateMode]
  · rw [hf, setCurrentMode_noForce_CurrentMode]
  · intro hh
    rw [b]
    unfold modeState
    rw [hf]
    exact sleepTimer_after_setCurrentMode K inp _ _ _ hh

/-- The run requested at 1000 ms is applied by the tick at 1600 ms.  When the clock does not
advance during the tick, the tick ends in run mode.  When it advances by one millisecond
before `setCurrentMode` reads it, `CurrentTime - CurrentModeTimer` of line 126 wraps to
4294967295 and the same tick forces sleep again, with the long beep. -/
theorem applied_run_forced_asleep :
    wakeRequested.Iron.CurrentMode = demoBoard.mode_sleep
    ∧ wakeRequested.Iron.updateMode = UpdateFlag.needs_update
    ∧ wakeRequested.Iron.changeMode = demoBoard.mode_run
    ∧ (handleIron demoBoard (demoInputs 1600 25 pidHalf) wakeRequested).state.Iron.CurrentMode
        = demoBoard.mode_run
    ∧ (standDebounce demoBoard (lateInputs 1600)
        (entryState demoBoard (lateInputs 1600) wakeRequested)).Iron.CurrentMode
        = demoBoard.mode_run
    ∧ (standDebounce demoBoard (lateInputs 1600)
        (entryState demoBoard (lateInputs 1600) wakeRequested)).Iron.CurrentModeTimer = 1601
    ∧ sub32 1600 1601 = 4294967295
    ∧ (handleIron demoBoard (lateInputs 1600) wakeRequested).state.Iron.updateMode
        = UpdateFlag.no_update
    ∧ (handleIron demoBoard (lateInputs 1600) wakeRequested).state.Iron.CurrentMode
        = demoBoard.mode_sleep
    ∧ (handleIron demoBoard (lateInputs 1600) wakeRequested).state.events
        = wakeRequested.events
            ++ [Event.buzzer_short_beep, Event.buzzer_short_beep, Event.buzzer_long_beep] := by
  refine ⟨?_, ?_, ?_, ?_, ?_, ?_, ?_, ?_, ?_, ?_⟩ <;> decide

/-- Every public call keeps a pending debounce in step with the most recent request. -/
theorem step_keeps_pending (K : Board) (op : Op) (s t : Sys) (acc : Option (Nat × Nat))
    (h : step K op s = Outcome.ok t) (hs : Pending acc s) : Pending (standRequest acc op) t := by
  unfold Pending at *
  cases op with
  | handleIron inp =>
    have e : (handleIron K inp s).state = t := by
      simp only [step] at h
      rw [h]
      rfl
    obtain ⟨a, b, c⟩ := handleIron_request K inp s
    rw [e] at a b c
    intro hh
    rw [a, b]
    exact hs (c hh)
  | setSystemTempUnit now unit =>
    cases h
    unfold setSystemTempUnit
    simp only [setCurrentMode_updateMode, setCurrentMode_changeMode,
      setCurrentMode_LastModeChangeTime, standRequest]
    split_ifs <;> simpa using hs
  | setPwmDelay delay =>
    cases h
    unfold setPwmDelay
    split_ifs <;> simpa [standRequest] using hs
  | setPwmPeriod period =>
    cases h
    unfold setPwmPeriod
    split_ifs <;> simpa [standRequest] using hs
  | setNoIronValue noiron =>
    cases h
    unfold setNoIronValue
    simpa [standRequest] using hs
  | setModefromStand now mode =>
    cases h
    unfold setModefromStand
    simp [standRequest]
  | setCurrentMode now mode forceMode =>
    cases h
    simpa [standRequest] using hs
  | IronWake activity now source =>
    cases h
    unfold IronWake
    cases source
    · simp only []
      split_ifs <;> simpa [standRequest] using hs
    · simpa [standRequest] using hs
  | SetFailState FailState =>
    cases h
    unfold SetFailState
    simp only []
    split_ifs <;> simpa [standRequest] using hs
  | setDebugTemp value =>
    cases h
    unfold setDebugTemp
    simpa [standRequest] using hs
  | setDebugMode value =>
    cases h
    unfold setDebugMode
    simpa [standRequest] using hs
  | setSetTemperature temperature =>
    cases h
    unfold setSetTemperature
    split_ifs <;> simpa [standRequest] using hs
  | addSetTemperatureReachedCallback callback mallocOk =>
    simp only [step, addSetTemperatureReachedCallback] at h
    split_ifs at h
    cases h
    simpa [standRequest] using hs
  | addModeChangedCallback callback mallocOk =>
    simp only [step, addModeChangedCallback] at h
    split_ifs at h
    split at h <;> cases h <;> simpa [standRequest] using hs

/-- A run keeps a pending debounce in step with the most recent request. -/
theorem run_keeps_pending (K : Board) (ops : List Op) (s t : Sys) (acc : Option (Nat × Nat))
    (h : run K ops s = Outcome.ok t) (hs : Pending acc s) :
    Pending (ops.foldl standRequest acc) t := by
  induction ops generalizing s acc with
  | nil =>
    simp only [run, Outcome.ok.injEq] at h
    subst h
    exact hs
  | cons op ops ih =>
    unfold run at h
    cases hstep : step K op s with
    | ok s1 =>
      rw [hstep] at h
      exact ih s1 (standRequest acc op) h (step_keeps_pending K op s s1 acc hstep hs)
    | halt e s1 =>
      rw [hstep] at h
      cases h

/-! ## Power limiter -/

/-- With a non-zero impedance no division of lines 167-182 has a zero divisor, and the value
given to `Pwm_Max` is at most `Pwm_Limit`. -/
theorem powerLimit_le (volts impedance power pwmPeriod Pwm_Limit : Nat) (himp : 0 < impedance) :
    ∃ m, powerLimit volts impedance power pwmPeriod Pwm_Limit = some m ∧ m ≤ Pwm_Limit := by
  unfold powerLimit
  simp only []
  rw [if_neg (Nat.pos_iff_ne_zero.mp himp)]
  generalize (if mul32 volts volts / 10 = 0 then 1 else mul32 volts volts / 10) / impedance
    = maxPower
  by_cases h1 : power ≥ maxPower
  · rw [if_pos h1]
    exact ⟨_, rfl, le_refl _⟩
  · rw [if_neg h1]
    have hm : maxPower ≠ 0 := by omega
    rw [if_neg hm]
    split_ifs with h2
    · exact ⟨_, rfl, le_refl _⟩
    · exact ⟨_, rfl, by omega⟩

/-- On 16-bit inputs no product wraps and the code computes the specification's formula. -/
theorem powerLimit_eq_spec (volts impedance power pwmPeriod Pwm_Limit : Nat)
    (himp : 0 < impedance) (hv : volts < 65536) (hpow : power < 65536)
    (hper : pwmPeriod < 65536) :
    powerLimit volts impedance power pwmPeriod Pwm_Limit
      = some (specPwmMax volts impedance power pwmPeriod Pwm_Limit) := by
  have hvv : volts * volts < 4294967296 := by nlinarith
  have hpp : pwmPeriod * power < 4294967296 := by nlinarith
  unfold powerLimit specPwmMax mul32
  simp only []
  rw [Nat.mod_eq_of_lt hvv, Nat.mod_eq_of_lt hpp, if_neg (Nat.pos_iff_ne_zero.mp himp)]
  generalize (if volts * volts / 10 = 0 then 1 else volts * volts / 10) / impedance = maxPower
  by_cases h1 : power ≥ maxPower
  · rw [if_pos h1, if_pos h1]
  · rw [if_neg h1, if_neg h1]
    have hm : maxPower ≠ 0 := by omega
    rw [if_neg hm]
    have hlt : pwmPeriod * power / maxPower < 65536 := by
      apply Nat.div_lt_of_lt_mul
      nlinarith
    rw [Nat.mod_eq_of_lt hlt]
    split_ifs with h2
    · rw [Nat.min_eq_right (le_of_lt h2)]
    · rw [Nat.min_eq_left (Nat.le_of_not_lt h2)]

/-- The power limiter inside the tick: with a positive PID output and a non-zero impedance,
lines 166-191 store the value of `powerLimit` in `Pwm_Max`. -/
theorem pwmDuty_Pwm_Max (inp : Inputs) (s : Sys) (hset : (pidSet inp s).ne_zero = true)
    (himp : 0 < s.systemSettings.Profile.impedance) :
    ∃ d, pwmDuty inp s = some d
      ∧ powerLimit inp.getSupplyVoltage_v_x10 s.systemSettings.Profile.impedance
          s.systemSettings.Profile.power s.systemSettings.Profile.pwmPeriod s.Iron.Pwm_Limit
        = some d.Iron.Pwm_Max := by
  obtain ⟨m, hm, _⟩ := powerLimit_le inp.getSupplyVoltage_v_x10
    s.systemSettings.Profile.impedance s.systemSettings.Profile.power
    s.systemSettings.Profile.pwmPeriod s.Iron.Pwm_Limit himp
  unfold pwmDuty
  simp only [hset, if_true]
  rw [hm]
  exact ⟨_, rfl, rfl⟩

/-! ## C1: invariant I1 -/

/-- C1 (I1): starting from globals with `Pwm_Out = 0` (they are zero-initialised), in every
state reached after `ironInit` by calls of the public interface that all returned,
`Pwm_Out ≤ Pwm_Limit`; and a tick that gets past the PID rate limit and computes a duty above
`Pwm_Limit` ends in `Error_Handler` instead of returning. -/
theorem pwm_out_le_pwm_limit (K : Board) (h : InitInputs) (boot : Sys) (ops : List Op)
    (s : Sys) (hboot : boot.Iron.Pwm_Out = 0) (hr : Reached K h boot ops s) :
    s.Iron.Pwm_Out ≤ s.Iron.Pwm_Limit
    ∧ ∀ (inp : Inputs) (d : Sys), flagsActive (entryState K inp s) = false →
        pidHold inp (modeState K inp s) = false → dutyState K inp s = some d →
        d.Iron.Pwm_Out > d.Iron.Pwm_Limit →
        handleIron K inp s = Outcome.halt Halt.Error_Handler d := by
  obtain ⟨s0, h0, hrun⟩ := hr
  constructor
  · apply run_keeps_limit K ops s0 s hrun
    have e : (ironInit K h boot).state = s0 := by rw [h0]; rfl
    rw [← e, ironInit_Pwm_Out, hboot]
    exact Nat.zero_le _
  · intro inp d h1 h2 h3 h4
    unfold handleIron
    simp [h1, h2, h3, h4]

/-- C1 on the demo station: after a tick, a change of the ADC delay and a second tick the duty
is 4999 under a limit of 16939, and a PID block asking for twice the duty halts the next tick. -/
theorem pwm_out_le_pwm_limit_witness :
    limitState.Iron.Pwm_Out = 4999 ∧ limitState.Iron.Pwm_Limit = 16939
    ∧ limitState.Iron.Pwm_Out ≤ limitState.Iron.Pwm_Limit
    ∧ (handleIron demoBoard (demoInputs 1400 25 pidOver) limitState).halted
        = some Halt.Error_Handler :=
  have w := pwm_out_le_pwm_limit demoBoard demoInit demoBoot limitOps limitState rfl
    ⟨demoStart, rfl, rfl⟩
  ⟨by decide, by decide, w.1,
    congrArg Outcome.halted
      (w.2 (demoInputs 1400 25 pidOver)
        ((dutyState demoBoard (demoInputs 1400 25 pidOver) limitState).getD limitState)
        (by decide) (by decide) rfl (by decide))⟩

/-! ## C2: invariant I2 -/

/-- C2 (I2): starting from globals with `Pwm_Out = 0` (they are zero-initialised), in every
state reached after `ironInit` by ticks, `SetFailState` and the other public calls, if the
failure flag is set or the handle is absent then `Pwm_Out = 0`. -/
theorem fail_or_absent_pwm_zero (K : Board) (h : InitInputs) (boot : Sys) (ops : List Op)
    (s : Sys) (hboot : boot.Iron.Pwm_Out = 0) (hr : Reached K h boot ops s)
    (hf : s.Iron.FailState = true ∨ s.Iron.presence = Presence.notPresent) :
    s.Iron.Pwm_Out = 0 := by
  obtain ⟨s0, h0, hrun⟩ := hr
  have e : (ironInit K h boot).state = s0 := by rw [h0]; rfl
  have q0 : Quiet s0 := by
    intro _
    rw [← e, ironInit_Pwm_Out, hboot]
  exact run_keeps_quiet K ops s0 s hrun q0 hf

/-- C2 on the demo station: the heater is driven at 4999, the handle is pulled, and the state
after the next ticks has the handle absent and a duty of 0. -/
theorem fail_or_absent_pwm_zero_witness :
    (run demoBoard (pullOps.take 1) demoStart).state.Iron.Pwm_Out = 4999
    ∧ pullState.Iron.presence = Presence.notPresent ∧ pullState.Iron.Pwm_Out = 0 :=
  ⟨by decide, by decide,
    fail_or_absent_pwm_zero demoBoard demoInit demoBoot pullOps pullState rfl
      ⟨demoStart, rfl, rfl⟩ (Or.inr (by decide))⟩

/-! ## C3: invariant I3 fails through `setSetTemperature` -/

/-- C3 (I3 fails): on the demo station the stand puts the iron to sleep, which loads a setpoint
of 0; `setSetTemperature 350` then writes 350 into `CurrentSetTemperature` while
`CurrentMode` stays `mode_sleep`, and the next full tick drives the heater. -/
theorem sleep_setpoint_overwritten :
    (run demoBoard (sleepDialOps.take 2) demoStart).state.Iron.CurrentMode = demoBoard.mode_sleep
    ∧ (run demoBoard (sleepDialOps.take 2) demoStart).state.Iron.CurrentSetTemperature = 0
    ∧ (run demoBoard (sleepDialOps.take 3) demoStart).state.Iron.CurrentMode
        = demoBoard.mode_sleep
    ∧ (run demoBoard (sleepDialOps.take 3) demoStart).state.Iron.CurrentSetTemperature = 350
    ∧ (run demoBoard sleepDialOps demoStart).halted = none
    ∧ (run demoBoard sleepDialOps demoStart).state.Iron.CurrentMode = demoBoard.mode_sleep
    ∧ (run demoBoard sleepDialOps demoStart).state.Iron.Pwm_Out = 4999 := by
  refine ⟨?_, ?_, ?_, ?_, ?_, ?_, ?_⟩ <;> decide

/-! ## C4: invariant I4 -/

/-- C4 (I4): `runaway_triggered` is absorbing.  No public call and no `ironInit` changes
`RunawayStatus` from triggered to anything else, and a tick that finds the status ok and leaves
it triggered has stopped in `FatalError` in that same call. -/
theorem runaway_triggered_absorbing (K : Board) :
    (∀ (op : Op) (s : Sys), s.Iron.RunawayStatus = RunawayStatus.runaway_triggered →
        (step K op s).state.Iron.RunawayStatus = RunawayStatus.runaway_triggered)
    ∧ (∀ (h : InitInputs) (s : Sys), s.Iron.RunawayStatus = RunawayStatus.runaway_triggered →
        (ironInit K h s).state.Iron.RunawayStatus = RunawayStatus.runaway_triggered)
    ∧ (∀ (inp : Inputs) (s : Sys), s.Iron.RunawayStatus = RunawayStatus.runaway_ok →
        (handleIron K inp s).state.Iron.RunawayStatus = RunawayStatus.runaway_triggered →
        ∃ code, (handleIron K inp s).halted = some (Halt.FatalError code)) := by
  refine ⟨?_, ?_, ?_⟩
  · intro op s hs
    rcases step_status K op s with ⟨_, h⟩ | ⟨_, h⟩
    · rw [h, hs]
    · exact h
  · intro h s hs
    rw [ironInit_RunawayStatus, hs]
  · intro inp s hs hpost
    rcases handleIron_status K inp s with ⟨_, h⟩ | ⟨h, _⟩
    · rw [h, hs] at hpost
      cases hpost
    · exact h

/-- C4 on the demo station: the tick 3001 ms after the first detection of an 80 degree overrun
sets the status and stops in `FatalError`, and from that state `setCurrentMode`, `SetFailState`
and `ironInit` leave the status triggered. -/
theorem runaway_triggered_absorbing_witness :
    overheatState.Iron.RunawayStatus = RunawayStatus.runaway_ok
    ∧ (handleIron demoBoard (demoInputs 4001 380 pidHalf) overheatState).state.Iron.RunawayStatus
        = RunawayStatus.runaway_triggered
    ∧ (∃ code, (handleIron demoBoard (demoInputs 4001 380 pidHalf) overheatState).halted
        = some (Halt.FatalError code))
    ∧ (step demoBoard (Op.SetFailState false)
        (handleIron demoBoard (demoInputs 4001 380 pidHalf) overheatState).state).state.Iron.RunawayStatus
        = RunawayStatus.runaway_triggered
    ∧ (ironInit demoBoard demoInit
        (handleIron demoBoard (demoInputs 4001 380 pidHalf) overheatState).state).state.Iron.RunawayStatus
        = RunawayStatus.runaway_triggered :=
  have w := runaway_triggered_absorbing demoBoard
  ⟨by decide, by decide,
    w.2.2 (demoInputs 4001 380 pidHalf) overheatState (by decide) (by decide),
    w.1 (Op.SetFailState false) _ (by decide),
    w.2.1 demoInit _ (by decide)⟩

/-! ## C5: runaway tier classification -/

/-- C5: on a tick that reaches the supervisor (not short-circuited, not held back by the PID
period, duty `d.Iron.Pwm_Out` within the limit) and enters it (duty positive, status ok, debug
off, tip above the setpoint), the tier left in `RunawayLevel` is the one the specification
names: 500 above the absolute limit, otherwise the highest of 100, 75, 50, 25 whose margin of
4, 3, 2, 1 steps is exceeded, otherwise ok; the step is 25 and the limit 500 in Celsius, 45 and
950 in Fahrenheit. -/
theorem runaway_tier_classification (K : Board) (inp : Inputs) (s d : Sys)
    (h1 : flagsActive (entryState K inp s) = false)
    (h2 : pidHold inp (modeState K inp s) = false)
    (h3 : dutyState K inp s = some d) (h4 : d.Iron.Pwm_Out ≤ d.Iron.Pwm_Limit)
    (hp : 0 < d.Iron.Pwm_Out) (hst : d.Iron.RunawayStatus = RunawayStatus.runaway_ok)
    (hdb : d.Iron.DebugMode = DebugMode.debug_Off)
    (ht : inp.readTipTemperatureCompensated > d.Iron.CurrentSetTemperature) :
    (handleIron K inp s).state.Iron.RunawayLevel
      = specTier d.systemSettings.settings.tempUnit inp.readTipTemperatureCompensated
          d.Iron.CurrentSetTemperature := by
  have he := runawayEntry_reachedCheck inp d hp hst hdb ht
  have ht2 : inp.readTipTemperatureCompensated > (reachedCheck inp d).Iron.CurrentSetTemperature :=
    by rw [reachedCheck_CurrentSetTemperature]; exact ht
  have hT := runawayTier_eq_specTier inp (reachedCheck inp d) ht2
  rw [reachedCheck_systemSettings, reachedCheck_CurrentSetTemperature] at hT
  rw [handleIron_full K inp s d h1 h2 h3 h4, ← hT]
  by_cases h0 : runawayTier inp (reachedCheck inp d) = runaway_ok
  · rw [runawayCheck_clear inp _ he h0]
    rfl
  · by_cases hprev : (reachedCheck inp d).Iron.prevRunawayLevel = runaway_ok
    · rw [runawayCheck_first inp _ he h0 hprev]
      rfl
    · have h5 : runawayTier inp (reachedCheck inp d) ≤ 5 := by
        rw [hT]
        exact specTier_le _ _ _
      rw [runawayCheck_continuing inp _ he h0 h5 hprev, runawayCase_RunawayLevel]

/-- C5 on the demo station: setpoint 300, tip 380, Celsius: the tick classifies the overrun as
tier 75, and the specification's formula gives the same tier. -/
theorem runaway_tier_classification_witness :
    (handleIron demoBoard (demoInputs 1000 380 pidHalf) demoStart).state.Iron.RunawayLevel
      = runaway_75
    ∧ (handleIron demoBoard (demoInputs 1000 380 pidHalf) demoStart).state.Iron.RunawayLevel
      = specTier TempUnit.mode_Celsius 380 300 :=
  ⟨by decide,
    runaway_tier_classification demoBoard (demoInputs 1000 380 pidHalf) demoStart
      ((dutyState demoBoard (demoInputs 1000 380 pidHalf) demoStart).getD demoStart)
      (by decide) (by decide) rfl (by decide) (by decide) (by decide) (by decide) (by decide)⟩

/-! ## C6: runaway trip timing -/

/-- C6: on a tick that reaches and enters the supervisor with a tier other than ok (tier as in
C5, computed on the state `d` at line 192), if `prevRunawayLevel` was ok the tick returns with
no trip, `prevRunawayLevel` set to the tier and `RunawayTimer` set to now; otherwise the tick
stops in `FatalError` with the code of the current tier and `RunawayStatus` triggered if and
only if `now - RunawayTimer` (32-bit) exceeds the limit of the tier, and when it does not the
tick returns with status, previous tier and timer unchanged. -/
theorem runaway_trip_timing (K : Board) (inp : Inputs) (s d : Sys)
    (h1 : flagsActive (entryState K inp s) = false)
    (h2 : pidHold inp (modeState K inp s) = false)
    (h3 : dutyState K inp s = some d) (h4 : d.Iron.Pwm_Out ≤ d.Iron.Pwm_Limit)
    (hp : 0 < d.Iron.Pwm_Out) (hst : d.Iron.RunawayStatus = RunawayStatus.runaway_ok)
    (hdb : d.Iron.DebugMode = DebugMode.debug_Off)
    (ht : inp.readTipTemperatureCompensated > d.Iron.CurrentSetTemperature)
    (htier : specTier d.systemSettings.settings.tempUnit inp.readTipTemperatureCompensated
      d.Iron.CurrentSetTemperature ≠ runaway_ok) :
    (s.Iron.prevRunawayLevel = runaway_ok →
        (handleIron K inp s).halted = none
        ∧ (handleIron K inp s).state.Iron.prevRunawayLevel
            = specTier d.systemSettings.settings.tempUnit inp.readTipTemperatureCompensated
                d.Iron.CurrentSetTemperature
        ∧ (handleIron K inp s).state.Iron.RunawayTimer = inp.HAL_GetTick
        ∧ (handleIron K inp s).state.Iron.RunawayStatus = RunawayStatus.runaway_ok)
    ∧ (s.Iron.prevRunawayLevel ≠ runaway_ok →
        (((handleIron K inp s).halted
              = some (Halt.FatalError (specErrorCode
                  (specTier d.systemSettings.settings.tempUnit
                    inp.readTipTemperatureCompensated d.Iron.CurrentSetTemperature)))
            ∧ (handleIron K inp s).state.Iron.RunawayStatus = RunawayStatus.runaway_triggered)
          ↔ sub32 inp.HAL_GetTick s.Iron.RunawayTimer
              > specTimeLimit (specTier d.systemSettings.settings.tempUnit
                  inp.readTipTemperatureCompensated d.Iron.CurrentSetTemperature))
        ∧ (¬ sub32 inp.HAL_GetTick s.Iron.RunawayTimer
              > specTimeLimit (specTier d.systemSettings.settings.tempUnit
                  inp.readTipTemperatureCompensated d.Iron.CurrentSetTemperature) →
            (handleIron K inp s).halted = none
            ∧ (handleIron K inp s).state.Iron.RunawayStatus = RunawayStatus.runaway_ok
            ∧ (handleIron K inp s).state.Iron.prevRunawayLevel = s.Iron.prevRunawayLevel
            ∧ (handleIron K inp s).state.Iron.RunawayTimer = s.Iron.RunawayTimer)) := by
  have he := runawayEntry_reachedCheck inp d hp hst hdb ht
  have ht2 : inp.readTipTemperatureCompensated > (reachedCheck inp d).Iron.CurrentSetTemperature :=
    by rw [reachedCheck_CurrentSetTemperature]; exact ht
  have hT := runawayTier_eq_specTier inp (reachedCheck inp d) ht2
  rw [reachedCheck_systemSettings, reachedCheck_CurrentSetTemperature] at hT
  rw [← hT] at htier ⊢
  have hprevd : (reachedCheck inp d).Iron.prevRunawayLevel = s.Iron.prevRunawayLevel := by
    rw [reachedCheck_prevRunawayLevel, dutyState_prevRunawayLevel K inp s d h3]
  have htimd : (reachedCheck inp d).Iron.RunawayTimer = s.Iron.RunawayTimer := by
    rw [reachedCheck_RunawayTimer, dutyState_RunawayTimer K inp s d h3]
  have hstd : (reachedCheck inp d).Iron.RunawayStatus = RunawayStatus.runaway_ok := by
    rw [reachedCheck_RunawayStatus, hst]
  rw [handleIron_full K inp s d h1 h2 h3 h4]
  constructor
  · intro hprev
    rw [runawayCheck_first inp _ he htier (hprevd.trans hprev)]
    exact ⟨rfl, rfl, rfl, hstd⟩
  · intro hprev
    have h5 : runawayTier inp (reachedCheck inp d) ≤ 5 := by
      rw [hT]
      exact specTier_le _ _ _
    rw [runawayCheck_continuing inp _ he htier h5 (by rw [hprevd]; exact hprev)]
    unfold runawayCase
    simp only [htimd]
    by_cases hlim : sub32 inp.HAL_GetTick s.Iron.RunawayTimer
        > specTimeLimit (runawayTier inp (reachedCheck inp d))
    · rw [if_pos hlim]
      exact ⟨⟨fun _ => hlim, fun _ => ⟨rfl, rfl⟩⟩, fun hn => absurd hlim hn⟩
    · rw [if_neg hlim]
      refine ⟨⟨fun hh => ?_, fun hh => absurd hh hlim⟩, fun _ => ⟨rfl, hstd, hprevd, rfl⟩⟩
      have := hh.1
      simp [Outcome.halted] at this

/-- C6 on the demo station: setpoint 300, tip 380.  The overrun is first seen at 1000 ms; the
tick at 4001 ms, 3001 ms later, stops in `FatalError(error_RUNAWAY75)` with the status
triggered, while the tick at 4000 ms would have returned. -/
theorem runaway_trip_timing_witness :
    overheatState.Iron.prevRunawayLevel = runaway_75
    ∧ overheatState.Iron.RunawayTimer = 1000
    ∧ ((handleIron demoBoard (demoInputs 4001 380 pidHalf) overheatState).halted
          = some (Halt.FatalError ErrorCode.error_RUNAWAY75)
        ∧ (handleIron demoBoard (demoInputs 4001 380 pidHalf) overheatState).state.Iron.RunawayStatus
          = RunawayStatus.runaway_triggered)
    ∧ (handleIron demoBoard (demoInputs 4000 380 pidHalf) overheatState).halted = none :=
  ⟨by decide, by decide,
    ((runaway_trip_timing demoBoard (demoInputs 4001 380 pidHalf) overheatState
      ((dutyState demoBoard (demoInputs 4001 380 pidHalf) overheatState).getD overheatState)
      (by decide) (by decide) rfl (by decide) (by decide) (by decide) (by decide) (by decide)
      (by decide)).2 (by decide)).1.mpr (by decide),
    by decide⟩

/-! ## C7: debounce lower bound, last request wins -/

/-- C8 (as the code has it): on a tick that is not short-circuited by the failure state or by
absence, if a request is pending and `now - LastModeChangeTime` (32-bit) is greater than 500,
the pending flag is cleared and `setCurrentMode(changeMode, noForceMode)` is applied in that
tick: the debounce block is exactly that call, it leaves `CurrentMode = changeMode` at line
123, and the tick ends with no request pending.  The tick also ends with
`CurrentMode = changeMode` when that mode is not run, or when the clock has not advanced
between line 69 and the reading of `setCurrentMode` (line 377). -/
theorem debounce_applied_after_500 (K : Board) (inp : Inputs) (s : Sys)
    (h1 : flagsActive (entryState K inp s) = false)
    (hp : s.Iron.updateMode = UpdateFlag.needs_update)
    (ht : sub32 inp.HAL_GetTick s.Iron.LastModeChangeTime > 500) :
    standDebounce K inp (entryState K inp s)
        = setCurrentMode K inp.HAL_GetTick_standMode s.Iron.changeMode false
            { entryState K inp s with Iron.updateMode := UpdateFlag.no_update }
    ∧ (handleIron K inp s).state.Iron.updateMode = UpdateFlag.no_update
    ∧ (standDebounce K inp (entryState K inp s)).Iron.CurrentMode = s.Iron.changeMode
    ∧ (s.Iron.changeMode ≠ K.mode_run ∨ inp.HAL_GetTick_standMode = inp.HAL_GetTick →
        (handleIron K inp s).state.Iron.CurrentMode = s.Iron.changeMode) :=
  handleIron_debounce K inp s h1 hp ht

/-- C8 on the demo station: sleep requested at 1390 ms in run mode; the tick at 1891 ms clears
the flag and puts the iron to sleep. -/
theorem debounce_applied_after_500_witness :
    sleepRequested.Iron.CurrentMode = 1
    ∧ (handleIron demoBoard (demoInputs 1891 25 pidHalf) sleepRequested).state.Iron.updateMode
        = UpdateFlag.no_update
    ∧ (standDebounce demoBoard (demoInputs 1891 25 pidHalf)
        (entryState demoBoard (demoInputs 1891 25 pidHalf) sleepRequested)).Iron.CurrentMode
        = sleepRequested.Iron.changeMode
    ∧ (handleIron demoBoard (demoInputs 1891 25 pidHalf) sleepRequested).state.Iron.CurrentMode
        = sleepRequested.Iron.changeMode
    ∧ (handleIron demoBoard (demoInputs 1891 25 pidHalf) sleepRequested).state.Iron.CurrentMode
        = 0 :=
  have w := debounce_applied_after_500 demoBoard (demoInputs 1891 25 pidHalf) sleepRequested
    (by decide) (by decide) (by decide)
  ⟨by decide, w.2.1, w.2.2.1, w.2.2.2 (Or.inl (by decide)), by decide⟩

/-- C8 as stated fails at exactly 500 ms: on the demo station, sleep requested at 1390 ms, the
tick at 1890 ms is not short-circuited, finds the request pending with
`now - LastModeChangeTime = 500`, and still leaves the request pending and the iron in run
mode. -/
theorem debounce_not_applied_at_500 :
    flagsActive (entryState demoBoard (demoInputs 1890 25 pidHalf) sleepRequested) = false
    ∧ sleepRequested.Iron.updateMode = UpdateFlag.needs_update
    ∧ sleepRequested.Iron.changeMode = demoBoard.mode_sleep
    ∧ sub32 (demoInputs 1890 25 pidHalf).HAL_GetTick sleepRequested.Iron.LastModeChangeTime = 500
    ∧ (handleIron demoBoard (demoInputs 1890 25 pidHalf) sleepRequested).state.Iron.updateMode
        = UpdateFlag.needs_update
    ∧ (handleIron demoBoard (demoInputs 1890 25 pidHalf) sleepRequested).state.Iron.CurrentMode
        = demoBoard.mode_run := by
  refine ⟨?_, ?_, ?_, ?_, ?_, ?_⟩ <;> decide

/-! ## C9: power limiter duty ceiling -/

/-- C9 (as the code has it): on a tick with positive PID output and `impedance > 0`, lines
166-191 never divide by zero and store in `Pwm_Max` a value that is at most `Pwm_Limit`, for
every supply voltage, power limit and period; and when the supply reading, the power limit and
the period are 16-bit values (so that no 32-bit product wraps) that value is the
specification's `pwm_max`: `Pwm_Limit` when `power >= max_power`, else
`min(pwmPeriod * power / max_power, Pwm_Limit)`, with `v2 = V*V/10` replaced by 1 when 0 and
`max_power = v2 / impedance`. -/
theorem power_limit_ceiling (inp : Inputs) (s : Sys)
    (hset : (pidSet inp s).ne_zero = true)
    (himp : 0 < s.systemSettings.Profile.impedance) :
    ∃ d, pwmDuty inp s = some d
      ∧ d.Iron.Pwm_Max ≤ s.Iron.Pwm_Limit
      ∧ (inp.getSupplyVoltage_v_x10 < 65536 → s.systemSettings.Profile.power < 65536 →
          s.systemSettings.Profile.pwmPeriod < 65536 →
          d.Iron.Pwm_Max
            = specPwmMax inp.getSupplyVoltage_v_x10 s.systemSettings.Profile.impedance
                s.systemSettings.Profile.power s.systemSettings.Profile.pwmPeriod
                s.Iron.Pwm_Limit) := by
  obtain ⟨d, hd, hm⟩ := pwmDuty_Pwm_Max inp s hset himp
  obtain ⟨m, hm2, hle⟩ := powerLimit_le inp.getSupplyVoltage_v_x10
    s.systemSettings.Profile.impedance s.systemSettings.Profile.power
    s.systemSettings.Profile.pwmPeriod s.Iron.Pwm_Limit himp
  refine ⟨d, hd, ?_, ?_⟩
  · rw [hm] at hm2
    cases hm2
    exact hle
  · intro hv hpow hper
    have hs := powerLimit_eq_spec inp.getSupplyVoltage_v_x10
      s.systemSettings.Profile.impedance s.systemSettings.Profile.power
      s.systemSettings.Profile.pwmPeriod s.Iron.Pwm_Limit himp hv hpow hper
    rw [hm] at hs
    exact Option.some.inj hs

/-- C9 on the demo station: 20.0 V, 8.0 ohm, 25 W, period 19999, limit 17940: `max_power` is
50 W and `Pwm_Max` is `19999 * 25 / 50 = 9999`, half the period. -/
theorem power_limit_ceiling_witness :
    specPwmMax 200 80 25 19999 17940 = 9999
    ∧ 200 * 200 / 10 / 80 = 50
    ∧ ∃ d, pwmDuty (demoInputs 1000 25 pidHalf) demoStart = some d
        ∧ d.Iron.Pwm_Max ≤ demoStart.Iron.Pwm_Limit
        ∧ ((demoInputs 1000 25 pidHalf).getSupplyVoltage_v_x10 < 65536 →
            demoStart.systemSettings.Profile.power < 65536 →
            demoStart.systemSettings.Profile.pwmPeriod < 65536 →
            d.Iron.Pwm_Max
              = specPwmMax (demoInputs 1000 25 pidHalf).getSupplyVoltage_v_x10
                  demoStart.systemSettings.Profile.impedance
                  demoStart.systemSettings.Profile.power
                  demoStart.systemSettings.Profile.pwmPeriod demoStart.Iron.Pwm_Limit) :=
  ⟨by decide, by decide,
    power_limit_ceiling (demoInputs 1000 25 pidHalf) demoStart (by decide) (by decide)⟩

/-- C9 as stated fails for a supply reading of 65536 (a `uint32_t`): `volts*volts` wraps to 0
and is replaced by 1, `maxPower` is 0 and the code leaves `Pwm_Max = Pwm_Limit = 17940`, where
the formula of the claim gives `max_power = 5368709` and `pwm_max = 0`. -/
theorem power_limit_wraps :
    powerLimit 65536 80 25 19999 17940 = some 17940
    ∧ specPwmMax 65536 80 25 19999 17940 = 0 := by
  constructor <;> decide

/-! ## C10: PWM timing setters -/

/-- C10: `setPwmDelay d` returns false exactly when `d < pwmPeriod`, and then stores `d` in
`Profile.pwmDelay` and marks `updatePwm` pending, changing nothing else; otherwise it returns
true and leaves the whole state unchanged.  `setPwmPeriod p` does the same with the test
`pwmDelay < p` and the field `Profile.pwmPeriod`. -/
theorem pwm_setters_guard (s : Sys) (d p : Nat) :
    ((setPwmDelay d s).1 = false ↔ d < s.systemSettings.Profile.pwmPeriod)
    ∧ (d < s.systemSettings.Profile.pwmPeriod →
        setPwmDelay d s
          = (false, { s with systemSettings.Profile.pwmDelay := d,
                             Iron.updatePwm := UpdateFlag.needs_update }))
    ∧ (¬ d < s.systemSettings.Profile.pwmPeriod → setPwmDelay d s = (true, s))
    ∧ ((setPwmPeriod p s).1 = false ↔ s.systemSettings.Profile.pwmDelay < p)
    ∧ (s.systemSettings.Profile.pwmDelay < p →
        setPwmPeriod p s
          = (false, { s with systemSettings.Profile.pwmPeriod := p,
                             Iron.updatePwm := UpdateFlag.needs_update }))
    ∧ (¬ s.systemSettings.Profile.pwmDelay < p → setPwmPeriod p s = (true, s)) := by
  unfold setPwmDelay setPwmPeriod
  refine ⟨?_, ?_, ?_, ?_, ?_, ?_⟩
  · by_cases h : s.systemSettings.Profile.pwmPeriod > d
    · simp [h]
    · simp [h]
  · intro h
    rw [if_pos h]
  · intro h
    rw [if_neg h]
  · by_cases h : s.systemSettings.Profile.pwmDelay < p
    · simp [h]
    · simp [h]
  · intro h
    rw [if_pos h]
  · intro h
    rw [if_neg h]

/-- C10 on the demo station (period 19999, delay 1999): a delay of 3000 is accepted and stored,
a delay of 19999 is rejected, a period of 1999 is rejected, and both rejections leave the state
as it was. -/
theorem pwm_setters_guard_witness :
    (setPwmDelay 3000 demoStart).1 = false
    ∧ (setPwmDelay 3000 demoStart).2.systemSettings.Profile.pwmDelay = 3000
    ∧ (setPwmDelay 3000 demoStart).2.Iron.updatePwm = UpdateFlag.needs_update
    ∧ setPwmDelay 19999 demoStart = (true, demoStart)
    ∧ setPwmPeriod 1999 demoStart = (true, demoStart) :=
  have w := pwm_setters_guard demoStart 19999 1999
  ⟨by decide, by decide, by decide, w.2.2.1 (by decide), w.2.2.2.2.2 (by decide)⟩

/-! ## What each block appends to the trace -/

@[simp] theorem emit_events (e : Event) (s : Sys) : (emit e s).events = s.events ++ [e] := rfl

@[simp] theorem emit_temperatureReachedCallbacks (e : Event) (s : Sys) :
    (emit e s).temperatureReachedCallbacks = s.temperatureReachedCallbacks := rfl

@[simp] theorem emit_currentModeChangedCallbacks (e : Event) (s : Sys) :
    (emit e s).currentModeChangedCallbacks = s.currentModeChangedCallbacks := rfl

/-- An effective `setCurrentMode`: the state it leaves. -/
theorem setCurrentMode_effective (K : Board) (now m : Nat) (f : Bool) (s : Sys)
    (h : s.Iron.CurrentMode ≠ m ∨ f = true) :
    (setCurrentMode K now m f s).Iron.CurrentMode = m
    ∧ (setCurrentMode K now m f s).Iron.CurrentSetTemperature
        = (if m = K.mode_run then s.systemSettings.Profile.UserSetTemperature else 0)
    ∧ (setCurrentMode K now m f s).Iron.Cal_TemperatureReachedFlag = 0
    ∧ (setCurrentMode K now m f s).events = s.events ++ modeCalls K m s := by
  unfold setCurrentMode modeChanged emit modeCalls
  simp only []
  rw [if_pos h]
  by_cases hr : m = K.mode_run
  · simp [hr]
  · simp [hr]

/-- A `setCurrentMode` without effect refreshes the mode timer and nothing else. -/
theorem setCurrentMode_same (K : Board) (now m : Nat) (s : Sys) (h : s.Iron.CurrentMode = m) :
    setCurrentMode K now m false s = { s with Iron.CurrentModeTimer := now } := by
  unfold setCurrentMode
  simp [h]

@[simp] theorem setCurrentMode_temperatureReachedCallbacks (K : Board) (now m : Nat) (f : Bool)
    (s : Sys) :
    (setCurrentMode K now m f s).temperatureReachedCallbacks = s.temperatureReachedCallbacks := by
  unfold setCurrentMode modeChanged emit
  simp only []
  split_ifs <;> rfl

@[simp] theorem setCurrentMode_currentModeChangedCallbacks (K : Board) (now m : Nat) (f : Bool)
    (s : Sys) :
    (setCurrentMode K now m f s).currentModeChangedCallbacks = s.currentModeChangedCallbacks := by
  unfold setCurrentMode modeChanged emit
  simp only []
  split_ifs <;> rfl

@[simp] theorem profileGuard_events (s : Sys) : (profileGuard s).events = s.events := by
  unfold profileGuard SetFailState GetFailState
  simp only []
  split_ifs <;> rfl

theorem settingsWatch_events (inp : Inputs) (s : Sys) :
    (settingsWatch inp s).events = s.events
    ∨ (settingsWatch inp s).events = s.events ++ [Event.saveSettings] := by
  unfold settingsWatch saveSettings emit
  simp only []
  split_ifs <;> simp

@[simp] theorem idle_events (inp : Inputs) (s : Sys) : (idle inp s).events = s.events := by
  unfold idle
  simp only []
  split_ifs <;> rfl

/-- The present-to-absent transition of `checkIronPresence` (lines 434-440). -/
theorem checkIronPresence_disconnect (K : Board) (inp : Inputs) (s : Sys)
    (hc : inp.TIP_last_RawAvg > s.systemSettings.Profile.noIronValue
      ∨ inp.readColdJunctionSensorTemp_x10 < -600)
    (hp : s.Iron.presence = Presence.isPresent) :
    (checkIronPresence K inp s).Iron.presence = Presence.notPresent
    ∧ (checkIronPresence K inp s).Iron.LastNoPresentTime = inp.HAL_GetTick_presence
    ∧ (checkIronPresence K inp s).Iron.CurrentMode = K.mode_sleep
    ∧ (checkIronPresence K inp s).Iron.CurrentSetTemperature = 0
    ∧ (checkIronPresence K inp s).Iron.Pwm_Out = 0
    ∧ (checkIronPresence K inp s).events
        = s.events ++ modeCalls K K.mode_sleep s ++ [Event.buzzer_alarm_start] := by
  unfold checkIronPresence
  simp only []
  rw [if_pos hc, if_pos hp]
  obtain ⟨a, b, _, d⟩ := setCurrentMode_effective K inp.HAL_GetTick_presenceMode K.mode_sleep
    true
    { s with Iron.LastNoPresentTime := inp.HAL_GetTick_presence,
             Iron.presence := Presence.notPresent }
    (Or.inr rfl)
  refine ⟨?_, ?_, ?_, ?_, ?_, ?_⟩
  · simp
  · simp
  · simpa using a
  · have hne : K.mode_sleep ≠ K.mode_run := fun e => K.run_ne_sleep e.symm
    simpa [hne] using b
  · simp
  · simp only [emit_events]
    rw [d]
    rfl

/-! ## `Pwm_Max` is written by the power limiter only -/

@[simp] theorem setCurrentMode_Pwm_Max (K : Board) (now m : Nat) (f : Bool) (s : Sys) :
    (setCurrentMode K now m f s).Iron.Pwm_Max = s.Iron.Pwm_Max := by
  unfold setCurrentMode modeChanged emit
  simp only []
  split_ifs <;> rfl

@[simp] theorem profileGuard_Pwm_Max (s : Sys) :
    (profileGuard s).Iron.Pwm_Max = s.Iron.Pwm_Max := by
  unfold profileGuard SetFailState GetFailState
  simp only []
  split_ifs <;> rfl

@[simp] theorem settingsWatch_Pwm_Max (inp : Inputs) (s : Sys) :
    (settingsWatch inp s).Iron.Pwm_Max = s.Iron.Pwm_Max := by
  unfold settingsWatch saveSettings emit
  simp only []
  split_ifs <;> rfl

@[simp] theorem checkIronPresence_Pwm_Max (K : Board) (inp : Inputs) (s : Sys) :
    (checkIronPresence K inp s).Iron.Pwm_Max = s.Iron.Pwm_Max := by
  unfold checkIronPresence emit
  simp only []
  split_ifs <;> simp

@[simp] theorem entryState_Pwm_Max (K : Board) (inp : Inputs) (s : Sys) :
    (entryState K inp s).Iron.Pwm_Max = s.Iron.Pwm_Max := by
  simp [entryState]

@[simp] theorem idle_Pwm_Max (inp : Inputs) (s : Sys) :
    (idle inp s).Iron.Pwm_Max = s.Iron.Pwm_Max := by
  unfold idle
  simp only []
  split_ifs <;> rfl

/-! ## The callback lists are written by the registration functions only -/

@[simp] theorem checkIronPresence_currentModeChangedCallbacks (K : Board) (inp : Inputs) (s : Sys) :
    (checkIronPresence K inp s).currentModeChangedCallbacks = s.currentModeChangedCallbacks := by
  unfold checkIronPresence
  simp only []
  split_ifs <;> simp

@[simp] theorem profileGuard_currentModeChangedCallbacks (s : Sys) :
    (profileGuard s).currentModeChangedCallbacks = s.currentModeChangedCallbacks := by
  unfold profileGuard SetFailState GetFailState
  simp only []
  split_ifs <;> rfl

@[simp] theorem settingsWatch_currentModeChangedCallbacks (inp : Inputs) (s : Sys) :
    (settingsWatch inp s).currentModeChangedCallbacks = s.currentModeChangedCallbacks := by
  unfold settingsWatch saveSettings emit
  simp only []
  split_ifs <;> rfl

@[simp] theorem entryState_currentModeChangedCallbacks (K : Board) (inp : Inputs) (s : Sys) :
    (entryState K inp s).currentModeChangedCallbacks = s.currentModeChangedCallbacks := by
  simp [entryState]

@[simp] theorem idle_currentModeChangedCallbacks (inp : Inputs) (s : Sys) :
    (idle inp s).currentModeChangedCallbacks = s.currentModeChangedCallbacks := by
  unfold idle
  simp only []
  split_ifs <;> rfl

@[simp] theorem standDebounce_currentModeChangedCallbacks (K : Board) (inp : Inputs) (s : Sys) :
    (standDebounce K inp s).currentModeChangedCallbacks = s.currentModeChangedCallbacks := by
  unfold standDebounce
  split_ifs <;> simp

@[simp] theorem sleepTimer_currentModeChangedCallbacks (K : Board) (inp : Inputs) (s : Sys) :
    (sleepTimer K inp s).currentModeChangedCallbacks = s.currentModeChangedCallbacks := by
  unfold sleepTimer
  split_ifs <;> simp

@[simp] theorem modeState_currentModeChangedCallbacks (K : Board) (inp : Inputs) (s : Sys) :
    (modeState K inp s).currentModeChangedCallbacks = s.currentModeChangedCallbacks := by
  simp [modeState]

@[simp] theorem applyPwm_currentModeChangedCallbacks (K : Board) (inp : Inputs) (s : Sys) :
    (applyPwm K inp s).currentModeChangedCallbacks = s.currentModeChangedCallbacks := by
  unfold applyPwm
  simp only []
  split_ifs <;> rfl

@[simp] theorem reachedCheck_currentModeChangedCallbacks (inp : Inputs) (s : Sys) :
    (reachedCheck inp s).currentModeChangedCallbacks = s.currentModeChangedCallbacks := by
  unfold reachedCheck temperatureReached
  simp only []
  split_ifs <;> rfl

@[simp] theorem runawayCase_currentModeChangedCallbacks (inp : Inputs) (l : Nat) (c : ErrorCode) (s : Sys) :
    ((runawayCase inp s l c).state).currentModeChangedCallbacks = s.currentModeChangedCallbacks := by
  unfold runawayCase
  split_ifs <;> rfl

@[simp] theorem runawaySwitch_currentModeChangedCallbacks (inp : Inputs) (s : Sys) :
    ((runawaySwitch inp s).state).currentModeChangedCallbacks = s.currentModeChangedCallbacks := by
  unfold runawaySwitch
  split_ifs <;> first | rfl | simp

@[simp] theorem runawayCheck_currentModeChangedCallbacks (inp : Inputs) (s : Sys) :
    ((runawayCheck inp s).state).currentModeChangedCallbacks = s.currentModeChangedCallbacks := by
  unfold runawayCheck
  simp only []
  split
  · split
    · split
      · rfl
      · simp
    · rfl
  · rfl

theorem pwmDuty_currentModeChangedCallbacks (inp : Inputs) (s d : Sys) (h : pwmDuty inp s = some d) :
    d.currentModeChangedCallbacks = s.currentModeChangedCallbacks := by
  unfold pwmDuty at h
  simp only [] at h
  split at h
  · split at h
    · exact absurd h (by simp)
    · cases h; rfl
  · cases h; rfl

@[simp] theorem checkIronPresence_temperatureReachedCallbacks (K : Board) (inp : Inputs) (s : Sys) :
    (checkIronPresence K inp s).temperatureReachedCallbacks = s.temperatureReachedCallbacks := by
  unfold checkIronPresence
  simp only []
  split_ifs <;> simp

@[simp] theorem profileGuard_temperatureReachedCallbacks (s : Sys) :
    (profileGuard s).temperatureReachedCallbacks = s.temperatureReachedCallbacks := by
  unfold profileGuard SetFailState GetFailState
  simp only []
  split_ifs <;> rfl

@[simp] theorem settingsWatch_temperatureReachedCallbacks (inp : Inputs) (s : Sys) :
    (settingsWatch inp s).temperatureReachedCallbacks = s.temperatureReachedCallbacks := by
  unfold settingsWatch saveSettings emit
  simp only []
  split_ifs <;> rfl

@[simp] theorem entryState_temperatureReachedCallbacks (K : Board) (inp : Inputs) (s : Sys) :
    (entryState K inp s).temperatureReachedCallbacks = s.temperatureReachedCallbacks := by
  simp [entryState]

@[simp] theorem idle_temperatureReachedCallbacks (inp : Inputs) (s : Sys) :
    (idle inp s).temperatureReachedCallbacks = s.temperatureReachedCallbacks := by
  unfold idle
  simp only []
  split_ifs <;> rfl

@[simp] theorem standDebounce_temperatureReachedCallbacks (K : Board) (inp : Inputs) (s : Sys) :
    (standDebounce K inp s).temperatureReachedCallbacks = s.temperatureReachedCallbacks := by
  unfold standDebounce
  split_ifs <;> simp

@[simp] theorem sleepTimer_temperatureReachedCallbacks (K : Board) (inp : Inputs) (s : Sys) :
    (sleepTimer K inp s).temperatureReachedCallbacks = s.temperatureReachedCallbacks := by
  unfold sleepTimer
  split_ifs <;> simp

@[simp] theorem modeState_temperatureReachedCallbacks (K : Board) (inp : Inputs) (s : Sys) :
    (modeState K inp s).temperatureReachedCallbacks = s.temperatureReachedCallbacks := by
  simp [modeState]

@[simp] theorem applyPwm_temperatureReachedCallbacks (K : Board) (inp : Inputs) (s : Sys) :
    (applyPwm K inp s).temperatureReachedCallbacks = s.temperatureReachedCallbacks := by
  unfold applyPwm
  simp only []
  split_ifs <;> rfl

@[simp] theorem reachedCheck_temperatureReachedCallbacks (inp : Inputs) (s : Sys) :
    (reachedCheck inp s).temperatureReachedCallbacks = s.temperatureReachedCallbacks := by
  unfold reachedCheck temperatureReached
  simp only []
  split_ifs <;> rfl

@[simp] theorem runawayCase_temperatureReachedCallbacks (inp : Inputs) (l : Nat) (c : ErrorCode) (s : Sys) :
    ((runawayCase inp s l c).state).temperatureReachedCallbacks = s.temperatureReachedCallbacks := by
  unfold runawayCase
  split_ifs <;> rfl

@[simp] theorem runawaySwitch_temperatureReachedCallbacks (inp : Inputs) (s : Sys) :
    ((runawaySwitch inp s).state).temperatureReachedCallbacks = s.temperatureReachedCallbacks := by
  unfold runawaySwitch
  split_ifs <;> first | rfl | simp

@[simp] theorem runawayCheck_temperatureReachedCallbacks (inp : Inputs) (s : Sys) :
    ((runawayCheck inp s).state).temperatureReachedCallbacks = s.temperatureReachedCallbacks := by
  unfold runawayCheck
  simp only []
  split
  · split
    · split
      · rfl
      · simp
    · rfl
  · rfl

theorem pwmDuty_temperatureReachedCallbacks (inp : Inputs) (s d : Sys) (h : pwmDuty inp s = some d) :
    d.temperatureReachedCallbacks = s.temperatureReachedCallbacks := by
  unfold pwmDuty at h
  simp only [] at h
  split at h
  · split at h
    · exact absurd h (by simp)
    · cases h; rfl
  · cases h; rfl

@[simp] theorem applyPwm_events (K : Board) (inp : Inputs) (s : Sys) :
    (applyPwm K inp s).events = s.events := by
  unfold applyPwm
  simp only []
  split_ifs <;> rfl

@[simp] theorem runawayCase_events (inp : Inputs) (l : Nat) (c : ErrorCode) (s : Sys) :
    ((runawayCase inp s l c).state).events = s.events := by
  unfold runawayCase
  split_ifs <;> rfl

@[simp] theorem runawaySwitch_events (inp : Inputs) (s : Sys) :
    ((runawaySwitch inp s).state).events = s.events := by
  unfold runawaySwitch
  split_ifs <;> first | rfl | simp

@[simp] theorem runawayCheck_events (inp : Inputs) (s : Sys) :
    ((runawayCheck inp s).state).events = s.events := by
  unfold runawayCheck
  simp only []
  split
  · split
    · split
      · rfl
      · simp
    · rfl
  · rfl

theorem pwmDuty_events (inp : Inputs) (s d : Sys) (h : pwmDuty inp s = some d) :
    d.events = s.events := by
  unfold pwmDuty at h
  simp only [] at h
  split at h
  · split at h
    · exact absurd h (by simp)
    · cases h; rfl
  · cases h; rfl

/-- A tick leaves both callback lists as they were. -/
theorem handleIron_callbacks (K : Board) (inp : Inputs) (s : Sys) :
    (handleIron K inp s).state.currentModeChangedCallbacks = s.currentModeChangedCallbacks
    ∧ (handleIron K inp s).state.temperatureReachedCallbacks
        = s.temperatureReachedCallbacks := by
  rcases handleIron_cases K inp s with ⟨_, e⟩ | ⟨_, _, e⟩ | ⟨_, _, _, e⟩ | ⟨d, _, _, hd, _, e⟩
    | ⟨d, _, _, hd, _, e⟩
  · rw [e]
    simp [Outcome.state]
  · rw [e]
    simp [Outcome.state]
  · rw [e]
    simp [Outcome.state]
  · rw [e]
    unfold dutyState at hd
    simp only [Outcome.state]
    rw [pwmDuty_currentModeChangedCallbacks inp _ d hd,
      pwmDuty_temperatureReachedCallbacks inp _ d hd]
    simp
  · rw [e]
    unfold dutyState at hd
    simp only [runawayCheck_currentModeChangedCallbacks,
      runawayCheck_temperatureReachedCallbacks, reachedCheck_currentModeChangedCallbacks,
      reachedCheck_temperatureReachedCallbacks]
    rw [pwmDuty_currentModeChangedCallbacks inp _ d hd,
      pwmDuty_temperatureReachedCallbacks inp _ d hd]
    simp

/-- An empty list of mode-changed callbacks stays empty under every public call: the only
function that writes the list, `addModeChangedCallback`, does not write an empty one. -/
theorem step_modeCallbacks_empty (K : Board) (op : Op) (s : Sys)
    (h : s.currentModeChangedCallbacks = []) :
    (step K op s).state.currentModeChangedCallbacks = [] := by
  cases op with
  | handleIron inp =>
    simp only [step]
    rw [(handleIron_callbacks K inp s).1, h]
  | setSystemTempUnit now unit =>
    simp only [step, Outcome.state]
    unfold setSystemTempUnit
    simp only [setCurrentMode_currentModeChangedCallbacks]
    split_ifs <;> simpa using h
  | setPwmDelay delay =>
    simp only [step, Outcome.state]
    unfold setPwmDelay
    split_ifs <;> simpa using h
  | setPwmPeriod period =>
    simp only [step, Outcome.state]
    unfold setPwmPeriod
    split_ifs <;> simpa using h
  | setNoIronValue noiron => simpa [step, Outcome.state, setNoIronValue] using h
  | setModefromStand now mode => simpa [step, Outcome.state, setModefromStand] using h
  | setCurrentMode now mode forceMode => simpa [step, Outcome.state] using h
  | IronWake activity now source =>
    simp only [step, Outcome.state]
    unfold IronWake
    cases source
    · simp only []
      split_ifs <;> simpa using h
    · simpa using h
  | SetFailState FailState =>
    simp only [step, Outcome.state]
    unfold SetFailState
    simp only []
    split_ifs <;> simpa using h
  | setDebugTemp value => simpa [step, Outcome.state, setDebugTemp] using h
  | setDebugMode value => simpa [step, Outcome.state, setDebugMode] using h
  | setSetTemperature temperature =>
    simp only [step, Outcome.state]
    unfold setSetTemperature
    split_ifs <;> simpa using h
  | addSetTemperatureReachedCallback callback mallocOk =>
    simp only [step, addSetTemperatureReachedCallback]
    split_ifs <;> simpa [Outcome.state] using h
  | addModeChangedCallback callback mallocOk =>
    simp only [step, addModeChangedCallback]
    split_ifs
    · simpa [Outcome.state] using h
    · rw [h]
      simpa [Outcome.state] using h

/-- No run ever registers a mode-changed callback on an empty list. -/
theorem run_modeCallbacks_empty (K : Board) (ops : List Op) (s : Sys)
    (h : s.currentModeChangedCallbacks = []) :
    (run K ops s).state.currentModeChangedCallbacks = [] := by
  induction ops generalizing s with
  | nil => simpa [run, Outcome.state] using h
  | cons op ops ih =>
    unfold run
    have hs := step_modeCallbacks_empty K op s h
    cases hstep : step K op s with
    | ok s1 =>
      rw [hstep] at hs
      exact ih s1 hs
    | halt e s1 =>
      rw [hstep] at hs
      exact hs

/-! ## Runaway tracking: reset and first detection -/

/-- The negation of the entry condition of line 211, case by case. -/
theorem runawayEntry_eq_false (inp : Inputs) (s : Sys) :
    runawayEntry inp s = false ↔
      (s.Iron.Pwm_Out = 0 ∨ s.Iron.DebugMode = DebugMode.debug_On
        ∨ s.Iron.RunawayStatus = RunawayStatus.runaway_triggered
        ∨ inp.readTipTemperatureCompensated ≤ s.Iron.CurrentSetTemperature) := by
  unfold runawayEntry
  cases hd : s.Iron.DebugMode <;> cases hs : s.Iron.RunawayStatus <;>
    simp [Nat.not_lt, imp_iff_not_or]

/-- A tick whose supervisor sees a tier for the first time returns and starts the timer. -/
theorem handleIron_first_detection (K : Board) (inp : Inputs) (s d : Sys)
    (h1 : flagsActive (entryState K inp s) = false)
    (h2 : pidHold inp (modeState K inp s) = false)
    (h3 : dutyState K inp s = some d) (h4 : d.Iron.Pwm_Out ≤ d.Iron.Pwm_Limit)
    (he : runawayEntry inp d = true)
    (htier : runawayTier inp d ≠ runaway_ok)
    (hprev : s.Iron.prevRunawayLevel = runaway_ok) :
    (handleIron K inp s).halted = none
    ∧ (handleIron K inp s).state.Iron.RunawayTimer = inp.HAL_GetTick
    ∧ (handleIron K inp s).state.Iron.prevRunawayLevel = runawayTier inp d := by
  have he2 : runawayEntry inp (reachedCheck inp d) = true := by
    unfold runawayEntry at he ⊢
    simpa using he
  have ht2 : runawayTier inp (reachedCheck inp d) = runawayTier inp d := by
    unfold runawayTier TempStep TempLimit
    simp
  have hp2 : (reachedCheck inp d).Iron.prevRunawayLevel = runaway_ok := by
    rw [reachedCheck_prevRunawayLevel, dutyState_prevRunawayLevel K inp s d h3, hprev]
  rw [handleIron_full K inp s d h1 h2 h3 h4,
    runawayCheck_first inp _ he2 (by rw [ht2]; exact htier) hp2, ht2]
  exact ⟨rfl, rfl, rfl⟩

/-- A tick that reaches the supervisor without entering it, or enters it with no tier
exceeded, returns with the tracking reset. -/
theorem handleIron_tracking_reset (K : Board) (inp : Inputs) (s d : Sys)
    (h1 : flagsActive (entryState K inp s) = false)
    (h2 : pidHold inp (modeState K inp s) = false)
    (h3 : dutyState K inp s = some d) (h4 : d.Iron.Pwm_Out ≤ d.Iron.Pwm_Limit)
    (hr : runawayEntry inp d = false ∨ runawayTier inp d = runaway_ok) :
    (handleIron K inp s).halted = none
    ∧ (handleIron K inp s).state.Iron.RunawayTimer = inp.HAL_GetTick
    ∧ (handleIron K inp s).state.Iron.prevRunawayLevel = runaway_ok
    ∧ (handleIron K inp s).state.Iron.RunawayStatus = s.Iron.RunawayStatus := by
  have hst : (reachedCheck inp d).Iron.RunawayStatus = s.Iron.RunawayStatus := by
    rw [reachedCheck_RunawayStatus, dutyState_RunawayStatus K inp s d h3]
  have he2 : runawayEntry inp (reachedCheck inp d) = runawayEntry inp d := by
    unfold runawayEntry
    simp
  have ht2 : runawayTier inp (reachedCheck inp d) = runawayTier inp d := by
    unfold runawayTier TempStep TempLimit
    simp
  rw [handleIron_full K inp s d h1 h2 h3 h4]
  by_cases he : runawayEntry inp d = true
  · have ht : runawayTier inp d = runaway_ok := by
      rcases hr with hr | hr
      · rw [he] at hr
        cases hr
      · exact hr
    rw [runawayCheck_clear inp _ (by rw [he2]; exact he) (by rw [ht2]; exact ht)]
    exact ⟨rfl, rfl, rfl, hst⟩
  · have hef : runawayEntry inp d = false := by simpa using he
    rw [runawayCheck_skipped inp _ (by rw [he2]; exact hef)]
    exact ⟨rfl, rfl, rfl, hst⟩

/-- A short-circuited tick returns with the tracking reset. -/
theorem handleIron_idle_reset (K : Board) (inp : Inputs) (s : Sys)
    (h1 : flagsActive (entryState K inp s) = true) :
    (handleIron K inp s).halted = none
    ∧ (handleIron K inp s).state.Iron.RunawayTimer = inp.HAL_GetTick
    ∧ (handleIron K inp s).state.Iron.prevRunawayLevel = runaway_ok
    ∧ (handleIron K inp s).state.Iron.RunawayStatus = s.Iron.RunawayStatus := by
  have e : handleIron K inp s = Outcome.ok (idle inp (entryState K inp s)) := by
    unfold handleIron
    simp [h1]
  rw [e]
  refine ⟨rfl, ?_, ?_, by simp [Outcome.state]⟩
  · unfold idle
    simp only [Outcome.state]
  · unfold idle
    simp only [Outcome.state]

/-! ## Presence detector: reconnection -/

/-- The detector writes `LastNoPresentTime` at the present-to-absent transition only. -/
theorem checkIronPresence_lastNoPresent (K : Board) (inp : Inputs) (s : Sys) :
    (checkIronPresence K inp s).Iron.LastNoPresentTime
      = (if (inp.TIP_last_RawAvg > s.systemSettings.Profile.noIronValue
              ∨ inp.readColdJunctionSensorTemp_x10 < -600)
            ∧ s.Iron.presence = Presence.isPresent
          then inp.HAL_GetTick_presence else s.Iron.LastNoPresentTime) := by
  unfold checkIronPresence
  simp only []
  by_cases hc : inp.TIP_last_RawAvg > s.systemSettings.Profile.noIronValue
      ∨ inp.readColdJunctionSensorTemp_x10 < -600
  · by_cases hp : s.Iron.presence = Presence.isPresent
    · rw [if_pos hc, if_pos hp, if_pos ⟨hc, hp⟩]
      simp
    · have hn : ¬ ((inp.TIP_last_RawAvg > s.systemSettings.Profile.noIronValue
          ∨ inp.readColdJunctionSensorTemp_x10 < -600)
          ∧ s.Iron.presence = Presence.isPresent) := fun h => hp h.2
      rw [if_pos hc, if_neg hp, if_neg hn]
  · have hn : ¬ ((inp.TIP_last_RawAvg > s.systemSettings.Profile.noIronValue
        ∨ inp.readColdJunctionSensorTemp_x10 < -600)
        ∧ s.Iron.presence = Presence.isPresent) := fun h => hc h.1
    rw [if_neg hc, if_neg hn]
    split_ifs <;> simp

/-- The absent-to-present transition of `checkIronPresence` (lines 443-449). -/
theorem checkIronPresence_reconnect (K : Board) (inp : Inputs) (s : Sys)
    (hp : s.Iron.presence = Presence.notPresent)
    (hq : (checkIronPresence K inp s).Iron.presence = Presence.isPresent) :
    ¬ (inp.TIP_last_RawAvg > s.systemSettings.Profile.noIronValue
        ∨ inp.readColdJunctionSensorTemp_x10 < -600)
    ∧ sub32 inp.HAL_GetTick_presence s.Iron.LastNoPresentTime
        > s.systemSettings.settings.noIronDelay
    ∧ (checkIronPresence K inp s).Iron.CurrentMode = K.mode_run
    ∧ (checkIronPresence K inp s).Iron.CurrentSetTemperature
        = s.systemSettings.Profile.UserSetTemperature
    ∧ (checkIronPresence K inp s).events
        = s.events ++ [Event.buzzer_alarm_stop] ++ modeCalls K K.mode_run s := by
  have hne : s.Iron.presence ≠ Presence.isPresent := by
    rw [hp]
    intro h
    cases h
  unfold checkIronPresence at hq ⊢
  simp only [] at hq ⊢
  by_cases hc : inp.TIP_last_RawAvg > s.systemSettings.Profile.noIronValue
      ∨ inp.readColdJunctionSensorTemp_x10 < -600
  · rw [if_pos hc, if_neg hne] at hq
    exact absurd hq hne
  · by_cases ht : sub32 inp.HAL_GetTick_presence s.Iron.LastNoPresentTime
        > s.systemSettings.settings.noIronDelay
    · rw [if_neg hc, if_pos hp, if_pos ht]
      obtain ⟨a, b, _, d⟩ := setCurrentMode_effective K inp.HAL_GetTick_presenceMode K.mode_run
        true
        { emit Event.buzzer_alarm_stop s with Iron.presence := Presence.isPresent }
        (Or.inr rfl)
      refine ⟨hc, ht, ?_, ?_, ?_⟩
      · simpa using a
      · simpa [emit] using b
      · rw [d]
        simp [emit, modeCalls]
    · rw [if_neg hc, if_pos hp, if_neg ht] at hq
      exact absurd hq hne

/-- A tick leaves presence and the disconnection time as the presence detector set them. -/
theorem handleIron_presence (K : Board) (inp : Inputs) (s : Sys) :
    (handleIron K inp s).state.Iron.presence = (entryState K inp s).Iron.presence
    ∧ (handleIron K inp s).state.Iron.LastNoPresentTime
        = (entryState K inp s).Iron.LastNoPresentTime := by
  rcases handleIron_cases K inp s with ⟨_, e⟩ | ⟨_, _, e⟩ | ⟨_, _, _, e⟩ | ⟨d, _, _, hd, _, e⟩
    | ⟨d, _, _, hd, _, e⟩
  · rw [e]
    simp [Outcome.state]
  · rw [e]
    simp [Outcome.state, modeState]
  · rw [e]
    simp [Outcome.state, modeState]
  · rw [e]
    unfold dutyState at hd
    simp only [Outcome.state]
    rw [pwmDuty_presence inp _ d hd, pwmDuty_LastNoPresentTime inp _ d hd]
    simp [modeState]
  · rw [e]
    unfold dutyState at hd
    simp only [runawayCheck_presence, runawayCheck_LastNoPresentTime, reachedCheck_presence,
      reachedCheck_LastNoPresentTime]
    rw [pwmDuty_presence inp _ d hd, pwmDuty_LastNoPresentTime inp _ d hd]
    simp [modeState]

/-- The steps before the presence detector leave the presence fields and the profile alone. -/
theorem watched_presenceFields (inp : Inputs) (s : Sys) :
    (settingsWatch inp (profileGuard s)).Iron.presence = s.Iron.presence
    ∧ (settingsWatch inp (profileGuard s)).Iron.LastNoPresentTime = s.Iron.LastNoPresentTime
    ∧ (settingsWatch inp (profileGuard s)).systemSettings.Profile = s.systemSettings.Profile
    ∧ (settingsWatch inp (profileGuard s)).systemSettings.settings = s.systemSettings.settings
    ∧ (settingsWatch inp (profileGuard s)).currentModeChangedCallbacks
        = s.currentModeChangedCallbacks := by
  simp

/-! ## Unknown profile -/

/-- The presence detector is the identity when it leaves presence as it was. -/
theorem checkIronPresence_unchanged (K : Board) (inp : Inputs) (s : Sys)
    (h : (checkIronPresence K inp s).Iron.presence = s.Iron.presence) :
    checkIronPresence K inp s = s := by
  unfold checkIronPresence at h ⊢
  simp only [] at h ⊢
  split_ifs at h ⊢ with h1 h2 h3 h4
  · simp at h
    rw [h2] at h
    cases h
  · rfl
  · simp at h
    rw [h3] at h
    cases h
  · rfl
  · rfl

/-- With no known profile selected the state at line 103 has the failure flag set. -/
theorem entryState_unknown_profile (K : Board) (inp : Inputs) (s : Sys)
    (hp : s.systemSettings.settings.currentProfile ≠ ProfileId.profile_T12
      ∧ s.systemSettings.settings.currentProfile ≠ ProfileId.profile_C245
      ∧ s.systemSettings.settings.currentProfile ≠ ProfileId.profile_C210) :
    (profileGuard s).Iron.FailState = true
    ∧ settingsWatch inp (profileGuard s) = profileGuard s
    ∧ (entryState K inp s).Iron.FailState = true := by
  have h1 : (profileGuard s).Iron.FailState = true := by
    unfold profileGuard GetFailState SetFailState
    simp only []
    by_cases hf : s.Iron.FailState = false
    · rw [if_pos hf, if_pos hp]
      simp
    · rw [if_neg hf]
      simpa using hf
  have h2 : settingsWatch inp (profileGuard s) = profileGuard s := by
    unfold settingsWatch
    simp only []
    rw [if_neg]
    rw [h1]
    simp
  refine ⟨h1, h2, ?_⟩
  unfold entryState
  rw [checkIronPresence_FailState, h2, h1]

/-- The profile guard writes the failure flag, the duty and the compare register only. -/
theorem profileGuard_modeFields (s : Sys) :
    (profileGuard s).Iron.CurrentMode = s.Iron.CurrentMode
    ∧ (profileGuard s).Iron.CurrentSetTemperature = s.Iron.CurrentSetTemperature
    ∧ (profileGuard s).Iron.presence = s.Iron.presence
    ∧ (profileGuard s).events = s.events := by
  simp

/-- The head of a tick and its short circuit never call the PID block. -/
theorem idle_entryState_calculatePID (K : Board) (inp : Inputs) (s : Sys)
    (pid : Nat → Nat → PidFloat) :
    idle { inp with calculatePID := pid } (entryState K { inp with calculatePID := pid } s)
      = idle inp (entryState K inp s) := by
  unfold idle entryState checkIronPresence settingsWatch saveSettings
  simp only []

/-! ## Unit toggle -/

/-- Function `round_10` on `uint16_t` in closed form: nearest multiple of 10, a remainder of 5
going down. -/
theorem round_10_eq (x : Nat) (h : x < 65536) : round_10 x = (x + 4) / 10 * 10 := by
  unfold round_10
  split_ifs <;> omega

/-- Function `round_10` returns a multiple of 10 on `uint16_t`. -/
theorem round_10_mod (x : Nat) (h : x < 65536) : round_10 x % 10 = 0 := by
  rw [round_10_eq x h]
  omega

/-- A toggle towards the other unit converts and rounds the user setpoint. -/
theorem setSystemTempUnit_convert (K : Board) (now : Nat) (unit : TempUnit) (s : Sys)
    (h : s.systemSettings.Profile.tempUnit ≠ unit) :
    (setSystemTempUnit K now unit s).systemSettings.Profile.tempUnit = unit
    ∧ (setSystemTempUnit K now unit s).systemSettings.Profile.UserSetTemperature
        = round_10 (K.TempConversion s.systemSettings.Profile.UserSetTemperature unit.toBool
            % 65536) := by
  unfold setSystemTempUnit
  simp only [setCurrentMode_systemSettings]
  split_ifs <;> simp_all

/-- Celsius to Fahrenheit and back, on the numbers. -/
theorem round_trip_celsius (t : Nat) (h : t ≤ 36391) :
    round_10 (TempConversion t true % 65536) % 10 = 0
    ∧ round_10 (TempConversion (round_10 (TempConversion t true % 65536)) false % 65536) % 10 = 0
    ∧ round_10 (TempConversion (round_10 (TempConversion t true % 65536)) false % 65536) ≤ t + 5
    ∧ t ≤ round_10 (TempConversion (round_10 (TempConversion t true % 65536)) false % 65536) + 8
    ∧ (t % 10 = 0 →
        round_10 (TempConversion (round_10 (TempConversion t true % 65536)) false % 65536)
          = t) := by
  have e1 : TempConversion t true = t * 9 / 5 + 32 := by simp [TempConversion]
  have e2 : ∀ a, TempConversion a false = (a - 32) * 5 / 9 := by
    intro a
    simp [TempConversion]
  have f1 : t * 9 / 5 + 32 < 65536 := by omega
  rw [e1, e2, Nat.mod_eq_of_lt f1, round_10_eq _ f1]
  have f2 : ((t * 9 / 5 + 32 + 4) / 10 * 10 - 32) * 5 / 9 < 65536 := by omega
  rw [Nat.mod_eq_of_lt f2, round_10_eq _ f2]
  have h10 : t % 10 < 10 := Nat.mod_lt t (by norm_num)
  interval_cases hk : t % 10 <;> omega

/-- Fahrenheit to Celsius and back, on the numbers. -/
theorem round_trip_fahrenheit (t : Nat) (h1 : 32 ≤ t) (h2 : t < 65536) :
    round_10 (TempConversion t false % 65536) % 10 = 0
    ∧ round_10 (TempConversion (round_10 (TempConversion t false % 65536)) true % 65536) % 10 = 0
    ∧ round_10 (TempConversion (round_10 (TempConversion t false % 65536)) true % 65536)
        ≤ t + 11
    ∧ t ≤ round_10 (TempConversion (round_10 (TempConversion t false % 65536)) true % 65536)
        + 14
    ∧ (t % 5 = 0 →
        round_10 (TempConversion (round_10 (TempConversion t false % 65536)) true % 65536)
          ≤ t + 10
        ∧ t ≤ round_10 (TempConversion (round_10 (TempConversion t false % 65536)) true
              % 65536) + 10) := by
  have e1 : TempConversion t false = (t - 32) * 5 / 9 := by simp [TempConversion]
  have e2 : ∀ a, TempConversion a true = a * 9 / 5 + 32 := by
    intro a
    simp [TempConversion]
  have f1 : (t - 32) * 5 / 9 < 65536 := by omega
  rw [e1, e2, Nat.mod_eq_of_lt f1, round_10_eq _ f1]
  have f2 : ((t - 32) * 5 / 9 + 4) / 10 * 10 * 9 / 5 + 32 < 65536 := by omega
  rw [Nat.mod_eq_of_lt f2, round_10_eq _ f2]
  omega

/-! ## Calm steps -/

theorem calm_refl (s : Sys) : Calm s s :=
  ⟨[], by simp, fun _ _ => ⟨(fun _ _ h => by cases h), rfl⟩⟩

theorem calm_trans (s d t : Sys) (h1 : Calm s d) (h2 : Calm d t) : Calm s t := by
  obtain ⟨X1, e1, c1⟩ := h1
  obtain ⟨X2, e2, c2⟩ := h2
  refine ⟨X1 ++ X2, by rw [e2, e1, List.append_assoc], ?_⟩
  intro hf hb
  have hb1 : Event.buzzer_short_beep ∉ X1 := fun h => hb (List.mem_append.mpr (Or.inl h))
  have hb2 : Event.buzzer_short_beep ∉ X2 := fun h => hb (List.mem_append.mpr (Or.inr h))
  obtain ⟨n1, f1⟩ := c1 hf hb1
  obtain ⟨n2, f2⟩ := c2 (by rw [f1]; exact hf) hb2
  refine ⟨?_, by rw [f2, f1]⟩
  intro f temp hm
  rcases List.mem_append.mp hm with hm | hm
  · exact n1 f temp hm
  · exact n2 f temp hm

/-- A step that leaves the trace and the flag alone is calm. -/
theorem calm_same (s t : Sys) (he : t.events = s.events)
    (hf : t.Iron.Cal_TemperatureReachedFlag = s.Iron.Cal_TemperatureReachedFlag) :
    Calm s t :=
  ⟨[], by simp [he], fun _ _ => ⟨(fun _ _ h => by cases h), hf⟩⟩

/-- A step that adds a short beep is calm. -/
theorem calm_beep (s t : Sys) (X : List Event) (he : t.events = s.events ++ X)
    (hb : Event.buzzer_short_beep ∈ X) : Calm s t :=
  ⟨X, he, fun _ h => absurd hb h⟩

/-- A step that adds one call other than a setpoint-reached callback is calm. -/
theorem calm_emit (e : Event) (s : Sys) (h : ∀ f temp, e ≠ Event.setTemperatureReached f temp) :
    Calm s (emit e s) := by
  refine ⟨[e], rfl, fun _ _ => ⟨?_, rfl⟩⟩
  intro f temp hm
  rw [List.mem_singleton] at hm
  exact h f temp hm.symm

theorem calm_setCurrentMode (K : Board) (now m : Nat) (f : Bool) (s : Sys) :
    Calm s (setCurrentMode K now m f s) := by
  by_cases h : s.Iron.CurrentMode ≠ m ∨ f = true
  · obtain ⟨_, _, _, e⟩ := setCurrentMode_effective K now m f s h
    exact calm_beep s _ _ e (by simp [modeCalls])
  · have hm : s.Iron.CurrentMode = m := by
      by_contra hne
      exact h (Or.inl hne)
    have hf : f = false := by
      cases f
      · rfl
      · exact absurd (Or.inr rfl) h
    rw [hf, setCurrentMode_same K now m s hm]
    exact calm_same s _ rfl rfl

theorem calm_profileGuard (s : Sys) : Calm s (profileGuard s) :=
  calm_same s _ (by simp) (by simp)

theorem calm_settingsWatch (inp : Inputs) (s : Sys) : Calm s (settingsWatch inp s) := by
  rcases settingsWatch_events inp s with e | e
  · exact calm_same s _ e (by simp)
  · refine ⟨[Event.saveSettings], e, fun _ _ => ⟨?_, by simp⟩⟩
    intro f temp hm
    simp at hm

/-- A handle found absent was absent already or is seen disconnected by this call. -/
theorem checkIronPresence_lost (K : Board) (inp : Inputs) (s : Sys)
    (hp : s.Iron.presence = Presence.isPresent)
    (hq : (checkIronPresence K inp s).Iron.presence ≠ s.Iron.presence) :
    inp.TIP_last_RawAvg > s.systemSettings.Profile.noIronValue
      ∨ inp.readColdJunctionSensorTemp_x10 < -600 := by
  by_contra hc
  apply hq
  have hn : s.Iron.presence ≠ Presence.notPresent := by
    rw [hp]
    intro h
    cases h
  unfold checkIronPresence
  simp only []
  rw [if_neg hc, if_neg hn]

theorem calm_checkIronPresence (K : Board) (inp : Inputs) (s : Sys) :
    Calm s (checkIronPresence K inp s) := by
  by_cases h : (checkIronPresence K inp s).Iron.presence = s.Iron.presence
  · rw [checkIronPresence_unchanged K inp s h]
    exact calm_refl s
  · cases hp : s.Iron.presence with
    | isPresent =>
      have hc := checkIronPresence_lost K inp s hp h
      obtain ⟨_, _, _, _, _, e⟩ := checkIronPresence_disconnect K inp s hc hp
      exact calm_beep s _ _ (by rw [e, List.append_assoc]) (by simp [modeCalls])
    | notPresent =>
      have hq : (checkIronPresence K inp s).Iron.presence = Presence.isPresent := by
        cases hr : (checkIronPresence K inp s).Iron.presence with
        | isPresent => rfl
        | notPresent =>
          rw [hr, hp] at h
          exact absurd rfl h
      obtain ⟨_, _, _, _, e⟩ := checkIronPresence_reconnect K inp s hp hq
      exact calm_beep s _ _ (by rw [e, List.append_assoc]) (by simp [modeCalls])

theorem calm_entryState (K : Board) (inp : Inputs) (s : Sys) : Calm s (entryState K inp s) :=
  calm_trans _ _ _ (calm_profileGuard s)
    (calm_trans _ _ _ (calm_settingsWatch inp _) (calm_checkIronPresence K inp _))

theorem calm_idle (inp : Inputs) (s : Sys) : Calm s (idle inp s) :=
  calm_same s _ (by simp) (by simp)

theorem calm_standDebounce (K : Board) (inp : Inputs) (s : Sys) :
    Calm s (standDebounce K inp s) := by
  unfold standDebounce
  split_ifs
  · exact calm_trans s { s with Iron.updateMode := UpdateFlag.no_update } _
      (calm_same s _ rfl rfl) (calm_setCurrentMode K _ _ _ _)
  · exact calm_refl s
  · exact calm_refl s

theorem calm_sleepTimer (K : Board) (inp : Inputs) (s : Sys) :
    Calm s (sleepTimer K inp s) := by
  unfold sleepTimer
  split_ifs
  · exact calm_trans _ _ _ (calm_setCurrentMode K _ _ _ s)
      (calm_emit _ _ (fun _ _ h => by cases h))
  · exact calm_refl s
  · exact calm_refl s

theorem calm_modeState (K : Board) (inp : Inputs) (s : Sys) : Calm s (modeState K inp s) :=
  calm_trans _ _ _ (calm_entryState K inp s)
    (calm_trans _ _ _ (calm_standDebounce K inp _) (calm_sleepTimer K inp _))

/-- The notification step: what it adds to the trace and what it does to the flag. -/
theorem reachedCheck_fires (inp : Inputs) (d : Sys) :
    (reachedCheck inp d).events
      = d.events ++ (if (inp.readTipTemperatureCompensated : Int)
              ≥ (d.Iron.CurrentSetTemperature : Int) - 3
            ∧ (inp.readTipTemperatureCompensated : Int) ≤ (d.Iron.CurrentSetTemperature : Int) + 3
            ∧ d.Iron.Cal_TemperatureReachedFlag = 0
          then reachedCalls d.Iron.CurrentSetTemperature d else [])
    ∧ (reachedCheck inp d).Iron.Cal_TemperatureReachedFlag
      = (if (inp.readTipTemperatureCompensated : Int) ≥ (d.Iron.CurrentSetTemperature : Int) - 3
            ∧ (inp.readTipTemperatureCompensated : Int) ≤ (d.Iron.CurrentSetTemperature : Int) + 3
            ∧ d.Iron.Cal_TemperatureReachedFlag = 0
          then 1 else d.Iron.Cal_TemperatureReachedFlag) := by
  unfold reachedCheck temperatureReached reachedCalls
  simp only []
  split_ifs <;> simp

theorem calm_reachedCheck (inp : Inputs) (s : Sys) : Calm s (reachedCheck inp s) := by
  obtain ⟨e, f⟩ := reachedCheck_fires inp s
  refine ⟨_, e, ?_⟩
  intro hf _
  have hn : ¬ ((inp.readTipTemperatureCompensated : Int) ≥ (s.Iron.CurrentSetTemperature : Int) - 3
      ∧ (inp.readTipTemperatureCompensated : Int) ≤ (s.Iron.CurrentSetTemperature : Int) + 3
      ∧ s.Iron.Cal_TemperatureReachedFlag = 0) := fun h => hf h.2.2
  rw [if_neg hn] at f ⊢
  exact ⟨(fun _ _ h => by cases h), f⟩

theorem calm_handleIron (K : Board) (inp : Inputs) (s : Sys) :
    Calm s (handleIron K inp s).state := by
  rcases handleIron_cases K inp s with ⟨_, e⟩ | ⟨_, _, e⟩ | ⟨_, _, _, e⟩ | ⟨d, _, _, hd, _, e⟩
    | ⟨d, _, _, hd, _, e⟩
  · rw [e]
    exact calm_trans _ _ _ (calm_entryState K inp s) (calm_idle inp _)
  · rw [e]
    exact calm_modeState K inp s
  · rw [e]
    exact calm_trans _ _ _ (calm_modeState K inp s) (calm_same _ _ (by simp [Outcome.state])
      (by simp [Outcome.state]))
  · rw [e]
    unfold dutyState at hd
    refine calm_trans _ _ _ (calm_modeState K inp s) (calm_same _ _ ?_ ?_)
    · simp only [Outcome.state]
      rw [pwmDuty_events inp _ d hd]
      simp
    · simp only [Outcome.state]
      rw [pwmDuty_Cal_TemperatureReachedFlag inp _ d hd]
      simp
  · rw [e]
    unfold dutyState at hd
    have c1 : Calm (modeState K inp s) d := by
      refine calm_same _ _ ?_ ?_
      · rw [pwmDuty_events inp _ d hd]
        simp
      · rw [pwmDuty_Cal_TemperatureReachedFlag inp _ d hd]
        simp
    exact calm_trans _ _ _ (calm_modeState K inp s)
      (calm_trans _ _ _ c1
        (calm_trans _ _ _ (calm_reachedCheck inp d) (calm_same _ _ (by simp) (by simp))))

/-- Every public call other than a `setSetTemperature` whose guard passes is calm. -/
theorem calm_step (K : Board) (op : Op) (s : Sys) (h : retunes op s = false) :
    Calm s (step K op s).state := by
  cases op with
  | handleIron inp => exact calm_handleIron K inp s
  | setSystemTempUnit now unit =>
    simp only [step, Outcome.state]
    unfold setSystemTempUnit
    exact calm_trans _ _ _ (calm_same s _ (by simp only []; split_ifs <;> rfl)
      (by simp only []; split_ifs <;> rfl)) (calm_setCurrentMode K _ _ _ _)
  | setPwmDelay delay =>
    simp only [step, Outcome.state]
    unfold setPwmDelay
    split_ifs <;> exact calm_same _ _ rfl rfl
  | setPwmPeriod period =>
    simp only [step, Outcome.state]
    unfold setPwmPeriod
    split_ifs <;> exact calm_same _ _ rfl rfl
  | setNoIronValue noiron => exact calm_same _ _ rfl rfl
  | setModefromStand now mode => exact calm_same _ _ rfl rfl
  | setCurrentMode now mode forceMode => exact calm_setCurrentMode K now mode forceMode s
  | IronWake activity now source =>
    simp only [step, Outcome.state]
    unfold IronWake
    cases source with
    | source_wakeButton =>
      simp only []
      split_ifs
      · exact calm_refl s
      · exact calm_setCurrentMode K _ _ _ _
    | source_encoder =>
      exact calm_trans s { s with Iron.newActivity := 1, Iron.lastActivityTime := activity } _
        (calm_same s _ rfl rfl) (calm_setCurrentMode K _ _ _ _)
  | SetFailState FailState =>
    simp only [step, Outcome.state]
    unfold SetFailState
    simp only []
    split_ifs <;> exact calm_same _ _ rfl rfl
  | setDebugTemp value => exact calm_same _ _ rfl rfl
  | setDebugMode value => exact calm_same _ _ rfl rfl
  | setSetTemperature temperature =>
    simp only [step, Outcome.state]
    unfold setSetTemperature
    have hn : ¬ (s.systemSettings.Profile.UserSetTemperature ≠ temperature
        ∨ s.prevProfile ≠ s.systemSettings.settings.currentProfile) := by
      simpa [retunes] using h
    rw [if_neg hn]
    exact calm_refl s
  | addSetTemperatureReachedCallback callback mallocOk =>
    simp only [step]
    unfold addSetTemperatureReachedCallback
    split_ifs <;> exact calm_same _ _ rfl rfl
  | addModeChangedCallback callback mallocOk =>
    simp only [step]
    unfold addModeChangedCallback
    split_ifs
    · exact calm_same _ _ rfl rfl
    · cases s.currentModeChangedCallbacks <;> exact calm_same _ _ rfl rfl

/-- A run without a `setSetTemperature` whose guard passes is calm. -/
theorem calm_run (K : Board) (ops : List Op) :
    ∀ s : Sys, settled K ops s = true → Calm s (run K ops s).state := by
  induction ops with
  | nil =>
    intro s _
    exact calm_refl s
  | cons op ops ih =>
    intro s hs
    simp only [settled, Bool.and_eq_true, Bool.not_eq_true'] at hs
    obtain ⟨h1, h2⟩ := hs
    have c := calm_step K op s h1
    simp only [run]
    cases hstep : step K op s with
    | ok s1 =>
      rw [hstep] at c h2
      exact calm_trans _ _ _ c (ih s1 h2)
    | halt hh s1 =>
      rw [hstep] at c
      exact c

/-! ## Accepted PWM setter calls -/

/-- What an accepted call is and does. -/
theorem accepted_step (K : Board) (op : Op) (s : Sys) (h : accepted op s = true) :
    (∃ d, op = Op.setPwmDelay d ∧ d < 65536 ∧ d < s.systemSettings.Profile.pwmPeriod
        ∧ step K op s = Outcome.ok { s with systemSettings.Profile.pwmDelay := d,
                                            Iron.updatePwm := UpdateFlag.needs_update })
    ∨ (∃ p, op = Op.setPwmPeriod p ∧ p < 65536 ∧ s.systemSettings.Profile.pwmDelay < p
        ∧ step K op s = Outcome.ok { s with systemSettings.Profile.pwmPeriod := p,
                                            Iron.updatePwm := UpdateFlag.needs_update }) := by
  cases op with
  | setPwmDelay d =>
    left
    simp only [accepted, Bool.and_eq_true, decide_eq_true_eq, Bool.not_eq_true'] at h
    obtain ⟨hd, hr⟩ := h
    have hg : s.systemSettings.Profile.pwmPeriod > d := by
      by_contra hn
      unfold setPwmDelay at hr
      rw [if_neg hn] at hr
      cases hr
    refine ⟨d, rfl, hd, hg, ?_⟩
    simp only [step]
    unfold setPwmDelay
    rw [if_pos hg]
  | setPwmPeriod p =>
    right
    simp only [accepted, Bool.and_eq_true, decide_eq_true_eq, Bool.not_eq_true'] at h
    obtain ⟨hp, hr⟩ := h
    have hg : s.systemSettings.Profile.pwmDelay < p := by
      by_contra hn
      unfold setPwmPeriod at hr
      rw [if_neg hn] at hr
      cases hr
    refine ⟨p, rfl, hp, hg, ?_⟩
    simp only [step]
    unfold setPwmPeriod
    rw [if_pos hg]
  | handleIron _ => simp [accepted] at h
  | setSystemTempUnit _ _ => simp [accepted] at h
  | setNoIronValue _ => simp [accepted] at h
  | setModefromStand _ _ => simp [accepted] at h
  | setCurrentMode _ _ _ => simp [accepted] at h
  | IronWake _ _ _ => simp [accepted] at h
  | SetFailState _ => simp [accepted] at h
  | setDebugTemp _ => simp [accepted] at h
  | setDebugMode _ => simp [accepted] at h
  | setSetTemperature _ => simp [accepted] at h
  | addSetTemperatureReachedCallback _ _ => simp [accepted] at h
  | addModeChangedCallback _ _ => simp [accepted] at h

/-- A sequence of accepted calls returns, keeps the delay below the period and the period a
`uint16_t`, and leaves an update pending as soon as it has one call. -/
theorem allAccepted_run (K : Board) (ops : List Op) :
    ∀ s : Sys, s.systemSettings.Profile.pwmDelay < s.systemSettings.Profile.pwmPeriod →
      s.systemSettings.Profile.pwmPeriod < 65536 → allAccepted K ops s = true →
      (run K ops s).halted = none
      ∧ (run K ops s).state.systemSettings.Profile.pwmDelay
          < (run K ops s).state.systemSettings.Profile.pwmPeriod
      ∧ (run K ops s).state.systemSettings.Profile.pwmPeriod < 65536
      ∧ (ops ≠ [] ∨ s.Iron.updatePwm = UpdateFlag.needs_update →
          (run K ops s).state.Iron.updatePwm = UpdateFlag.needs_update) := by
  induction ops with
  | nil =>
    intro s h1 h2 _
    refine ⟨rfl, h1, h2, ?_⟩
    intro h
    rcases h with h | h
    · exact absurd rfl h
    · exact h
  | cons op ops ih =>
    intro s h1 h2 ha
    simp only [allAccepted, Bool.and_eq_true] at ha
    obtain ⟨ha1, ha2⟩ := ha
    obtain ⟨s1, e, g1, g2, g3⟩ : ∃ s1 : Sys, step K op s = Outcome.ok s1
        ∧ s1.systemSettings.Profile.pwmDelay < s1.systemSettings.Profile.pwmPeriod
        ∧ s1.systemSettings.Profile.pwmPeriod < 65536
        ∧ s1.Iron.updatePwm = UpdateFlag.needs_update := by
      rcases accepted_step K op s ha1 with ⟨d, _, hd, hg, e⟩ | ⟨p, _, hp, hg, e⟩
      · exact ⟨_, e, hg, h2, rfl⟩
      · exact ⟨_, e, hg, hp, rfl⟩
    rw [e] at ha2
    obtain ⟨r1, r2, r3, r4⟩ := ih s1 g1 g2 ha2
    simp only [run, e]
    exact ⟨r1, r2, r3, fun _ => r4 (Or.inr g3)⟩

/-- The state at line 131 has the pending PWM update and the profile of the tick's start. -/
theorem modeState_pwmFields (K : Board) (inp : Inputs) (s : Sys) :
    (modeState K inp s).Iron.updatePwm = s.Iron.updatePwm
    ∧ (modeState K inp s).systemSettings.Profile = s.systemSettings.Profile := by
  simp [modeState]

/-- Lines 138-144 with an update pending. -/
theorem applyPwm_pending (K : Board) (inp : Inputs) (s : Sys)
    (h : s.Iron.updatePwm = UpdateFlag.needs_update) :
    (applyPwm K inp s).Iron.updatePwm = UpdateFlag.no_update
    ∧ (applyPwm K inp s).Iron.Pwm_Limit
        = wrap16 ((s.systemSettings.Profile.pwmPeriod : Int)
            - ((s.systemSettings.Profile.pwmDelay : Int)
                + ((K.ADC_MEASURE_TIME % 65536 : Nat) : Int))) := by
  unfold applyPwm
  simp only []
  rw [if_pos h]
  exact ⟨rfl, rfl⟩

/-- A tick that is neither short-circuited nor held back applies a pending PWM update,
however it ends. -/
theorem handleIron_applies_pwm (K : Board) (inp : Inputs) (s : Sys)
    (h1 : flagsActive (entryState K inp s) = false)
    (h2 : pidHold inp (modeState K inp s) = false)
    (hu : s.Iron.updatePwm = UpdateFlag.needs_update) :
    (handleIron K inp s).state.Iron.updatePwm = UpdateFlag.no_update
    ∧ (handleIron K inp s).state.Iron.Pwm_Limit
        = wrap16 ((s.systemSettings.Profile.pwmPeriod : Int)
            - ((s.systemSettings.Profile.pwmDelay : Int)
                + ((K.ADC_MEASURE_TIME % 65536 : Nat) : Int))) := by
  obtain ⟨m1, m2⟩ := modeState_pwmFields K inp s
  obtain ⟨a1, a2⟩ := applyPwm_pending K inp (modeState K inp s) (by rw [m1]; exact hu)
  rw [m2] at a2
  rcases handleIron_cases K inp s with ⟨f, _⟩ | ⟨_, f, _⟩ | ⟨_, _, _, e⟩ | ⟨d, _, _, hd, _, e⟩
    | ⟨d, _, _, hd, _, e⟩
  · rw [h1] at f
    cases f
  · rw [h2] at f
    cases f
  · rw [e]
    exact ⟨a1, a2⟩
  · rw [e]
    unfold dutyState at hd
    simp only [Outcome.state]
    rw [pwmDuty_updatePwm inp _ d hd, pwmDuty_Pwm_Limit inp _ d hd]
    exact ⟨a1, a2⟩
  · rw [e]
    unfold dutyState at hd
    simp only [runawayCheck_updatePwm, runawayCheck_Pwm_Limit, reachedCheck_updatePwm,
      reachedCheck_Pwm_Limit]
    rw [pwmDuty_updatePwm inp _ d hd, pwmDuty_Pwm_Limit inp _ d hd]
    exact ⟨a1, a2⟩

/-- The 16-bit difference is the exact one when the window fits. -/
theorem wrap16_window (period delay adc : Nat) (hp : period < 65536) (ha : adc < 65536)
    (hw : delay + adc ≤ period) :
    wrap16 ((period : Int) - ((delay : Int) + ((adc % 65536 : Nat) : Int)))
      = period - (delay + adc) := by
  unfold wrap16
  rw [Nat.mod_eq_of_lt ha]
  omega

/-! ## C11: instant disconnect -/

/-- C11: on every tick that starts with the handle present and reads a tip raw average above
`Profile.noIronValue` or a cold-junction temperature x10 below -600, the tick consists of the
entry blocks and the short circuit only (no debounce, PID, power limit or runaway step), and
on return the handle is absent, `LastNoPresentTime` is now (the clock as the presence detector
read it at line 429), the mode is sleep with setpoint 0,
`Pwm_Out` is 0, the last call made is `buzzer_alarm_start`, and `CurrentIronPower` is -99 in
the failure state and 0 otherwise. -/
theorem instant_disconnect (K : Board) (inp : Inputs) (s : Sys)
    (hp : s.Iron.presence = Presence.isPresent)
    (hc : inp.TIP_last_RawAvg > s.systemSettings.Profile.noIronValue
      ∨ inp.readColdJunctionSensorTemp_x10 < -600) :
    handleIron K inp s = Outcome.ok (idle inp (entryState K inp s))
    ∧ (handleIron K inp s).state.Iron.presence = Presence.notPresent
    ∧ (handleIron K inp s).state.Iron.LastNoPresentTime = inp.HAL_GetTick_presence
    ∧ (handleIron K inp s).state.Iron.CurrentMode = K.mode_sleep
    ∧ (handleIron K inp s).state.Iron.CurrentSetTemperature = 0
    ∧ (handleIron K inp s).state.Iron.Pwm_Out = 0
    ∧ (∃ pre, (handleIron K inp s).state.events
        = s.events ++ pre ++ [Event.buzzer_alarm_start])
    ∧ (handleIron K inp s).state.Iron.CurrentIronPower
        = (if (handleIron K inp s).state.Iron.FailState = true then -99 else 0)
    ∧ (handleIron K inp s).state.PID_time = s.PID_time
    ∧ (handleIron K inp s).state.Iron.Pwm_Max = s.Iron.Pwm_Max
    ∧ (handleIron K inp s).state.Iron.RunawayStatus = s.Iron.RunawayStatus := by
  have hp1 : (settingsWatch inp (profileGuard s)).Iron.presence = Presence.isPresent := by
    simpa using hp
  have hc1 : inp.TIP_last_RawAvg
        > (settingsWatch inp (profileGuard s)).systemSettings.Profile.noIronValue
      ∨ inp.readColdJunctionSensorTemp_x10 < -600 := by
    simpa using hc
  obtain ⟨a, b, c, d, e, f⟩ := checkIronPresence_disconnect K inp _ hc1 hp1
  have hflags : flagsActive (entryState K inp s) = true := by
    rw [flagsActive_eq_true]
    exact Or.inr a
  have hres : handleIron K inp s = Outcome.ok (idle inp (entryState K inp s)) := by
    unfold handleIron
    simp [hflags]
  rw [hres]
  simp only [Outcome.state, idle_presence, idle_LastNoPresentTime, idle_CurrentMode,
    idle_CurrentSetTemperature, idle_Pwm_Out, idle_events, idle_PID_time, idle_RunawayStatus,
    idle_FailState, entryState_PID_time, entryState_RunawayStatus]
  refine ⟨trivial, a, b, c, d, e, ?_, ?_, ?_, ?_⟩
  · unfold entryState
    rw [f]
    rcases settingsWatch_events inp (profileGuard s) with h | h
    · exact ⟨modeCalls K K.mode_sleep (settingsWatch inp (profileGuard s)), by
        rw [h, profileGuard_events]⟩
    · exact ⟨Event.saveSettings :: modeCalls K K.mode_sleep (settingsWatch inp (profileGuard s)),
        by rw [h, profileGuard_events]; simp⟩
  · unfold idle
    simp only []
    split_ifs <;> simp
  · trivial
  · simp

/-- C11 on the demo station: the heater is driven with a duty of 4999 in run mode; the tick at
1200 ms reads a raw average of 4090 above the threshold of 4000 and returns with the handle
absent, the time recorded, the iron asleep with setpoint 0, no duty and no power. -/
theorem instant_disconnect_witness :
    heatedState.Iron.Pwm_Out = 4999 ∧ heatedState.Iron.CurrentMode = demoBoard.mode_run
    ∧ (handleIron demoBoard (pulledInputs 1200) heatedState).state.Iron.presence
        = Presence.notPresent
    ∧ (handleIron demoBoard (pulledInputs 1200) heatedState).state.Iron.LastNoPresentTime = 1200
    ∧ (handleIron demoBoard (pulledInputs 1200) heatedState).state.Iron.CurrentMode
        = demoBoard.mode_sleep
    ∧ (handleIron demoBoard (pulledInputs 1200) heatedState).state.Iron.CurrentSetTemperature = 0
    ∧ (handleIron demoBoard (pulledInputs 1200) heatedState).state.Iron.Pwm_Out = 0
    ∧ (handleIron demoBoard (pulledInputs 1200) heatedState).state.Iron.CurrentIronPower = 0 :=
  have w := instant_disconnect demoBoard (pulledInputs 1200) heatedState (by decide)
    (Or.inl (by decide))
  ⟨by decide, by decide, w.2.1, w.2.2.1, w.2.2.2.1, w.2.2.2.2.1, w.2.2.2.2.2.1, by decide⟩

/-! ## C12: mode-changed observers -/

/-- C12 (fails): on the demo station, whose list of mode-changed callbacks is empty,
`addModeChangedCallback` of callback 7 returns and leaves the list empty, and the forced change
to sleep that follows changes the mode and calls the buzzer but no callback: the trace grows
by `buzzer_short_beep` alone.  The sibling `addSetTemperatureReachedCallback` does store a
first callback. -/
theorem first_mode_observer_lost :
    demoStart.currentModeChangedCallbacks = []
    ∧ (run demoBoard (observerOps.take 1) demoStart).halted = none
    ∧ (run demoBoard (observerOps.take 1) demoStart).state.currentModeChangedCallbacks = []
    ∧ (run demoBoard observerOps demoStart).state.Iron.CurrentMode = demoBoard.mode_sleep
    ∧ (run demoBoard observerOps demoStart).state.events
        = demoStart.events ++ [Event.buzzer_short_beep]
    ∧ (run demoBoard reachedObserverOps demoStart).state.temperatureReachedCallbacks
        = [some 7, some 8] := by
  refine ⟨?_, ?_, ?_, ?_, ?_, ?_⟩ <;> decide

/-! ## C13: setpoint reached -/

/-- C13 as written fails: callback 7 has been called once at the setpoint of 300; the user
then calls `setSetTemperature(300)`, which changes neither the user setpoint, nor the current
setpoint, nor the mode, but clears the flag because no profile had been recorded yet; the next
tick calls the callback a second time. -/
theorem reached_twice_without_setpoint_change :
    reachedState.Iron.Cal_TemperatureReachedFlag = 1
    ∧ reachedState.events = demoStart.events ++ [Event.setTemperatureReached 7 300]
    ∧ reachedState.systemSettings.Profile.UserSetTemperature = 300
    ∧ reachedState.Iron.CurrentSetTemperature = 300
    ∧ (run demoBoard (confirmOps.take 1) reachedState).state.Iron.CurrentSetTemperature = 300
    ∧ (run demoBoard (confirmOps.take 1) reachedState).state.Iron.CurrentMode
        = reachedState.Iron.CurrentMode
    ∧ (run demoBoard (confirmOps.take 1) reachedState).state.Iron.Cal_TemperatureReachedFlag = 0
    ∧ (run demoBoard confirmOps reachedState).state.events
        = demoStart.events
            ++ [Event.setTemperatureReached 7 300, Event.setTemperatureReached 7 300] := by
  refine ⟨?_, ?_, ?_, ?_, ?_, ?_, ?_, ?_⟩ <;> decide

/-- C13, amended: on a tick that reaches line 198 in state `d`, the trace grows by the calls
of the registered callbacks, in list order and with the current setpoint, exactly when
`|tip - setpoint| <= 3` and the reached flag is 0, and the flag is then 1; otherwise the trace
and the flag stay.  Registration appends at the tail of the list.  Once the flag is set, a run
in which no `setSetTemperature` passes its guard (temperature different from the user setpoint,
or selected profile different from the recorded one) and which adds no short beep, that is, no
effective `setCurrentMode`, calls no setpoint-reached callback and keeps the flag. -/
theorem setpoint_reached_once (K : Board) :
    (∀ (inp : Inputs) (s d : Sys),
        flagsActive (entryState K inp s) = false → pidHold inp (modeState K inp s) = false →
        dutyState K inp s = some d → d.Iron.Pwm_Out ≤ d.Iron.Pwm_Limit →
        (handleIron K inp s).state.events
          = d.events ++ (if |(inp.readTipTemperatureCompensated : Int)
                  - (d.Iron.CurrentSetTemperature : Int)| ≤ 3
                ∧ d.Iron.Cal_TemperatureReachedFlag = 0
              then reachedCalls d.Iron.CurrentSetTemperature d else [])
        ∧ (handleIron K inp s).state.Iron.Cal_TemperatureReachedFlag
          = (if |(inp.readTipTemperatureCompensated : Int)
                  - (d.Iron.CurrentSetTemperature : Int)| ≤ 3
                ∧ d.Iron.Cal_TemperatureReachedFlag = 0
              then 1 else d.Iron.Cal_TemperatureReachedFlag)
        ∧ d.temperatureReachedCallbacks = s.temperatureReachedCallbacks)
    ∧ (∀ (c : Option Nat) (s : Sys),
        addSetTemperatureReachedCallback c true s
          = Outcome.ok { s with temperatureReachedCallbacks :=
              s.temperatureReachedCallbacks ++ [c] })
    ∧ (∀ (ops : List Op) (s : Sys), s.Iron.Cal_TemperatureReachedFlag ≠ 0 →
        settled K ops s = true →
        ∃ X, (run K ops s).state.events = s.events ++ X
          ∧ (Event.buzzer_short_beep ∉ X →
              NoReached X
              ∧ (run K ops s).state.Iron.Cal_TemperatureReachedFlag
                  = s.Iron.Cal_TemperatureReachedFlag)) := by
  refine ⟨?_, ?_, ?_⟩
  · intro inp s d h1 h2 h3 h4
    obtain ⟨e, f⟩ := reachedCheck_fires inp d
    have hb : (|(inp.readTipTemperatureCompensated : Int)
          - (d.Iron.CurrentSetTemperature : Int)| ≤ 3 ∧ d.Iron.Cal_TemperatureReachedFlag = 0)
        ↔ ((inp.readTipTemperatureCompensated : Int) ≥ (d.Iron.CurrentSetTemperature : Int) - 3
          ∧ (inp.readTipTemperatureCompensated : Int)
              ≤ (d.Iron.CurrentSetTemperature : Int) + 3
          ∧ d.Iron.Cal_TemperatureReachedFlag = 0) := by
      rw [abs_le]
      constructor
      · rintro ⟨⟨a, b⟩, c⟩
        exact ⟨by omega, by omega, c⟩
      · rintro ⟨a, b, c⟩
        exact ⟨⟨by omega, by omega⟩, c⟩
    rw [handleIron_full K inp s d h1 h2 h3 h4]
    simp only [runawayCheck_events, runawayCheck_Cal_TemperatureReachedFlag, hb]
    refine ⟨e, f, ?_⟩
    unfold dutyState at h3
    rw [pwmDuty_temperatureReachedCallbacks inp _ d h3]
    simp
  · intro c s
    unfold addSetTemperatureReachedCallback
    simp
  · intro ops s hf hs
    obtain ⟨X, e, c⟩ := calm_run K ops s hs
    exact ⟨X, e, c hf⟩

/-- C13, amended, on the demo station: with callback 7 registered, the tick at 1000 ms with
the tip at the setpoint of 300 calls it once and sets the flag; two more ticks with the tip in
the band, with a stand request for the current mode in between, call nothing. -/
theorem setpoint_reached_once_witness :
    (handleIron demoBoard (demoInputs 1000 300 pidHalf) observedStart).state.events
      = observedStart.events ++ [Event.setTemperatureReached 7 300]
    ∧ (run demoBoard steadyOps reachedState).state.events = reachedState.events
    ∧ (∃ X, (run demoBoard steadyOps reachedState).state.events = reachedState.events ++ X
        ∧ (Event.buzzer_short_beep ∉ X →
            NoReached X
            ∧ (run demoBoard steadyOps reachedState).state.Iron.Cal_TemperatureReachedFlag
                = reachedState.Iron.Cal_TemperatureReachedFlag)) :=
  ⟨by decide, by decide,
    (setpoint_reached_once demoBoard).2.2 steadyOps reachedState (by decide) (by decide)⟩

/-! ## C14: deferred settings save -/

/-- C14 (fails when an edit is put back): the demo station has `saveSettingsDelay = 3` and
stored checksums 0.  The watcher samples checksum 5 at 1000 ms, 0 at 2000 ms and 5 at 4001 ms.
The sample at 2000 ms equals the stored checksum and leaves the timer of 1000 ms running, so
the tick at 4001 ms calls `saveSettings` although the sample taken 2001 ms earlier differed
from the one it saves. -/
theorem save_fires_after_reverted_edit :
    demoStart.systemSettings.settings.saveSettingsDelay = 3
    ∧ demoStart.systemSettings.settingsChecksum = 0
    ∧ (run demoBoard (revertOps.take 1) demoStart).state.Iron.LastSysChangeTime = 1000
    ∧ (run demoBoard (revertOps.take 2) demoStart).state.checksumtime = 2000
    ∧ (run demoBoard (revertOps.take 2) demoStart).state.newSysChecksum = 0
    ∧ (run demoBoard (revertOps.take 2) demoStart).state.Iron.LastSysChangeTime = 1000
    ∧ (run demoBoard (revertOps.take 2) demoStart).state.events
        = demoStart.events
    ∧ (run demoBoard revertOps demoStart).halted = none
    ∧ (run demoBoard revertOps demoStart).state.newSysChecksum = 5
    ∧ (run demoBoard revertOps demoStart).state.events
        = demoStart.events ++ [Event.saveSettings] := by
  refine ⟨?_, ?_, ?_, ?_, ?_, ?_, ?_, ?_, ?_, ?_⟩ <;> decide

/-! ## C15: mode domain -/

/-- C15 (fails for unknown modes): on the demo station (`mode_sleep = 0`, `mode_run = 1`),
`setCurrentMode(7, forceMode)` leaves `CurrentMode = 7`, which is neither run nor sleep, with
setpoint 0; the same happens without force, and through the stand after the debounce. -/
theorem unknown_mode_stored_raw :
    (setCurrentMode demoBoard 500 7 true demoStart).Iron.CurrentMode = 7
    ∧ (setCurrentMode demoBoard 500 7 true demoStart).Iron.CurrentMode ≠ demoBoard.mode_sleep
    ∧ (setCurrentMode demoBoard 500 7 true demoStart).Iron.CurrentMode ≠ demoBoard.mode_run
    ∧ (setCurrentMode demoBoard 500 7 true demoStart).Iron.CurrentSetTemperature = 0
    ∧ (setCurrentMode demoBoard 500 7 false demoStart).Iron.CurrentMode = 7
    ∧ (run demoBoard [Op.setModefromStand 100 7, Op.handleIron (demoInputs 700 25 pidHalf)]
        demoStart).state.Iron.CurrentMode = 7 := by
  refine ⟨?_, ?_, ?_, ?_, ?_, ?_⟩ <;> decide

/-! ## C16: unknown profile -/

/-- C16 as written fails: with no known profile selected and the tip pulled in the same tick,
the tick returns in the failure state with the heater off, but it has changed the mode from
run to sleep, beeped and zeroed the setpoint. -/
theorem unknown_profile_mode_change :
    strayStart.systemSettings.settings.currentProfile = ProfileId.profile_None
    ∧ strayStart.Iron.CurrentMode = 1
    ∧ (handleIron demoBoard (pulledInputs 1000) strayStart).halted = none
    ∧ (handleIron demoBoard (pulledInputs 1000) strayStart).state.Iron.FailState = true
    ∧ (handleIron demoBoard (pulledInputs 1000) strayStart).state.Iron.CurrentMode = 0
    ∧ (handleIron demoBoard (pulledInputs 1000) strayStart).state.Iron.CurrentSetTemperature = 0
    ∧ (handleIron demoBoard (pulledInputs 1000) strayStart).state.events
        = strayStart.events ++ [Event.buzzer_short_beep, Event.buzzer_alarm_start] := by
  decide

/-- C16, amended: from every state, a tick with none of T12, C245, C210 selected returns
through the short circuit of line 113, so it runs no stand debounce, no sleep timer, no PID
computation and no runaway evaluation: on return the failure flag is set, the power indicator
is -99, `PID_time`, `Pwm_Max`, `RunawayStatus` and the pending stand request are those before
the tick, and the result does not depend on the PID block.  `Pwm_Out` is 0 on return whenever
the tick started with the failure flag clear or with a duty of 0 (invariant I2 gives the duty
of 0 in every reached state that has the flag set).  The mode, the setpoint and the trace are
those before the tick when the tick left presence as it was. -/
theorem unknown_profile_fails (K : Board) (inp : Inputs) (s : Sys)
    (hp : s.systemSettings.settings.currentProfile ≠ ProfileId.profile_T12
      ∧ s.systemSettings.settings.currentProfile ≠ ProfileId.profile_C245
      ∧ s.systemSettings.settings.currentProfile ≠ ProfileId.profile_C210) :
    handleIron K inp s = Outcome.ok (idle inp (entryState K inp s))
    ∧ (handleIron K inp s).state.Iron.FailState = true
    ∧ ((s.Iron.FailState = true → s.Iron.Pwm_Out = 0) →
        (handleIron K inp s).state.Iron.Pwm_Out = 0)
    ∧ (handleIron K inp s).state.Iron.CurrentIronPower = -99
    ∧ (handleIron K inp s).state.PID_time = s.PID_time
    ∧ (handleIron K inp s).state.Iron.Pwm_Max = s.Iron.Pwm_Max
    ∧ (handleIron K inp s).state.Iron.RunawayStatus = s.Iron.RunawayStatus
    ∧ (handleIron K inp s).state.Iron.updateMode = s.Iron.updateMode
    ∧ (handleIron K inp s).state.Iron.changeMode = s.Iron.changeMode
    ∧ (∀ pid, handleIron K { inp with calculatePID := pid } s = handleIron K inp s)
    ∧ ((handleIron K inp s).state.Iron.presence = s.Iron.presence →
        (handleIron K inp s).state.Iron.CurrentMode = s.Iron.CurrentMode
        ∧ (handleIron K inp s).state.Iron.CurrentSetTemperature = s.Iron.CurrentSetTemperature
        ∧ (handleIron K inp s).state.events = s.events) := by
  obtain ⟨g1, g2, g3⟩ := entryState_unknown_profile K inp s hp
  have hfl : ∀ i : Inputs, flagsActive (entryState K i s) = true := by
    intro i
    rw [flagsActive_eq_true]
    exact Or.inl (entryState_unknown_profile K i s hp).2.2
  have e : ∀ i : Inputs, handleIron K i s = Outcome.ok (idle i (entryState K i s)) := by
    intro i
    unfold handleIron
    simp [hfl i]
  refine ⟨e inp, ?_, ?_, ?_, ?_, ?_, ?_, ?_, ?_, ?_, ?_⟩
  · rw [e inp]
    simpa [Outcome.state] using g3
  · intro hq
    have hg : (profileGuard s).Iron.Pwm_Out = 0 := by
      unfold profileGuard GetFailState SetFailState
      simp only []
      by_cases hf : s.Iron.FailState = false
      · rw [if_pos hf, if_pos hp]
        simp
      · rw [if_neg hf]
        exact hq (by simpa using hf)
    have hle : (entryState K inp s).Iron.Pwm_Out ≤ (profileGuard s).Iron.Pwm_Out := by
      unfold entryState
      calc (checkIronPresence K inp (settingsWatch inp (profileGuard s))).Iron.Pwm_Out
          ≤ (settingsWatch inp (profileGuard s)).Iron.Pwm_Out :=
            checkIronPresence_Pwm_Out_le _ _ _
        _ = (profileGuard s).Iron.Pwm_Out := settingsWatch_Pwm_Out _ _
    rw [e inp]
    simp only [Outcome.state, idle_Pwm_Out]
    omega
  · rw [e inp]
    unfold idle
    simp [Outcome.state, g3]
  · rw [e inp]
    simp [Outcome.state]
  · rw [e inp]
    simp [Outcome.state]
  · rw [e inp]
    simp [Outcome.state]
  · rw [e inp]
    simp [Outcome.state]
  · rw [e inp]
    simp [Outcome.state]
  · intro pid
    rw [e inp, e { inp with calculatePID := pid }, idle_entryState_calculatePID]
  · rw [e inp]
    simp only [Outcome.state, idle_presence, idle_CurrentMode, idle_CurrentSetTemperature,
      idle_events]
    intro hpres
    unfold entryState at hpres ⊢
    rw [g2] at hpres ⊢
    obtain ⟨m1, m2, m3, m4⟩ := profileGuard_modeFields s
    rw [checkIronPresence_unchanged K inp (profileGuard s) (by rw [hpres, m3])]
    exact ⟨m1, m2, m4⟩

/-- C16, amended, on the demo station: the heater is driven with a duty of 4999 in run mode
when the settings come to select no known profile; the tick at 1200 ms, with the tip seated,
returns in the failure state with the duty at 0, the power indicator at -99, and the mode, the
setpoint and the trace as they were. -/
theorem unknown_profile_fails_witness :
    strayHeated.Iron.FailState = false
    ∧ strayHeated.Iron.Pwm_Out = 4999
    ∧ strayHeated.Iron.CurrentMode = 1
    ∧ (handleIron demoBoard (demoInputs 1200 25 pidHalf) strayHeated).state.Iron.FailState = true
    ∧ (handleIron demoBoard (demoInputs 1200 25 pidHalf) strayHeated).state.Iron.Pwm_Out = 0
    ∧ (handleIron demoBoard (demoInputs 1200 25 pidHalf) strayHeated).state.Iron.CurrentIronPower
        = -99
    ∧ ((handleIron demoBoard (demoInputs 1200 25 pidHalf) strayHeated).state.Iron.CurrentMode
        = strayHeated.Iron.CurrentMode
      ∧ (handleIron demoBoard (demoInputs 1200 25 pidHalf)
          strayHeated).state.Iron.CurrentSetTemperature = strayHeated.Iron.CurrentSetTemperature
      ∧ (handleIron demoBoard (demoInputs 1200 25 pidHalf) strayHeated).state.events
          = strayHeated.events) :=
  have w := unknown_profile_fails demoBoard (demoInputs 1200 25 pidHalf) strayHeated
    (by decide)
  ⟨by decide, by decide, by decide, w.2.1, w.2.2.1 (by decide), w.2.2.2.1,
    w.2.2.2.2.2.2.2.2.2.2 (by decide)⟩

/-! ## C17: compare register -/

/-- C17 (fails on presence loss): on the demo station the heater is driven with a duty of
4999 and the PWM ISR has loaded it into the compare register; the tick on which the handle is
found pulled returns with presence absent and `Pwm_Out = 0` but with 4999 still in the compare
register.  `SetFailState(on)` from the same state does load 0. -/
theorem compare_not_quiesced_on_presence_loss :
    (pwmTimerISR heatedState).Pwm_Timer.Compare = 4999
    ∧ (handleIron demoBoard (pulledInputs 1200) (pwmTimerISR heatedState)).halted = none
    ∧ (handleIron demoBoard (pulledInputs 1200) (pwmTimerISR heatedState)).state.Iron.presence
        = Presence.notPresent
    ∧ (handleIron demoBoard (pulledInputs 1200) (pwmTimerISR heatedState)).state.Iron.Pwm_Out = 0
    ∧ (handleIron demoBoard (pulledInputs 1200) (pwmTimerISR heatedState)).state.Pwm_Timer.Compare
        = 4999
    ∧ (SetFailState true (pwmTimerISR heatedState)).Pwm_Timer.Compare = 0 := by
  refine ⟨?_, ?_, ?_, ?_, ?_, ?_⟩ <;> decide

/-! ## C18: unit round trip (R1) -/

/-- C18 as written fails: the demo station in Fahrenheit with the user setpoint 401 is toggled
to Celsius (205, stored as 200) and back to Fahrenheit (392, stored as 390): the unit is
restored and the setpoint is 11 units away from the original. -/
theorem fahrenheit_setpoint_drifts_by_11 :
    demoBoard.TempConversion = TempConversion
    ∧ fahrenheitState.systemSettings.Profile.tempUnit = TempUnit.mode_Farenheit
    ∧ fahrenheitState.systemSettings.Profile.UserSetTemperature = 401
    ∧ (setSystemTempUnit demoBoard 200 TempUnit.mode_Celsius
        fahrenheitState).systemSettings.Profile.UserSetTemperature = 200
    ∧ (setSystemTempUnit demoBoard 300 TempUnit.mode_Farenheit
        (setSystemTempUnit demoBoard 200 TempUnit.mode_Celsius
          fahrenheitState)).systemSettings.Profile.tempUnit = TempUnit.mode_Farenheit
    ∧ (setSystemTempUnit demoBoard 300 TempUnit.mode_Farenheit
        (setSystemTempUnit demoBoard 200 TempUnit.mode_Celsius
          fahrenheitState)).systemSettings.Profile.UserSetTemperature = 390 :=
  ⟨rfl, by decide, by decide, by decide, by decide, by decide⟩

/-- C18, amended: with `TempConversion` the standard truncating integer conversion, each toggle
to the other unit stores `round_10` of the converted setpoint, a multiple of 10, and the second
toggle restores the profile unit.  From Celsius (setpoint up to 36391) the round trip ends at
most 5 above and 8 below the original, and on the original itself when that is a multiple of
10.  From Fahrenheit (setpoint from 32 to 65535) it ends at most 11 above and 14 below the
original, and within 10 when the original is a multiple of 5. -/
theorem unit_round_trip (K : Board) (hK : K.TempConversion = TempConversion) (now1 now2 : Nat)
    (s : Sys) :
    (s.systemSettings.Profile.tempUnit = TempUnit.mode_Celsius →
      s.systemSettings.Profile.UserSetTemperature ≤ 36391 →
        (setSystemTempUnit K now1 TempUnit.mode_Farenheit s).systemSettings.Profile.tempUnit
          = TempUnit.mode_Farenheit
        ∧ (setSystemTempUnit K now1 TempUnit.mode_Farenheit
            s).systemSettings.Profile.UserSetTemperature
          = round_10 (TempConversion s.systemSettings.Profile.UserSetTemperature true % 65536)
        ∧ (setSystemTempUnit K now1 TempUnit.mode_Farenheit
            s).systemSettings.Profile.UserSetTemperature % 10 = 0
        ∧ (setSystemTempUnit K now2 TempUnit.mode_Celsius
            (setSystemTempUnit K now1 TempUnit.mode_Farenheit s)).systemSettings.Profile.tempUnit
          = TempUnit.mode_Celsius
        ∧ (setSystemTempUnit K now2 TempUnit.mode_Celsius
            (setSystemTempUnit K now1 TempUnit.mode_Farenheit
              s)).systemSettings.Profile.UserSetTemperature % 10 = 0
        ∧ (setSystemTempUnit K now2 TempUnit.mode_Celsius
            (setSystemTempUnit K now1 TempUnit.mode_Farenheit
              s)).systemSettings.Profile.UserSetTemperature
          ≤ s.systemSettings.Profile.UserSetTemperature + 5
        ∧ s.systemSettings.Profile.UserSetTemperature
          ≤ (setSystemTempUnit K now2 TempUnit.mode_Celsius
              (setSystemTempUnit K now1 TempUnit.mode_Farenheit
                s)).systemSettings.Profile.UserSetTemperature + 8
        ∧ (s.systemSettings.Profile.UserSetTemperature % 10 = 0 →
            (setSystemTempUnit K now2 TempUnit.mode_Celsius
              (setSystemTempUnit K now1 TempUnit.mode_Farenheit
                s)).systemSettings.Profile.UserSetTemperature
            = s.systemSettings.Profile.UserSetTemperature))
    ∧ (s.systemSettings.Profile.tempUnit = TempUnit.mode_Farenheit →
      32 ≤ s.systemSettings.Profile.UserSetTemperature →
      s.systemSettings.Profile.UserSetTemperature < 65536 →
        (setSystemTempUnit K now1 TempUnit.mode_Celsius s).systemSettings.Profile.tempUnit
          = TempUnit.mode_Celsius
        ∧ (setSystemTempUnit K now1 TempUnit.mode_Celsius
            s).systemSettings.Profile.UserSetTemperature
          = round_10 (TempConversion s.systemSettings.Profile.UserSetTemperature false % 65536)
        ∧ (setSystemTempUnit K now1 TempUnit.mode_Celsius
            s).systemSettings.Profile.UserSetTemperature % 10 = 0
        ∧ (setSystemTempUnit K now2 TempUnit.mode_Farenheit
            (setSystemTempUnit K now1 TempUnit.mode_Celsius s)).systemSettings.Profile.tempUnit
          = TempUnit.mode_Farenheit
        ∧ (setSystemTempUnit K now2 TempUnit.mode_Farenheit
            (setSystemTempUnit K now1 TempUnit.mode_Celsius
              s)).systemSettings.Profile.UserSetTemperature % 10 = 0
        ∧ (setSystemTempUnit K now2 TempUnit.mode_Farenheit
            (setSystemTempUnit K now1 TempUnit.mode_Celsius
              s)).systemSettings.Profile.UserSetTemperature
          ≤ s.systemSettings.Profile.UserSetTemperature + 11
        ∧ s.systemSettings.Profile.UserSetTemperature
          ≤ (setSystemTempUnit K now2 TempUnit.mode_Farenheit
              (setSystemTempUnit K now1 TempUnit.mode_Celsius
                s)).systemSettings.Profile.UserSetTemperature + 14
        ∧ (s.systemSettings.Profile.UserSetTemperature % 5 = 0 →
            (setSystemTempUnit K now2 TempUnit.mode_Farenheit
              (setSystemTempUnit K now1 TempUnit.mode_Celsius
                s)).systemSettings.Profile.UserSetTemperature
              ≤ s.systemSettings.Profile.UserSetTemperature + 10
            ∧ s.systemSettings.Profile.UserSetTemperature
              ≤ (setSystemTempUnit K now2 TempUnit.mode_Farenheit
                  (setSystemTempUnit K now1 TempUnit.mode_Celsius
                    s)).systemSettings.Profile.UserSetTemperature + 10)) := by
  constructor
  · intro hu ht
    have n1 : s.systemSettings.Profile.tempUnit ≠ TempUnit.mode_Farenheit := by
      rw [hu]
      intro h
      cases h
    obtain ⟨a1, a2⟩ := setSystemTempUnit_convert K now1 TempUnit.mode_Farenheit s n1
    have n2 : (setSystemTempUnit K now1 TempUnit.mode_Farenheit s).systemSettings.Profile.tempUnit
        ≠ TempUnit.mode_Celsius := by
      rw [a1]
      intro h
      cases h
    obtain ⟨b1, b2⟩ := setSystemTempUnit_convert K now2 TempUnit.mode_Celsius _ n2
    obtain ⟨r1, r2, r3, r4, r5⟩ :=
      round_trip_celsius s.systemSettings.Profile.UserSetTemperature ht
    rw [b2, a2, hK]
    exact ⟨a1, rfl, r1, b1, r2, r3, r4, r5⟩
  · intro hu ht1 ht2
    have n1 : s.systemSettings.Profile.tempUnit ≠ TempUnit.mode_Celsius := by
      rw [hu]
      intro h
      cases h
    obtain ⟨a1, a2⟩ := setSystemTempUnit_convert K now1 TempUnit.mode_Celsius s n1
    have n2 : (setSystemTempUnit K now1 TempUnit.mode_Celsius s).systemSettings.Profile.tempUnit
        ≠ TempUnit.mode_Farenheit := by
      rw [a1]
      intro h
      cases h
    obtain ⟨b1, b2⟩ := setSystemTempUnit_convert K now2 TempUnit.mode_Farenheit _ n2
    obtain ⟨r1, r2, r3, r4, r5⟩ :=
      round_trip_fahrenheit s.systemSettings.Profile.UserSetTemperature ht1 ht2
    rw [b2, a2, hK]
    exact ⟨a1, rfl, r1, b1, r2, r3, r4, r5⟩

/-- C18, amended, on the demo station: 300 Celsius is stored as 570 Fahrenheit and comes back
as 300 Celsius; 401 Fahrenheit comes back as 390, within 14. -/
theorem unit_round_trip_witness :
    (setSystemTempUnit demoBoard 100 TempUnit.mode_Farenheit
        demoStart).systemSettings.Profile.UserSetTemperature = 570
    ∧ (setSystemTempUnit demoBoard 200 TempUnit.mode_Celsius
        (setSystemTempUnit demoBoard 100 TempUnit.mode_Farenheit
          demoStart)).systemSettings.Profile.UserSetTemperature
        = demoStart.systemSettings.Profile.UserSetTemperature
    ∧ fahrenheitState.systemSettings.Profile.UserSetTemperature
        ≤ (setSystemTempUnit demoBoard 300 TempUnit.mode_Farenheit
            (setSystemTempUnit demoBoard 200 TempUnit.mode_Celsius
              fahrenheitState)).systemSettings.Profile.UserSetTemperature + 14 :=
  ⟨by decide,
    ((unit_round_trip demoBoard rfl 100 200 demoStart).1 (by decide) (by decide)).2.2.2.2.2.2.2
      (by decide),
    ((unit_round_trip demoBoard rfl 200 300 fahrenheitState).2 (by decide) (by decide)
      (by decide)).2.2.2.2.2.2.1⟩

/-! ## C19: delayed reconnect -/

/-- C19 as written fails: the tip is pulled at 1200 ms (`no_iron_delay` is 1000 ms) and the
absence condition is observed again by the tick at 3000 ms; the tick at 3001 ms, one
millisecond later, reads a seated tip and changes presence back to present. -/
theorem reconnect_right_after_absence_seen :
    absentState.Iron.presence = Presence.notPresent
    ∧ (pulledInputs 3000).TIP_last_RawAvg > absentState.systemSettings.Profile.noIronValue
    ∧ (demoInputs 3001 25 pidHalf).HAL_GetTick_presence
          - (pulledInputs 3000).HAL_GetTick_presence
        ≤ absentState.systemSettings.settings.noIronDelay
    ∧ (handleIron demoBoard (demoInputs 3001 25 pidHalf) absentState).state.Iron.presence
        = Presence.isPresent := by
  decide

/-- C19, amended: a tick writes `LastNoPresentTime` exactly when it changes presence from
present to absent, to the time its presence detector read at line 429.  A tick that changes presence from absent to present does
not observe the absence condition and runs more than `noIronDelay` ms (difference modulo 2^32)
after `LastNoPresentTime`; the presence detector then stops the alarm and forces run mode:
at line 103 the mode is run, the setpoint is the user setpoint, and the trace has grown by the
alarm stop, the beep and the mode-changed callbacks. -/
theorem delayed_reconnect (K : Board) (inp : Inputs) (s : Sys) :
    (handleIron K inp s).state.Iron.LastNoPresentTime
      = (if s.Iron.presence = Presence.isPresent
            ∧ (handleIron K inp s).state.Iron.presence = Presence.notPresent
          then inp.HAL_GetTick_presence else s.Iron.LastNoPresentTime)
    ∧ (s.Iron.presence = Presence.notPresent →
        (handleIron K inp s).state.Iron.presence = Presence.isPresent →
        ¬ (inp.TIP_last_RawAvg > s.systemSettings.Profile.noIronValue
            ∨ inp.readColdJunctionSensorTemp_x10 < -600)
        ∧ sub32 inp.HAL_GetTick_presence s.Iron.LastNoPresentTime
            > s.systemSettings.settings.noIronDelay
        ∧ (entryState K inp s).Iron.CurrentMode = K.mode_run
        ∧ (entryState K inp s).Iron.CurrentSetTemperature
            = s.systemSettings.Profile.UserSetTemperature
        ∧ (entryState K inp s).events
            = (settingsWatch inp (profileGuard s)).events ++ [Event.buzzer_alarm_stop]
                ++ modeCalls K K.mode_run s) := by
  obtain ⟨hpres, hlast⟩ := handleIron_presence K inp s
  obtain ⟨w1, w2, w3, w4, w5⟩ := watched_presenceFields inp s
  constructor
  · rw [hlast, hpres]
    unfold entryState
    rw [checkIronPresence_lastNoPresent, w1, w2, w3]
    by_cases hp : s.Iron.presence = Presence.isPresent
    · by_cases hc : inp.TIP_last_RawAvg > s.systemSettings.Profile.noIronValue
          ∨ inp.readColdJunctionSensorTemp_x10 < -600
      · have hd := (checkIronPresence_disconnect K inp (settingsWatch inp (profileGuard s))
          (by rw [w3]; exact hc) (by rw [w1]; exact hp)).1
        rw [if_pos ⟨hc, hp⟩, if_pos ⟨hp, hd⟩]
      · rw [if_neg (fun h => hc h.1), if_neg]
        intro h
        have hk : (checkIronPresence K inp (settingsWatch inp (profileGuard s))).Iron.presence
            = Presence.isPresent := by
          unfold checkIronPresence
          simp only []
          rw [w3, w1, if_neg hc, if_neg (by rw [hp]; intro h; cases h)]
          rw [w1]
          exact hp
        rw [hk] at h
        cases h.2
    · rw [if_neg (fun h => hp h.2), if_neg (fun h => hp h.1)]
  · intro hp hq
    rw [hpres] at hq
    unfold entryState at hq ⊢
    obtain ⟨a, b, c, d, e⟩ := checkIronPresence_reconnect K inp
      (settingsWatch inp (profileGuard s)) (by rw [w1]; exact hp) hq
    rw [w3] at a d
    rw [w2, w4] at b
    refine ⟨a, b, c, d, ?_⟩
    rw [e]
    unfold modeCalls
    rw [w5]

/-- C19, amended, on the demo station: the tip pulled at 1200 ms reads as seated again at
1500 ms, 300 ms after the disconnection, and presence stays absent; at 2201 ms, 1001 ms after
it, presence returns and the mode is run with the setpoint 300. -/
theorem delayed_reconnect_witness :
    pulledState.Iron.presence = Presence.notPresent
    ∧ pulledState.Iron.LastNoPresentTime = 1200
    ∧ (handleIron demoBoard (demoInputs 1500 25 pidHalf) pulledState).state.Iron.presence
        = Presence.notPresent
    ∧ (handleIron demoBoard (demoInputs 2201 25 pidHalf) pulledState).state.Iron.presence
        = Presence.isPresent
    ∧ (entryState demoBoard (demoInputs 2201 25 pidHalf) pulledState).Iron.CurrentMode = 1
    ∧ (entryState demoBoard (demoInputs 2201 25 pidHalf) pulledState).Iron.CurrentSetTemperature
        = 300
    ∧ (¬ ((demoInputs 2201 25 pidHalf).TIP_last_RawAvg
              > pulledState.systemSettings.Profile.noIronValue
            ∨ (demoInputs 2201 25 pidHalf).readColdJunctionSensorTemp_x10 < -600)
      ∧ sub32 (demoInputs 2201 25 pidHalf).HAL_GetTick_presence
            pulledState.Iron.LastNoPresentTime
          > pulledState.systemSettings.settings.noIronDelay
      ∧ (entryState demoBoard (demoInputs 2201 25 pidHalf) pulledState).Iron.CurrentMode
          = demoBoard.mode_run
      ∧ (entryState demoBoard (demoInputs 2201 25 pidHalf) pulledState).Iron.CurrentSetTemperature
          = pulledState.systemSettings.Profile.UserSetTemperature
      ∧ (entryState demoBoard (demoInputs 2201 25 pidHalf) pulledState).events
          = (settingsWatch (demoInputs 2201 25 pidHalf) (profileGuard pulledState)).events
              ++ [Event.buzzer_alarm_stop] ++ modeCalls demoBoard demoBoard.mode_run pulledState) :=
  ⟨by decide, by decide, by decide, by decide, by decide, by decide,
    (delayed_reconnect demoBoard (demoInputs 2201 25 pidHalf) pulledState).2
      (by decide) (by decide)⟩

/-! ## C20: runaway tracking reset -/

/-- C20: a tick returns without a trip, with `RunawayTimer` set to now, `prevRunawayLevel` set
to ok and `RunawayStatus` untouched, in each of three cases: it is short-circuited by the
failure state or by absence; it reaches the supervisor (state `d` at line 192) and the entry
condition is false (duty 0, debug on, status triggered, or tip not above the setpoint); it
enters the supervisor and the tier of C5 is ok.  From any state whose `prevRunawayLevel` is ok
the next tick that enters the supervisor with a tier other than ok returns and starts the timer
at its own time. -/
theorem runaway_tracking_reset (K : Board) (inp : Inputs) (s : Sys) :
    (flagsActive (entryState K inp s) = true →
        (handleIron K inp s).halted = none
        ∧ (handleIron K inp s).state.Iron.RunawayTimer = inp.HAL_GetTick
        ∧ (handleIron K inp s).state.Iron.prevRunawayLevel = runaway_ok
        ∧ (handleIron K inp s).state.Iron.RunawayStatus = s.Iron.RunawayStatus)
    ∧ (∀ d, flagsActive (entryState K inp s) = false → pidHold inp (modeState K inp s) = false →
        dutyState K inp s = some d → d.Iron.Pwm_Out ≤ d.Iron.Pwm_Limit →
        (d.Iron.Pwm_Out = 0 ∨ d.Iron.DebugMode = DebugMode.debug_On
          ∨ d.Iron.RunawayStatus = RunawayStatus.runaway_triggered
          ∨ inp.readTipTemperatureCompensated ≤ d.Iron.CurrentSetTemperature) →
        (handleIron K inp s).halted = none
        ∧ (handleIron K inp s).state.Iron.RunawayTimer = inp.HAL_GetTick
        ∧ (handleIron K inp s).state.Iron.prevRunawayLevel = runaway_ok
        ∧ (handleIron K inp s).state.Iron.RunawayStatus = s.Iron.RunawayStatus)
    ∧ (∀ d, flagsActive (entryState K inp s) = false → pidHold inp (modeState K inp s) = false →
        dutyState K inp s = some d → d.Iron.Pwm_Out ≤ d.Iron.Pwm_Limit →
        0 < d.Iron.Pwm_Out → d.Iron.RunawayStatus = RunawayStatus.runaway_ok →
        d.Iron.DebugMode = DebugMode.debug_Off →
        inp.readTipTemperatureCompensated > d.Iron.CurrentSetTemperature →
        specTier d.systemSettings.settings.tempUnit inp.readTipTemperatureCompensated
          d.Iron.CurrentSetTemperature = runaway_ok →
        (handleIron K inp s).halted = none
        ∧ (handleIron K inp s).state.Iron.RunawayTimer = inp.HAL_GetTick
        ∧ (handleIron K inp s).state.Iron.prevRunawayLevel = runaway_ok
        ∧ (handleIron K inp s).state.Iron.RunawayStatus = s.Iron.RunawayStatus)
    ∧ (∀ d, s.Iron.prevRunawayLevel = runaway_ok →
        flagsActive (entryState K inp s) = false → pidHold inp (modeState K inp s) = false →
        dutyState K inp s = some d → d.Iron.Pwm_Out ≤ d.Iron.Pwm_Limit →
        0 < d.Iron.Pwm_Out → d.Iron.RunawayStatus = RunawayStatus.runaway_ok →
        d.Iron.DebugMode = DebugMode.debug_Off →
        inp.readTipTemperatureCompensated > d.Iron.CurrentSetTemperature →
        specTier d.systemSettings.settings.tempUnit inp.readTipTemperatureCompensated
          d.Iron.CurrentSetTemperature ≠ runaway_ok →
        (handleIron K inp s).halted = none
        ∧ (handleIron K inp s).state.Iron.RunawayTimer = inp.HAL_GetTick) := by
  refine ⟨handleIron_idle_reset K inp s, ?_, ?_, ?_⟩
  · intro d h1 h2 h3 h4 hn
    exact handleIron_tracking_reset K inp s d h1 h2 h3 h4
      (Or.inl ((runawayEntry_eq_false inp d).mpr hn))
  · intro d h1 h2 h3 h4 hp hst hdb ht htier
    rw [← runawayTier_eq_specTier inp d ht] at htier
    exact handleIron_tracking_reset K inp s d h1 h2 h3 h4 (Or.inr htier)
  · intro d hprev h1 h2 h3 h4 hp hst hdb ht htier
    rw [← runawayTier_eq_specTier inp d ht] at htier
    have he : runawayEntry inp d = true := by
      unfold runawayEntry
      simp [hst, hdb, ht, Nat.pos_iff_ne_zero.mp hp]
    obtain ⟨a, b, _⟩ := handleIron_first_detection K inp s d h1 h2 h3 h4 he htier hprev
    exact ⟨a, b⟩

/-- C20 on the demo station: setpoint 300, the tip at 380 from 1000 ms to 3999 ms (2999 ms,
timer 1000, no trip); the tick at 4100 ms reads 310, returns without a trip and resets the
tracking; the overrun seen again at 4200 ms is timed from 4200. -/
theorem runaway_tracking_reset_witness :
    overrunState.Iron.prevRunawayLevel = runaway_75 ∧ overrunState.Iron.RunawayTimer = 1000
    ∧ (run demoBoard overrunOps demoStart).halted = none
    ∧ ((handleIron demoBoard (demoInputs 4100 310 pidHalf) overrunState).halted = none
      ∧ (handleIron demoBoard (demoInputs 4100 310 pidHalf) overrunState).state.Iron.RunawayTimer
          = 4100
      ∧ (handleIron demoBoard (demoInputs 4100 310 pidHalf)
          overrunState).state.Iron.prevRunawayLevel = runaway_ok
      ∧ (handleIron demoBoard (demoInputs 4100 310 pidHalf) overrunState).state.Iron.RunawayStatus
          = overrunState.Iron.RunawayStatus)
    ∧ (handleIron demoBoard (demoInputs 4200 380 pidHalf)
        (handleIron demoBoard (demoInputs 4100 310 pidHalf) overrunState).state).state.Iron.RunawayTimer
        = 4200 :=
  ⟨by decide, by decide, by decide,
    (runaway_tracking_reset demoBoard (demoInputs 4100 310 pidHalf) overrunState).2.2.1
      ((dutyState demoBoard (demoInputs 4100 310 pidHalf) overrunState).getD overrunState)
      (by decide) (by decide) rfl (by decide) (by decide) (by decide) (by decide) (by decide)
      (by decide),
    by decide⟩

/-! ## C21: PWM-off window under reconfiguration -/

/-- C21 (fails after an accepted delay close to the period): the demo station starts with
period 19999 > delay 1999 + ADC window 60; `setPwmDelay(19990)` is accepted because
19990 < 19999; the tick at 1000 ms applies the update and stores `Pwm_Limit = 65485`, the
16-bit wrap of 19999 - (19990 + 60) = -51, which is above the period.  On a 12.0 V supply the
power limiter then allows the whole limit, and a PID output of one returns, without
`Error_Handler`, with a duty of 65485, above the period of 19999. -/
theorem pwm_limit_wraps_after_accepted_delay :
    demoStart.systemSettings.Profile.pwmPeriod
      > demoStart.systemSettings.Profile.pwmDelay + demoBoard.ADC_MEASURE_TIME
    ∧ allAccepted demoBoard squeezeOps demoStart = true
    ∧ squeezedState.systemSettings.Profile.pwmPeriod = 19999
    ∧ squeezedState.systemSettings.Profile.pwmDelay = 19990
    ∧ squeezedState.Iron.updatePwm = UpdateFlag.needs_update
    ∧ (handleIron demoBoard (demoInputs 1000 25 pidHalf) squeezedState).halted = none
    ∧ (handleIron demoBoard (demoInputs 1000 25 pidHalf) squeezedState).state.Iron.updatePwm
        = UpdateFlag.no_update
    ∧ (handleIron demoBoard (demoInputs 1000 25 pidHalf) squeezedState).state.Iron.Pwm_Limit
        = 65485
    ∧ (handleIron demoBoard (demoInputs 1000 25 pidOver) squeezedState).halted = none
    ∧ (handleIron demoBoard (demoInputs 1000 25 pidOver) squeezedState).state.Iron.Pwm_Out
        = 19998
    ∧ (handleIron demoBoard (fullPowerInputs 1000) squeezedState).halted = none
    ∧ (handleIron demoBoard (fullPowerInputs 1000) squeezedState).state.Iron.Pwm_Limit = 65485
    ∧ (handleIron demoBoard (fullPowerInputs 1000) squeezedState).state.Iron.Pwm_Max = 65485
    ∧ (handleIron demoBoard (fullPowerInputs 1000) squeezedState).state.Iron.Pwm_Out = 65485
    ∧ (handleIron demoBoard (fullPowerInputs 1000)
        squeezedState).state.systemSettings.Profile.pwmPeriod = 19999 := by
  refine ⟨?_, ?_, ?_, ?_, ?_, ?_, ?_, ?_, ?_, ?_, ?_, ?_, ?_, ?_, ?_⟩ <;> decide

/-! ## The limit while the window fits -/

/-- Within the window the limit is exact: from a profile with
`pwmPeriod > pwmDelay + ADC_MEASURE_TIME` (both of them `uint16_t`), a non-empty sequence of
accepted `setPwmPeriod` / `setPwmDelay` calls returns, keeps `pwmDelay < pwmPeriod` and leaves
the update pending; a tick that is neither short-circuited nor held back then clears the
pending flag and stores in `Pwm_Limit` the 16-bit value of
`pwmPeriod - (pwmDelay + ADC_MEASURE_TIME)`.  When the profile of that tick has
`pwmDelay + ADC_MEASURE_TIME <= pwmPeriod`, this is the exact integer difference, at most
`pwmPeriod`, and below `pwmPeriod` when `pwmDelay + ADC_MEASURE_TIME > 0`. -/
theorem pwm_limit_exact_within_window (K : Board) (ops : List Op) (s : Sys) (inp : Inputs)
    (hadc : K.ADC_MEASURE_TIME < 65536)
    (hper : s.systemSettings.Profile.pwmPeriod < 65536)
    (hwin : s.systemSettings.Profile.pwmPeriod
      > s.systemSettings.Profile.pwmDelay + K.ADC_MEASURE_TIME)
    (hne : ops ≠ []) (hacc : allAccepted K ops s = true)
    (h1 : flagsActive (entryState K inp (run K ops s).state) = false)
    (h2 : pidHold inp (modeState K inp (run K ops s).state) = false) :
    (run K ops s).halted = none
    ∧ (run K ops s).state.systemSettings.Profile.pwmDelay
        < (run K ops s).state.systemSettings.Profile.pwmPeriod
    ∧ (run K ops s).state.Iron.updatePwm = UpdateFlag.needs_update
    ∧ (handleIron K inp (run K ops s).state).state.Iron.updatePwm = UpdateFlag.no_update
    ∧ (handleIron K inp (run K ops s).state).state.Iron.Pwm_Limit
        = wrap16 (((run K ops s).state.systemSettings.Profile.pwmPeriod : Int)
            - (((run K ops s).state.systemSettings.Profile.pwmDelay : Int)
                + (K.ADC_MEASURE_TIME : Int)))
    ∧ ((run K ops s).state.systemSettings.Profile.pwmDelay + K.ADC_MEASURE_TIME
          ≤ (run K ops s).state.systemSettings.Profile.pwmPeriod →
        ((handleIron K inp (run K ops s).state).state.Iron.Pwm_Limit : Int)
          = ((run K ops s).state.systemSettings.Profile.pwmPeriod : Int)
            - (((run K ops s).state.systemSettings.Profile.pwmDelay : Int)
                + (K.ADC_MEASURE_TIME : Int))
        ∧ (handleIron K inp (run K ops s).state).state.Iron.Pwm_Limit
          ≤ (run K ops s).state.systemSettings.Profile.pwmPeriod
              - (run K ops s).state.systemSettings.Profile.pwmDelay - K.ADC_MEASURE_TIME
        ∧ (handleIron K inp (run K ops s).state).state.Iron.Pwm_Limit
          ≤ (run K ops s).state.systemSettings.Profile.pwmPeriod
        ∧ (0 < (run K ops s).state.systemSettings.Profile.pwmDelay + K.ADC_MEASURE_TIME →
            (handleIron K inp (run K ops s).state).state.Iron.Pwm_Limit
              < (run K ops s).state.systemSettings.Profile.pwmPeriod)) := by
  obtain ⟨r1, r2, r3, r4⟩ := allAccepted_run K ops s (by omega) hper hacc
  have hu := r4 (Or.inl hne)
  obtain ⟨a1, a2⟩ := handleIron_applies_pwm K inp (run K ops s).state h1 h2 hu
  rw [Nat.mod_eq_of_lt hadc] at a2
  refine ⟨r1, r2, hu, a1, a2, ?_⟩
  intro hw
  have e := wrap16_window _ _ _ r3 hadc hw
  rw [Nat.mod_eq_of_lt hadc] at e
  rw [a2, e]
  refine ⟨by omega, by omega, by omega, fun _ => by omega⟩

/-- On the demo station the period is set to 9999 and the delay to 999, both
accepted; the tick at 1000 ms applies the update and stores the limit 9999 - (999 + 60) =
8940. -/
theorem pwm_limit_exact_within_window_demo :
    retimedState.systemSettings.Profile.pwmPeriod = 9999
    ∧ retimedState.systemSettings.Profile.pwmDelay = 999
    ∧ (handleIron demoBoard (demoInputs 1000 25 pidHalf) retimedState).state.Iron.Pwm_Limit
        = 8940
    ∧ ((handleIron demoBoard (demoInputs 1000 25 pidHalf)
          (run demoBoard retimeOps demoStart).state).state.Iron.Pwm_Limit
        ≤ (run demoBoard retimeOps demoStart).state.systemSettings.Profile.pwmPeriod
            - (run demoBoard retimeOps demoStart).state.systemSettings.Profile.pwmDelay
            - demoBoard.ADC_MEASURE_TIME) :=
  ⟨by decide, by decide, by decide,
    ((pwm_limit_exact_within_window demoBoard retimeOps demoStart (demoInputs 1000 25 pidHalf)
      (by decide) (by decide) (by decide) (List.cons_ne_nil _ _) (by decide) (by decide)
      (by decide)).2.2.2.2.2
      (by decide)).2.1⟩

end IronCtl
